import Mathlib

/-!
# rclex: the resource-handle bridge between the Erlang VM and the ROS 2 client library

A shallow embedding of the NIF entry points of

* `src/rcl_publisher.c`, `src/rcl_subscription.c`, `src/rcl_client.c`, `src/rcl_clock.c`,
* `src/msg_int16_nif.c`,
* `c_src/src/publisher_nif.c`.

A NIF is a function of the host world (the resource cells and the hidden state of the
middleware) and of its argument vector.  It yields the returned term (or nothing, when the C
code dereferences a null pointer), the new world, and the list of native library calls it
issued, oldest first.  The native library (`rcl`, `rmw`) and the helpers of this repository
whose sources are not part of the tree (`qos.c`, `allocator.c`) are a parameter `Native`.
-/

namespace Rclex

/-! ## Host terms -/

/-- Modelled from the spec: the resource type tags declared in `resource_types.h` and
`total_nif.h`, which are missing from the tree; one tag per name used in the sources. -/
inductive ResourceType
  | rt_rcl_node_t
  | rt_rcl_publisher_t
  | rt_rcl_subscription_t
  | rt_rcl_client_t
  | rt_rcl_clock_t
  | rt_rosidl_message_type_support_t
  | rt_rosidl_service_type_support_t
  | rt_ros_message
  | rt_void
  | rt_msginfo
  | rt_Int16
  | rt_pub
  | rt_pub_options
  | rt_node
  | rt_ret
  deriving DecidableEq, Repr

/-- Modelled from the spec: the exceptions a NIF can raise.  `badarg` is the host
`enif_make_badarg`; `raise` and `raise_with_message` are the helpers of `terms.c`, which is
missing from the tree: each raises a host exception that records the source position, and
`raise_with_message` carries the given message verbatim. -/
inductive Raised
  | badarg
  | raise (file : String) (line : Nat)
  | raise_with_message (file : String) (line : Nat) (message : String)
  deriving DecidableEq, Repr

/-- Host terms, as far as the bridge inspects them. `list` is a proper list of integers (a
character list), `resource` a handle to the resource cell at an address, `other` any term the
bridge never looks into (maps, binaries, pids, improper lists), and `exception` the non-value
returned by a NIF that raises. -/
inductive ERL_NIF_TERM
  | atom (name : String)
  | integer (n : Int)
  | list (elems : List Int)
  | resource (addr : Nat)
  | tuple2 (a b : ERL_NIF_TERM)
  | other (tag : Nat)
  | exception (r : Raised)
  deriving DecidableEq, Repr

instance : Inhabited ERL_NIF_TERM := ⟨.other 0⟩

/-- Host API `enif_make_badarg`. -/
def enif_make_badarg : ERL_NIF_TERM := .exception .badarg

/-- Modelled from the spec: `raise(env, __FILE__, __LINE__)` of the missing `terms.c`. -/
def raise (file : String) (line : Nat) : ERL_NIF_TERM := .exception (.raise file line)

/-- Modelled from the spec: `raise_with_message(env, __FILE__, __LINE__, message)` of the
missing `terms.c`; the message is surfaced verbatim. -/
def raise_with_message (file : String) (line : Nat) (message : String) : ERL_NIF_TERM :=
  .exception (.raise_with_message file line message)

/-- Host API `enif_is_exception`. -/
def enif_is_exception : ERL_NIF_TERM → Bool
  | .exception _ => true
  | _ => false

/-- Host API `enif_is_atom`. -/
def enif_is_atom : ERL_NIF_TERM → Bool
  | .atom _ => true
  | _ => false

/-- Host API `enif_compare`, used by the bridge only to test for equality with zero. -/
def enif_compare (a b : ERL_NIF_TERM) : Int := if a = b then 0 else 1

/-- Host API `enif_make_tuple2`. -/
def enif_make_tuple2 (a b : ERL_NIF_TERM) : ERL_NIF_TERM := .tuple2 a b

/-- Host API `enif_make_int64`, `enif_make_uint64`, `enif_make_int`. -/
def enif_make_int (n : Int) : ERL_NIF_TERM := .integer n

/-- Host API `enif_make_atom`. -/
def enif_make_atom (name : String) : ERL_NIF_TERM := .atom name

/-- Modelled from the spec: the atom `ok` of the missing `terms.h`. -/
def atom_ok : ERL_NIF_TERM := .atom "ok"
/-- Modelled from the spec: the atom `error` of the missing `terms.h`. -/
def atom_error : ERL_NIF_TERM := .atom "error"
/-- Modelled from the spec: the atom `true` of the missing `terms.h`. -/
def atom_true : ERL_NIF_TERM := .atom "true"
/-- Modelled from the spec: the atom `false` of the missing `terms.h`. -/
def atom_false : ERL_NIF_TERM := .atom "false"
/-- Modelled from the spec: the clock selector `steady_time` of the missing `terms.h`. -/
def atom_steady_time : ERL_NIF_TERM := .atom "steady_time"
/-- Modelled from the spec: the clock selector `system_time` of the missing `terms.h`. -/
def atom_system_time : ERL_NIF_TERM := .atom "system_time"
/-- Modelled from the spec: the clock selector `ros_time` of the missing `terms.h`. -/
def atom_ros_time : ERL_NIF_TERM := .atom "ros_time"

/-- Host API `enif_get_string` with `ERL_NIF_LATIN1`: the return value and the bytes written
in front of the terminating NUL.  A proper list of bytes that fits with its terminator gives
its length plus one; one that does not fit is truncated to `size - 1` bytes and gives
`-size`; anything else gives `0`. -/
def enif_get_string (t : ERL_NIF_TERM) (size : Nat) : Int × List Nat :=
  match t with
  | .list cs =>
    if size < 1 then (0, [])
    else if cs.all (fun c => decide (0 ≤ c ∧ c ≤ 255)) then
      if cs.length < size then ((cs.length : Int) + 1, cs.map Int.toNat)
      else (-(size : Int), (cs.take (size - 1)).map Int.toNat)
    else (0, [])
  | _ => (0, [])

/-- The C string held by a NUL-terminated buffer: the bytes in front of the first NUL. -/
def cstr (buf : List Nat) : List Nat := buf.takeWhile (fun b => b != 0)

/-- Host API `enif_get_int`: an integer term that fits a C `int`. -/
def enif_get_int (t : ERL_NIF_TERM) : Option Int :=
  match t with
  | .integer n => if -2147483648 ≤ n ∧ n ≤ 2147483647 then some n else none
  | _ => none

/-! ## Return codes of the native library (`rcl/types.h`, `rmw/ret_types.h`) -/

abbrev rcl_ret_t := Int

def RCL_RET_OK : rcl_ret_t := 0
def RCL_RET_ERROR : rcl_ret_t := 1
def RCL_RET_UNSUPPORTED : rcl_ret_t := 3
def RCL_RET_BAD_ALLOC : rcl_ret_t := 10
def RCL_RET_INVALID_ARGUMENT : rcl_ret_t := 11
def RCL_RET_PUBLISHER_INVALID : rcl_ret_t := 300
def RCL_RET_SUBSCRIPTION_INVALID : rcl_ret_t := 400
def RCL_RET_SUBSCRIPTION_TAKE_FAILED : rcl_ret_t := 401
def RCL_RET_CLIENT_INVALID : rcl_ret_t := 500
def RCL_RET_CLIENT_TAKE_FAILED : rcl_ret_t := 501
def RMW_RET_OK : Int := 0
def RMW_TOPIC_VALID : Int := 0

/-- The clock kinds of `rcl/time.h`. -/
inductive rcl_clock_type_t
  | RCL_CLOCK_UNINITIALIZED
  | RCL_ROS_TIME
  | RCL_SYSTEM_TIME
  | RCL_STEADY_TIME
  deriving DecidableEq, Repr

/-- The numeric value of a clock kind in `rcl/time.h`. -/
def rcl_clock_type_t.toNat : rcl_clock_type_t → Nat
  | .RCL_CLOCK_UNINITIALIZED => 0
  | .RCL_ROS_TIME => 1
  | .RCL_SYSTEM_TIME => 2
  | .RCL_STEADY_TIME => 3

/-! ## Resource cells and the world -/

/-- A resource cell of the host: its type tag, the native value it stores (an opaque
encoding of the bytes) and its reference count. -/
structure Cell where
  rt : ResourceType
  val : Nat
  refc : Nat
  deriving DecidableEq, Repr

/-- One reference-count event of the host on the cell at an address: the allocation of the
cell, a handle term made for it, a reference released. -/
inductive RefEvent
  | alloc (p : Nat)
  | make (p : Nat)
  | release (p : Nat)
  deriving DecidableEq, Repr

/-- The world a NIF runs in: the resource cells (a handle's address is its index), the
hidden state `g` of the middleware, the number `avail` of cell allocations the host can
still satisfy, the indeterminate content `junk` of freshly allocated storage, and the
reference-count events of the host so far, oldest first. -/
structure World where
  heap : List Cell
  g : Nat
  avail : Nat
  junk : Nat
  events : List RefEvent
  deriving DecidableEq, Repr

/-- The functions of the native library that the bridge calls. -/
inductive NativeFn
  | rcl_node_is_valid
  | rcl_publisher_is_valid
  | rcl_subscription_is_valid
  | rcl_client_is_valid
  | rmw_validate_full_topic_name
  | rcl_publisher_init
  | rcl_publisher_fini
  | rcl_publish
  | rcl_publisher_can_loan_messages
  | rcl_borrow_loaned_message
  | rcl_publish_loaned_message
  | rcl_return_loaned_message_from_publisher
  | rcl_publisher_get_topic_name
  | rcl_subscription_init
  | rcl_subscription_fini
  | rcl_take
  | rcl_subscription_can_loan_messages
  | rcl_take_loaned_message
  | rcl_return_loaned_message_from_subscription
  | rcl_client_init
  | rcl_client_fini
  | rcl_take_response_with_info
  | rcl_send_request
  | rcl_clock_init
  | rcl_clock_get_now
  | rcl_clock_fini
  | std_msgs__msg__Int16__init
  | std_msgs__msg__Int16__destroy
  deriving DecidableEq, Repr

/-- One call into the native library: the function, the addresses of the resource cells
whose storage was handed to it (directly, or through a pointer read from the cell), the
native values passed in argument order, the string argument, and the code it returned
(`1` and `0` for a predicate). -/
structure NativeCall where
  fn : NativeFn
  cells : List Nat
  args : List Nat
  str : List Nat
  rc : Int
  deriving DecidableEq, Repr

/-- The outcome of a NIF call: the returned term (`none` when the C code writes through a
null pointer and has no defined result), the world afterwards and the native calls issued. -/
structure NifRun where
  ret : Option ERL_NIF_TERM
  world : World
  calls : List NativeCall
  deriving DecidableEq, Repr

/-- The result of a native function: return code, new hidden state, and the values written
through its first and second in-out pointers. -/
structure NativeRet where
  rc : rcl_ret_t
  g : Nat
  out : Nat
  out2 : Nat
  deriving DecidableEq, Repr

/-- A native options record: the bytes returned by the `get_default_options` function and
the fields the bridge has overwritten since. -/
structure rcl_options_t where
  defaults : Nat
  allocator : Option Nat
  qos : Option Nat
  deriving DecidableEq, Repr

abbrev rcl_publisher_options_t := rcl_options_t
abbrev rcl_subscription_options_t := rcl_options_t
abbrev rcl_client_options_t := rcl_options_t

/-- The native library and the helpers of the repository that are not part of the tree.
Validity predicates read the native value only; every other function also reads and
updates the hidden state of the middleware. -/
structure Native where
  rcl_node_is_valid : Nat → Bool
  rcl_publisher_is_valid : Nat → Bool
  rcl_subscription_is_valid : Nat → Bool
  rcl_client_is_valid : Nat → Bool
  /-- The name validator of `rmw`: return code and validation result for a C string. -/
  rmw_validate_full_topic_name : List Nat → Int × Int
  rmw_full_topic_name_validation_result_string : Int → String
  /-- The function `get_c_qos_profile` of `qos.c`: returned term and the profile written. -/
  get_c_qos_profile : ERL_NIF_TERM → ERL_NIF_TERM × Nat
  get_nif_allocator : Nat
  rcl_get_zero_initialized_publisher : Nat
  rcl_publisher_get_default_options : Nat
  /-- Hidden state, publisher, node, type support, topic name, options. -/
  rcl_publisher_init : Nat → Nat → Nat → Nat → List Nat → rcl_publisher_options_t → NativeRet
  /-- Hidden state, publisher, node; writes both. -/
  rcl_publisher_fini : Nat → Nat → Nat → NativeRet
  rcl_publish : Nat → Nat → Nat → NativeRet
  rcl_publisher_can_loan_messages : Nat → Nat → Bool
  /-- Hidden state, publisher, type support; writes the loaned message pointer. -/
  rcl_borrow_loaned_message : Nat → Nat → Nat → NativeRet
  rcl_publish_loaned_message : Nat → Nat → Nat → NativeRet
  rcl_return_loaned_message_from_publisher : Nat → Nat → Nat → NativeRet
  rcl_publisher_get_topic_name : Nat → Nat → Option (List Nat)
  rcl_get_zero_initialized_subscription : Nat
  rcl_subscription_get_default_options : Nat
  rcl_subscription_init : Nat → Nat → Nat → Nat → List Nat → rcl_subscription_options_t → NativeRet
  rcl_subscription_fini : Nat → Nat → Nat → NativeRet
  rcl_take : Nat → Nat → Nat → NativeRet
  rcl_subscription_can_loan_messages : Nat → Nat → Bool
  /-- Hidden state, subscription; writes the loaned message pointer. -/
  rcl_take_loaned_message : Nat → Nat → NativeRet
  rcl_return_loaned_message_from_subscription : Nat → Nat → Nat → NativeRet
  rcl_get_zero_initialized_client : Nat
  rcl_client_get_default_options : Nat
  rcl_client_init : Nat → Nat → Nat → Nat → List Nat → rcl_client_options_t → NativeRet
  rcl_client_fini : Nat → Nat → Nat → NativeRet
  /-- Hidden state, client, response; the sequence number of the header is `seq`. -/
  rcl_take_response_with_info : Nat → Nat → Nat → NativeRet × Int
  rcl_send_request : Nat → Nat → Nat → NativeRet × Int
  /-- Hidden state, clock kind, allocator; writes the clock. -/
  rcl_clock_init : Nat → rcl_clock_type_t → Nat → NativeRet
  /-- Hidden state, clock; writes the clock (`out`) and the time point (`out2`). -/
  rcl_clock_get_now : Nat → Nat → NativeRet
  rcl_clock_fini : Nat → Nat → NativeRet
  /-- The message initialiser: success flag and the message written. -/
  std_msgs__msg__Int16__init : Nat → Bool × Nat
  std_msgs__msg__Int16__destroy : Nat → Nat
  /-- The value of `ROSIDL_GET_MSG_TYPE_SUPPORT(std_msgs, msg, Int16)`. -/
  ROSIDL_GET_MSG_TYPE_SUPPORT_std_msgs_msg_Int16 : Nat

/-- The cell at an address, if there is one. -/
def World.cell (w : World) (p : Nat) : Option Cell := w.heap.get? p

/-- The type tag of the cell at an address, if there is one. -/
def World.kind (w : World) (p : Nat) : Option ResourceType := (w.cell p).map Cell.rt

/-- The native value read through a pointer to a cell. -/
def World.deref (w : World) (p : Nat) : Nat :=
  match w.cell p with
  | some c => c.val
  | none => 0

/-- Replace the cell at an index. -/
def setCell : List Cell → Nat → (Cell → Cell) → List Cell
  | [], _, _ => []
  | c :: cs, 0, f => f c :: cs
  | c :: cs, p + 1, f => c :: setCell cs p f

/-- Write a native value through a pointer to a cell. -/
def World.store (w : World) (p v : Nat) : World :=
  { w with heap := setCell w.heap p (fun c => { c with val := v }) }

/-- Replace the hidden state of the middleware after a native call. -/
def World.setG (w : World) (g : Nat) : World := { w with g := g }

/-- Host API `enif_get_resource`: the address of the cell when the term is a handle to a
cell of the expected type. -/
def enif_get_resource (w : World) (term : ERL_NIF_TERM) (type : ResourceType) : Option Nat :=
  match term with
  | .resource addr =>
    match w.cell addr with
    | some c => if c.rt = type then some addr else none
    | none => none
  | _ => none

/-- Host API `enif_alloc_resource`: a fresh cell with reference count one, recorded as an
event, or a null pointer when the host cannot satisfy the allocation. -/
def enif_alloc_resource (w : World) (type : ResourceType) : Option Nat × World :=
  if w.avail = 0 then (none, w)
  else (some w.heap.length,
        { w with heap := w.heap ++ [{ rt := type, val := w.junk, refc := 1 }],
                 avail := w.avail - 1,
                 events := w.events ++ [.alloc w.heap.length] })

/-- Host API `enif_make_resource`: a handle term for the cell; the term holds a reference,
and the event is recorded. -/
def enif_make_resource (w : World) (obj : Nat) : ERL_NIF_TERM × World :=
  (.resource obj,
    { w with heap := setCell w.heap obj (fun c => { c with refc := c.refc + 1 }),
             events := w.events ++ [.make obj] })

/-- Host API `enif_release_resource`: drop one reference and record the event. -/
def enif_release_resource (w : World) (obj : Nat) : World :=
  { w with heap := setCell w.heap obj (fun c => { c with refc := c.refc - 1 }),
           events := w.events ++ [.release obj] }

/-- The log entry of a validity or capability predicate applied to one cell. -/
def predCall (fn : NativeFn) (w : World) (p : Nat) (b : Bool) : NativeCall :=
  { fn := fn, cells := [p], args := [w.deref p], str := [], rc := if b then 1 else 0 }

/-- The log entry of the name validator. -/
def validateCall (name : List Nat) (rm : Int) : NativeCall :=
  { fn := .rmw_validate_full_topic_name, cells := [], args := [], str := name, rc := rm }

/-- The log entry of a native constructor called on a local, zero-initialised entity: the
node and type support cells, the values of the entity, the node and the type support, and
the name. -/
def initCall (fn : NativeFn) (w : World) (entity node_p ts_p : Nat) (name : List Nat)
    (rc : rcl_ret_t) : NativeCall :=
  { fn := fn, cells := [node_p, ts_p], args := [entity, w.deref node_p, w.deref ts_p],
    str := name, rc := rc }

/-- The log entry of a native call on an entity and a second cell. -/
def pairCall (fn : NativeFn) (w : World) (entity_p other_p : Nat) (rc : rcl_ret_t) :
    NativeCall :=
  { fn := fn, cells := [entity_p, other_p], args := [w.deref entity_p, w.deref other_p],
    str := [], rc := rc }

/-! ## `src/rcl_publisher.c` -/

namespace rcl_publisher

/-- The value of `__FILE__` in `src/rcl_publisher.c`. -/
def FILE : String := "src/rcl_publisher.c"

/-- The NIF `nif_rcl_publisher_init` of `src/rcl_publisher.c`. -/
def nif_rcl_publisher_init (N : Native) (w : World) (argv : List ERL_NIF_TERM) : NifRun :=
  match argv with
  | [a0, a1, a2, a3] =>
    match enif_get_resource w a0 .rt_rcl_node_t with
    | none => ⟨some enif_make_badarg, w, []⟩
    | some node_p =>
      let c1 := predCall .rcl_node_is_valid w node_p (N.rcl_node_is_valid (w.deref node_p))
      if !N.rcl_node_is_valid (w.deref node_p) then ⟨some (raise FILE 22), w, [c1]⟩ else
      match enif_get_resource w a1 .rt_rosidl_message_type_support_t with
      | none => ⟨some enif_make_badarg, w, [c1]⟩
      | some ts_p =>
        let topic_name := cstr (enif_get_string a2 256).2
        if (enif_get_string a2 256).1 ≤ 0 then ⟨some enif_make_badarg, w, [c1]⟩ else
        let rm := (N.rmw_validate_full_topic_name topic_name).1
        let validation_result := (N.rmw_validate_full_topic_name topic_name).2
        let c2 := validateCall topic_name rm
        if rm ≠ RMW_RET_OK then ⟨some (raise FILE 35), w, [c1, c2]⟩ else
        if validation_result ≠ RMW_TOPIC_VALID then
          ⟨some (raise_with_message FILE 38
            (N.rmw_full_topic_name_validation_result_string validation_result)), w, [c1, c2]⟩
        else
        let ret := (N.get_c_qos_profile a3).1
        let qos := (N.get_c_qos_profile a3).2
        if enif_is_exception ret then ⟨some ret, w, [c1, c2]⟩ else
        let publisher_options : rcl_publisher_options_t :=
          { defaults := N.rcl_publisher_get_default_options,
            allocator := some N.get_nif_allocator, qos := some qos }
        let r := N.rcl_publisher_init w.g N.rcl_get_zero_initialized_publisher
          (w.deref node_p) (w.deref ts_p) topic_name publisher_options
        let c3 := initCall .rcl_publisher_init w N.rcl_get_zero_initialized_publisher
          node_p ts_p topic_name r.rc
        let w1 := w.setG r.g
        if r.rc ≠ RCL_RET_OK then ⟨some (raise FILE 53), w1, [c1, c2, c3]⟩ else
        match (enif_alloc_resource w1 .rt_rcl_publisher_t).1 with
        | none => ⟨none, (enif_alloc_resource w1 .rt_rcl_publisher_t).2, [c1, c2, c3]⟩
        | some obj =>
          let w2 := ((enif_alloc_resource w1 .rt_rcl_publisher_t).2).store obj r.out
          let term := (enif_make_resource w2 obj).1
          let w3 := enif_release_resource (enif_make_resource w2 obj).2 obj
          ⟨some term, w3, [c1, c2, c3]⟩
  | _ => ⟨some enif_make_badarg, w, []⟩

/-- The NIF `nif_rcl_publisher_fini` of `src/rcl_publisher.c`. -/
def nif_rcl_publisher_fini (N : Native) (w : World) (argv : List ERL_NIF_TERM) : NifRun :=
  match argv with
  | [a0, a1] =>
    match enif_get_resource w a0 .rt_rcl_publisher_t with
    | none => ⟨some enif_make_badarg, w, []⟩
    | some publisher_p =>
      let c1 := predCall .rcl_publisher_is_valid w publisher_p
        (N.rcl_publisher_is_valid (w.deref publisher_p))
      if !N.rcl_publisher_is_valid (w.deref publisher_p) then
        ⟨some (raise FILE 69), w, [c1]⟩
      else
      match enif_get_resource w a1 .rt_rcl_node_t with
      | none => ⟨some enif_make_badarg, w, [c1]⟩
      | some node_p =>
        let c2 := predCall .rcl_node_is_valid w node_p (N.rcl_node_is_valid (w.deref node_p))
        if !N.rcl_node_is_valid (w.deref node_p) then ⟨some (raise FILE 74), w, [c1, c2]⟩ else
        let r := N.rcl_publisher_fini w.g (w.deref publisher_p) (w.deref node_p)
        let c3 := pairCall .rcl_publisher_fini w publisher_p node_p r.rc
        let w1 := ((w.setG r.g).store publisher_p r.out).store node_p r.out2
        if r.rc ≠ RCL_RET_OK then ⟨some (raise FILE 78), w1, [c1, c2, c3]⟩ else
        ⟨some atom_ok, w1, [c1, c2, c3]⟩
  | _ => ⟨some enif_make_badarg, w, []⟩

/-- The NIF `nif_rcl_publish` of `src/rcl_publisher.c`. -/
def nif_rcl_publish (N : Native) (w : World) (argv : List ERL_NIF_TERM) : NifRun :=
  match argv with
  | [a0, a1] =>
    match enif_get_resource w a0 .rt_rcl_publisher_t with
    | none => ⟨some enif_make_badarg, w, []⟩
    | some publisher_p =>
      let c1 := predCall .rcl_publisher_is_valid w publisher_p
        (N.rcl_publisher_is_valid (w.deref publisher_p))
      if !N.rcl_publisher_is_valid (w.deref publisher_p) then
        ⟨some (raise FILE 91), w, [c1]⟩
      else
      match enif_get_resource w a1 .rt_ros_message with
      | none => ⟨some enif_make_badarg, w, [c1]⟩
      | some ros_message_pp =>
        let r := N.rcl_publish w.g (w.deref publisher_p) (w.deref ros_message_pp)
        let c2 := pairCall .rcl_publish w publisher_p ros_message_pp r.rc
        if r.rc ≠ RCL_RET_OK then ⟨some (raise FILE 98), w.setG r.g, [c1, c2]⟩ else
        ⟨some atom_ok, w.setG r.g, [c1, c2]⟩
  | _ => ⟨some enif_make_badarg, w, []⟩

/-- The NIF `nif_rcl_publisher_can_loan_messages` of `src/rcl_publisher.c`. -/
def nif_rcl_publisher_can_loan_messages (N : Native) (w : World) (argv : List ERL_NIF_TERM) :
    NifRun :=
  match argv with
  | [a0] =>
    match enif_get_resource w a0 .rt_rcl_publisher_t with
    | none => ⟨some enif_make_badarg, w, []⟩
    | some publisher_p =>
      let c1 := predCall .rcl_publisher_is_valid w publisher_p
        (N.rcl_publisher_is_valid (w.deref publisher_p))
      if !N.rcl_publisher_is_valid (w.deref publisher_p) then
        ⟨some (raise FILE 110), w, [c1]⟩
      else
      let c2 := predCall .rcl_publisher_can_loan_messages w publisher_p
        (N.rcl_publisher_can_loan_messages w.g (w.deref publisher_p))
      if N.rcl_publisher_can_loan_messages w.g (w.deref publisher_p) then
        ⟨some atom_true, w, [c1, c2]⟩
      else ⟨some atom_false, w, [c1, c2]⟩
  | _ => ⟨some enif_make_badarg, w, []⟩

/-- The NIF `nif_rcl_borrow_loaned_message` of `src/rcl_publisher.c`. -/
def nif_rcl_borrow_loaned_message (N : Native) (w : World) (argv : List ERL_NIF_TERM) :
    NifRun :=
  match argv with
  | [a0, a1] =>
    match enif_get_resource w a0 .rt_rcl_publisher_t with
    | none => ⟨some enif_make_badarg, w, []⟩
    | some publisher_p =>
      let c1 := predCall .rcl_publisher_is_valid w publisher_p
        (N.rcl_publisher_is_valid (w.deref publisher_p))
      if !N.rcl_publisher_is_valid (w.deref publisher_p) then
        ⟨some (raise FILE 127), w, [c1]⟩
      else
      match enif_get_resource w a1 .rt_rosidl_message_type_support_t with
      | none => ⟨some enif_make_badarg, w, [c1]⟩
      | some ts_p =>
        let r := N.rcl_borrow_loaned_message w.g (w.deref publisher_p) (w.deref ts_p)
        let c2 := pairCall .rcl_borrow_loaned_message w publisher_p ts_p r.rc
        let w1 := w.setG r.g
        if r.rc = RCL_RET_OK then
          match (enif_alloc_resource w1 .rt_ros_message).1 with
          | none => ⟨none, (enif_alloc_resource w1 .rt_ros_message).2, [c1, c2]⟩
          | some obj =>
            let w2 := ((enif_alloc_resource w1 .rt_ros_message).2).store obj r.out
            let term := (enif_make_resource w2 obj).1
            let w3 := enif_release_resource (enif_make_resource w2 obj).2 obj
            ⟨some term, w3, [c1, c2]⟩
        else if r.rc = RCL_RET_PUBLISHER_INVALID then
          ⟨some (raise_with_message FILE 142 "passed publisher is invalid"), w1, [c1, c2]⟩
        else if r.rc = RCL_RET_INVALID_ARGUMENT then ⟨some enif_make_badarg, w1, [c1, c2]⟩
        else if r.rc = RCL_RET_BAD_ALLOC then
          ⟨some (raise_with_message FILE 146 "ros message could not be correctly created"),
            w1, [c1, c2]⟩
        else if r.rc = RCL_RET_UNSUPPORTED then
          ⟨some (raise_with_message FILE 149 "middleware does not support that feature"),
            w1, [c1, c2]⟩
        else ⟨some (raise_with_message FILE 151 "unspecified error"), w1, [c1, c2]⟩
  | _ => ⟨some enif_make_badarg, w, []⟩

/-- The NIF `nif_rcl_publish_loaned_message` of `src/rcl_publisher.c`. -/
def nif_rcl_publish_loaned_message (N : Native) (w : World) (argv : List ERL_NIF_TERM) :
    NifRun :=
  match argv with
  | [a0, a1] =>
    match enif_get_resource w a0 .rt_rcl_publisher_t with
    | none => ⟨some enif_make_badarg, w, []⟩
    | some publisher_p =>
      let c1 := predCall .rcl_publisher_is_valid w publisher_p
        (N.rcl_publisher_is_valid (w.deref publisher_p))
      if !N.rcl_publisher_is_valid (w.deref publisher_p) then
        ⟨some (raise FILE 162), w, [c1]⟩
      else
      match enif_get_resource w a1 .rt_ros_message with
      | none => ⟨some enif_make_badarg, w, [c1]⟩
      | some ros_message_pp =>
        let r := N.rcl_publish_loaned_message w.g (w.deref publisher_p)
          (w.deref ros_message_pp)
        let c2 := pairCall .rcl_publish_loaned_message w publisher_p ros_message_pp r.rc
        let w1 := w.setG r.g
        if r.rc = RCL_RET_OK then ⟨some atom_ok, w1, [c1, c2]⟩
        else if r.rc = RCL_RET_PUBLISHER_INVALID then
          ⟨some (raise_with_message FILE 172 "passed publisher is invalid"), w1, [c1, c2]⟩
        else if r.rc = RCL_RET_INVALID_ARGUMENT then ⟨some enif_make_badarg, w1, [c1, c2]⟩
        else if r.rc = RCL_RET_UNSUPPORTED then
          ⟨some (raise_with_message FILE 176 "middleware does not support that feature"),
            w1, [c1, c2]⟩
        else ⟨some (raise_with_message FILE 178 "unspecified error"), w1, [c1, c2]⟩
  | _ => ⟨some enif_make_badarg, w, []⟩

/-- The NIF `nif_rcl_return_loaned_message_from_publisher` of `src/rcl_publisher.c`. -/
def nif_rcl_return_loaned_message_from_publisher (N : Native) (w : World)
    (argv : List ERL_NIF_TERM) : NifRun :=
  match argv with
  | [a0, a1] =>
    match enif_get_resource w a0 .rt_rcl_publisher_t with
    | none => ⟨some enif_make_badarg, w, []⟩
    | some publisher_p =>
      let c1 := predCall .rcl_publisher_is_valid w publisher_p
        (N.rcl_publisher_is_valid (w.deref publisher_p))
      if !N.rcl_publisher_is_valid (w.deref publisher_p) then
        ⟨some (raise FILE 190), w, [c1]⟩
      else
      match enif_get_resource w a1 .rt_ros_message with
      | none => ⟨some enif_make_badarg, w, [c1]⟩
      | some ros_message_pp =>
        let r := N.rcl_return_loaned_message_from_publisher w.g (w.deref publisher_p)
          (w.deref ros_message_pp)
        let c2 := pairCall .rcl_return_loaned_message_from_publisher w publisher_p
          ros_message_pp r.rc
        let w1 := w.setG r.g
        if r.rc = RCL_RET_OK then ⟨some atom_ok, w1, [c1, c2]⟩
        else if r.rc = RCL_RET_PUBLISHER_INVALID then
          ⟨some (raise_with_message FILE 200 "passed publisher is invalid"), w1, [c1, c2]⟩
        else if r.rc = RCL_RET_INVALID_ARGUMENT then ⟨some enif_make_badarg, w1, [c1, c2]⟩
        else if r.rc = RCL_RET_UNSUPPORTED then
          ⟨some (raise_with_message FILE 204 "middleware does not support that feature"),
            w1, [c1, c2]⟩
        else ⟨some (raise_with_message FILE 206 "unspecified error"), w1, [c1, c2]⟩
  | _ => ⟨some enif_make_badarg, w, []⟩

end rcl_publisher

/-! ## `src/rcl_subscription.c` -/

namespace rcl_subscription

/-- The value of `__FILE__` in `src/rcl_subscription.c`. -/
def FILE : String := "src/rcl_subscription.c"

/-- The NIF `nif_rcl_subscription_init` of `src/rcl_subscription.c`. -/
def nif_rcl_subscription_init (N : Native) (w : World) (argv : List ERL_NIF_TERM) : NifRun :=
  match argv with
  | [a0, a1, a2, a3] =>
    match enif_get_resource w a0 .rt_rcl_node_t with
    | none => ⟨some enif_make_badarg, w, []⟩
    | some node_p =>
      let c1 := predCall .rcl_node_is_valid w node_p (N.rcl_node_is_valid (w.deref node_p))
      if !N.rcl_node_is_valid (w.deref node_p) then ⟨some (raise FILE 22), w, [c1]⟩ else
      match enif_get_resource w a1 .rt_rosidl_message_type_support_t with
      | none => ⟨some enif_make_badarg, w, [c1]⟩
      | some ts_p =>
        let topic_name := cstr (enif_get_string a2 256).2
        if (enif_get_string a2 256).1 ≤ 0 then ⟨some enif_make_badarg, w, [c1]⟩ else
        let rm := (N.rmw_validate_full_topic_name topic_name).1
        let validation_result := (N.rmw_validate_full_topic_name topic_name).2
        let c2 := validateCall topic_name rm
        if rm ≠ RMW_RET_OK then ⟨some (raise FILE 35), w, [c1, c2]⟩ else
        if validation_result ≠ RMW_TOPIC_VALID then
          ⟨some (raise_with_message FILE 38
            (N.rmw_full_topic_name_validation_result_string validation_result)), w, [c1, c2]⟩
        else
        let ret := (N.get_c_qos_profile a3).1
        let qos := (N.get_c_qos_profile a3).2
        if enif_is_exception ret then ⟨some ret, w, [c1, c2]⟩ else
        let subscription_options : rcl_subscription_options_t :=
          { defaults := N.rcl_subscription_get_default_options,
            allocator := some N.get_nif_allocator, qos := some qos }
        let r := N.rcl_subscription_init w.g N.rcl_get_zero_initialized_subscription
          (w.deref node_p) (w.deref ts_p) topic_name subscription_options
        let c3 := initCall .rcl_subscription_init w N.rcl_get_zero_initialized_subscription
          node_p ts_p topic_name r.rc
        let w1 := w.setG r.g
        if r.rc ≠ RCL_RET_OK then ⟨some (raise FILE 53), w1, [c1, c2, c3]⟩ else
        match (enif_alloc_resource w1 .rt_rcl_subscription_t).1 with
        | none => ⟨none, (enif_alloc_resource w1 .rt_rcl_subscription_t).2, [c1, c2, c3]⟩
        | some obj =>
          let w2 := ((enif_alloc_resource w1 .rt_rcl_subscription_t).2).store obj r.out
          let term := (enif_make_resource w2 obj).1
          let w3 := enif_release_resource (enif_make_resource w2 obj).2 obj
          ⟨some term, w3, [c1, c2, c3]⟩
  | _ => ⟨some enif_make_badarg, w, []⟩

/-- The NIF `nif_rcl_subscription_fini` of `src/rcl_subscription.c`. -/
def nif_rcl_subscription_fini (N : Native) (w : World) (argv : List ERL_NIF_TERM) : NifRun :=
  match argv with
  | [a0, a1] =>
    match enif_get_resource w a0 .rt_rcl_subscription_t with
    | none => ⟨some enif_make_badarg, w, []⟩
    | some subscription_p =>
      let c1 := predCall .rcl_subscription_is_valid w subscription_p
        (N.rcl_subscription_is_valid (w.deref subscription_p))
      if !N.rcl_subscription_is_valid (w.deref subscription_p) then
        ⟨some (raise FILE 69), w, [c1]⟩
      else
      match enif_get_resource w a1 .rt_rcl_node_t with
      | none => ⟨some enif_make_badarg, w, [c1]⟩
      | some node_p =>
        let c2 := predCall .rcl_node_is_valid w node_p (N.rcl_node_is_valid (w.deref node_p))
        if !N.rcl_node_is_valid (w.deref node_p) then ⟨some (raise FILE 74), w, [c1, c2]⟩ else
        let r := N.rcl_subscription_fini w.g (w.deref subscription_p) (w.deref node_p)
        let c3 := pairCall .rcl_subscription_fini w subscription_p node_p r.rc
        let w1 := ((w.setG r.g).store subscription_p r.out).store node_p r.out2
        if r.rc ≠ RCL_RET_OK then ⟨some (raise FILE 78), w1, [c1, c2, c3]⟩ else
        ⟨some atom_ok, w1, [c1, c2, c3]⟩
  | _ => ⟨some enif_make_badarg, w, []⟩

/-- The NIF `nif_rcl_take` of `src/rcl_subscription.c`. -/
def nif_rcl_take (N : Native) (w : World) (argv : List ERL_NIF_TERM) : NifRun :=
  match argv with
  | [a0, a1] =>
    match enif_get_resource w a0 .rt_rcl_subscription_t with
    | none => ⟨some enif_make_badarg, w, []⟩
    | some subscription_p =>
      let c1 := predCall .rcl_subscription_is_valid w subscription_p
        (N.rcl_subscription_is_valid (w.deref subscription_p))
      if !N.rcl_subscription_is_valid (w.deref subscription_p) then
        ⟨some (raise FILE 91), w, [c1]⟩
      else
      match enif_get_resource w a1 .rt_ros_message with
      | none => ⟨some enif_make_badarg, w, [c1]⟩
      | some ros_message_pp =>
        let r := N.rcl_take w.g (w.deref subscription_p) (w.deref ros_message_pp)
        let c2 := pairCall .rcl_take w subscription_p ros_message_pp r.rc
        let w1 := w.setG r.g
        if r.rc = RCL_RET_OK then ⟨some atom_ok, w1, [c1, c2]⟩ else
        if r.rc = RCL_RET_SUBSCRIPTION_TAKE_FAILED then ⟨some atom_error, w1, [c1, c2]⟩ else
        ⟨some (raise FILE 100), w1, [c1, c2]⟩
  | _ => ⟨some enif_make_badarg, w, []⟩

/-- The NIF `nif_rcl_subscription_can_loan_messages` of `src/rcl_subscription.c`. -/
def nif_rcl_subscription_can_loan_messages (N : Native) (w : World)
    (argv : List ERL_NIF_TERM) : NifRun :=
  match argv with
  | [a0] =>
    match enif_get_resource w a0 .rt_rcl_subscription_t with
    | none => ⟨some enif_make_badarg, w, []⟩
    | some subscription_p =>
      let c1 := predCall .rcl_subscription_is_valid w subscription_p
        (N.rcl_subscription_is_valid (w.deref subscription_p))
      if !N.rcl_subscription_is_valid (w.deref subscription_p) then
        ⟨some (raise FILE 110), w, [c1]⟩
      else
      let c2 := predCall .rcl_subscription_can_loan_messages w subscription_p
        (N.rcl_subscription_can_loan_messages w.g (w.deref subscription_p))
      if N.rcl_subscription_can_loan_messages w.g (w.deref subscription_p) then
        ⟨some atom_true, w, [c1, c2]⟩
      else ⟨some atom_false, w, [c1, c2]⟩
  | _ => ⟨some enif_make_badarg, w, []⟩

/-- The NIF `nif_rcl_take_loaned_message` of `src/rcl_subscription.c`. -/
def nif_rcl_take_loaned_message (N : Native) (w : World) (argv : List ERL_NIF_TERM) :
    NifRun :=
  match argv with
  | [a0] =>
    match enif_get_resource w a0 .rt_rcl_subscription_t with
    | none => ⟨some enif_make_badarg, w, []⟩
    | some subscription_p =>
      let c1 := predCall .rcl_subscription_is_valid w subscription_p
        (N.rcl_subscription_is_valid (w.deref subscription_p))
      if !N.rcl_subscription_is_valid (w.deref subscription_p) then
        ⟨some (raise FILE 127), w, [c1]⟩
      else
      let r := N.rcl_take_loaned_message w.g (w.deref subscription_p)
      let c2 : NativeCall :=
        { fn := .rcl_take_loaned_message, cells := [subscription_p],
          args := [w.deref subscription_p], str := [], rc := r.rc }
      let w1 := w.setG r.g
      if r.rc = RCL_RET_OK then
        match (enif_alloc_resource w1 .rt_ros_message).1 with
        | none => ⟨none, (enif_alloc_resource w1 .rt_ros_message).2, [c1, c2]⟩
        | some obj =>
          let w2 := ((enif_alloc_resource w1 .rt_ros_message).2).store obj r.out
          let term := (enif_make_resource w2 obj).1
          let w3 := enif_release_resource (enif_make_resource w2 obj).2 obj
          ⟨some (enif_make_tuple2 atom_ok term), w3, [c1, c2]⟩
      else if r.rc = RCL_RET_SUBSCRIPTION_TAKE_FAILED then ⟨some atom_error, w1, [c1, c2]⟩
      else if r.rc = RCL_RET_SUBSCRIPTION_INVALID then
        ⟨some (raise_with_message FILE 141 "passed subscription is invalid"), w1, [c1, c2]⟩
      else if r.rc = RCL_RET_INVALID_ARGUMENT then ⟨some enif_make_badarg, w1, [c1, c2]⟩
      else if r.rc = RCL_RET_UNSUPPORTED then
        ⟨some (raise_with_message FILE 145 "middleware does not support that feature"),
          w1, [c1, c2]⟩
      else ⟨some (raise_with_message FILE 147 "unspecified error"), w1, [c1, c2]⟩
  | _ => ⟨some enif_make_badarg, w, []⟩

/-- The NIF `nif_rcl_return_loaned_message_from_subscription` of `src/rcl_subscription.c`. -/
def nif_rcl_return_loaned_message_from_subscription (N : Native) (w : World)
    (argv : List ERL_NIF_TERM) : NifRun :=
  match argv with
  | [a0, a1] =>
    match enif_get_resource w a0 .rt_rcl_subscription_t with
    | none => ⟨some enif_make_badarg, w, []⟩
    | some subscription_p =>
      let c1 := predCall .rcl_subscription_is_valid w subscription_p
        (N.rcl_subscription_is_valid (w.deref subscription_p))
      if !N.rcl_subscription_is_valid (w.deref subscription_p) then
        ⟨some (raise FILE 159), w, [c1]⟩
      else
      match enif_get_resource w a1 .rt_ros_message with
      | none => ⟨some enif_make_badarg, w, [c1]⟩
      | some ros_message_pp =>
        let r := N.rcl_return_loaned_message_from_subscription w.g (w.deref subscription_p)
          (w.deref ros_message_pp)
        let c2 := pairCall .rcl_return_loaned_message_from_subscription w subscription_p
          ros_message_pp r.rc
        let w1 := w.setG r.g
        if r.rc = RCL_RET_OK then ⟨some atom_ok, w1, [c1, c2]⟩
        else if r.rc = RCL_RET_SUBSCRIPTION_INVALID then
          ⟨some (raise_with_message FILE 169 "passed subscription is invalid"), w1, [c1, c2]⟩
        else if r.rc = RCL_RET_INVALID_ARGUMENT then ⟨some enif_make_badarg, w1, [c1, c2]⟩
        else if r.rc = RCL_RET_UNSUPPORTED then
          ⟨some (raise_with_message FILE 173 "middleware does not support that feature"),
            w1, [c1, c2]⟩
        else ⟨some (raise_with_message FILE 175 "unspecified error"), w1, [c1, c2]⟩
  | _ => ⟨some enif_make_badarg, w, []⟩

end rcl_subscription

/-! ## `src/rcl_client.c` -/

namespace rcl_client

/-- The value of `__FILE__` in `src/rcl_client.c`. -/
def FILE : String := "src/rcl_client.c"

/-- The NIF `nif_rcl_client_init` of `src/rcl_client.c`. -/
def nif_rcl_client_init (N : Native) (w : World) (argv : List ERL_NIF_TERM) : NifRun :=
  match argv with
  | [a0, a1, a2, a3] =>
    match enif_get_resource w a0 .rt_rcl_node_t with
    | none => ⟨some enif_make_badarg, w, []⟩
    | some node_p =>
      let c1 := predCall .rcl_node_is_valid w node_p (N.rcl_node_is_valid (w.deref node_p))
      if !N.rcl_node_is_valid (w.deref node_p) then ⟨some (raise FILE 22), w, [c1]⟩ else
      match enif_get_resource w a1 .rt_rosidl_service_type_support_t with
      | none => ⟨some enif_make_badarg, w, [c1]⟩
      | some ts_p =>
        let service_name := cstr (enif_get_string a2 256).2
        if (enif_get_string a2 256).1 ≤ 0 then ⟨some enif_make_badarg, w, [c1]⟩ else
        let rm := (N.rmw_validate_full_topic_name service_name).1
        let validation_result := (N.rmw_validate_full_topic_name service_name).2
        let c2 := validateCall service_name rm
        if rm ≠ RMW_RET_OK then ⟨some (raise FILE 35), w, [c1, c2]⟩ else
        if validation_result ≠ RMW_TOPIC_VALID then
          ⟨some (raise_with_message FILE 38
            (N.rmw_full_topic_name_validation_result_string validation_result)), w, [c1, c2]⟩
        else
        let ret := (N.get_c_qos_profile a3).1
        let qos := (N.get_c_qos_profile a3).2
        if enif_is_exception ret then ⟨some ret, w, [c1, c2]⟩ else
        let client_options : rcl_client_options_t :=
          { defaults := N.rcl_client_get_default_options,
            allocator := some N.get_nif_allocator, qos := some qos }
        let r := N.rcl_client_init w.g N.rcl_get_zero_initialized_client
          (w.deref node_p) (w.deref ts_p) service_name client_options
        let c3 := initCall .rcl_client_init w N.rcl_get_zero_initialized_client
          node_p ts_p service_name r.rc
        let w1 := w.setG r.g
        if r.rc ≠ RCL_RET_OK then ⟨some (raise FILE 53), w1, [c1, c2, c3]⟩ else
        match (enif_alloc_resource w1 .rt_rcl_client_t).1 with
        | none => ⟨none, (enif_alloc_resource w1 .rt_rcl_client_t).2, [c1, c2, c3]⟩
        | some obj =>
          let w2 := ((enif_alloc_resource w1 .rt_rcl_client_t).2).store obj r.out
          let term := (enif_make_resource w2 obj).1
          let w3 := enif_release_resource (enif_make_resource w2 obj).2 obj
          ⟨some term, w3, [c1, c2, c3]⟩
  | _ => ⟨some enif_make_badarg, w, []⟩

/-- The NIF `nif_rcl_client_fini` of `src/rcl_client.c`. -/
def nif_rcl_client_fini (N : Native) (w : World) (argv : List ERL_NIF_TERM) : NifRun :=
  match argv with
  | [a0, a1] =>
    match enif_get_resource w a0 .rt_rcl_client_t with
    | none => ⟨some enif_make_badarg, w, []⟩
    | some client_p =>
      let c1 := predCall .rcl_client_is_valid w client_p
        (N.rcl_client_is_valid (w.deref client_p))
      if !N.rcl_client_is_valid (w.deref client_p) then
        ⟨some (raise FILE 69), w, [c1]⟩
      else
      match enif_get_resource w a1 .rt_rcl_node_t with
      | none => ⟨some enif_make_badarg, w, [c1]⟩
      | some node_p =>
        let c2 := predCall .rcl_node_is_valid w node_p (N.rcl_node_is_valid (w.deref node_p))
        if !N.rcl_node_is_valid (w.deref node_p) then ⟨some (raise FILE 74), w, [c1, c2]⟩ else
        let r := N.rcl_client_fini w.g (w.deref client_p) (w.deref node_p)
        let c3 := pairCall .rcl_client_fini w client_p node_p r.rc
        let w1 := ((w.setG r.g).store client_p r.out).store node_p r.out2
        if r.rc ≠ RCL_RET_OK then ⟨some (raise FILE 78), w1, [c1, c2, c3]⟩ else
        ⟨some atom_ok, w1, [c1, c2, c3]⟩
  | _ => ⟨some enif_make_badarg, w, []⟩

/-- The NIF `nif_rcl_take_response_with_info` of `src/rcl_client.c`. -/
def nif_rcl_take_response_with_info (N : Native) (w : World) (argv : List ERL_NIF_TERM) :
    NifRun :=
  match argv with
  | [a0, a1] =>
    match enif_get_resource w a0 .rt_rcl_client_t with
    | none => ⟨some enif_make_badarg, w, []⟩
    | some client_p =>
      let c1 := predCall .rcl_client_is_valid w client_p
        (N.rcl_client_is_valid (w.deref client_p))
      if !N.rcl_client_is_valid (w.deref client_p) then ⟨some (raise FILE 92), w, [c1]⟩ else
      match enif_get_resource w a1 .rt_ros_message with
      | none => ⟨some enif_make_badarg, w, [c1]⟩
      | some ros_response_message_pp =>
        let r := (N.rcl_take_response_with_info w.g (w.deref client_p)
          (w.deref ros_response_message_pp)).1
        let sequence_number := (N.rcl_take_response_with_info w.g (w.deref client_p)
          (w.deref ros_response_message_pp)).2
        let c2 := pairCall .rcl_take_response_with_info w client_p ros_response_message_pp r.rc
        let w1 := w.setG r.g
        if r.rc = RCL_RET_OK then
          ⟨some (enif_make_tuple2 atom_ok (enif_make_int sequence_number)), w1, [c1, c2]⟩
        else
        if r.rc = RCL_RET_CLIENT_TAKE_FAILED then ⟨some atom_error, w1, [c1, c2]⟩ else
        ⟨some (raise FILE 104), w1, [c1, c2]⟩
  | _ => ⟨some enif_make_badarg, w, []⟩

/-- The NIF `nif_rcl_send_request` of `src/rcl_client.c`. -/
def nif_rcl_send_request (N : Native) (w : World) (argv : List ERL_NIF_TERM) : NifRun :=
  match argv with
  | [a0, a1] =>
    match enif_get_resource w a0 .rt_rcl_client_t with
    | none => ⟨some enif_make_badarg, w, []⟩
    | some client_p =>
      let c1 := predCall .rcl_client_is_valid w client_p
        (N.rcl_client_is_valid (w.deref client_p))
      if !N.rcl_client_is_valid (w.deref client_p) then ⟨some (raise FILE 116), w, [c1]⟩ else
      match enif_get_resource w a1 .rt_ros_message with
      | none => ⟨some enif_make_badarg, w, [c1]⟩
      | some ros_request_message_pp =>
        let r := (N.rcl_send_request w.g (w.deref client_p)
          (w.deref ros_request_message_pp)).1
        let sequence_number := (N.rcl_send_request w.g (w.deref client_p)
          (w.deref ros_request_message_pp)).2
        let c2 := pairCall .rcl_send_request w client_p ros_request_message_pp r.rc
        let w1 := w.setG r.g
        if r.rc = RCL_RET_OK then
          ⟨some (enif_make_tuple2 atom_ok (enif_make_int sequence_number)), w1, [c1, c2]⟩
        else ⟨some (raise FILE 127), w1, [c1, c2]⟩
  | _ => ⟨some enif_make_badarg, w, []⟩

end rcl_client

/-! ## `src/rcl_clock.c` -/

namespace rcl_clock

/-- The NIF `nif_rcl_clock_init` of `src/rcl_clock.c`.  The clock kind starts as
`RCL_STEADY_TIME`; with one argument the selector must be an atom and each of the three
comparisons that succeeds assigns its kind. -/
def nif_rcl_clock_init (N : Native) (w : World) (argv : List ERL_NIF_TERM) : NifRun :=
  let allocator := N.get_nif_allocator
  let initial : rcl_clock_type_t := .RCL_STEADY_TIME
  let rcl_clock_type : Option rcl_clock_type_t :=
    match argv with
    | [clock_type] =>
      if !enif_is_atom clock_type then none
      else if enif_compare clock_type atom_steady_time = 0 then some .RCL_STEADY_TIME
      else if enif_compare clock_type atom_system_time = 0 then some .RCL_SYSTEM_TIME
      else if enif_compare clock_type atom_ros_time = 0 then some .RCL_ROS_TIME
      else some initial
    | _ => some initial
  match rcl_clock_type with
  | none => ⟨some enif_make_badarg, w, []⟩
  | some ty =>
    let r := N.rcl_clock_init w.g ty allocator
    let c1 : NativeCall :=
      { fn := .rcl_clock_init, cells := [], args := [ty.toNat, allocator], str := [],
        rc := r.rc }
    let w1 := w.setG r.g
    if r.rc ≠ RCL_RET_OK then ⟨some enif_make_badarg, w1, [c1]⟩ else
    match (enif_alloc_resource w1 .rt_rcl_clock_t).1 with
    | none => ⟨none, (enif_alloc_resource w1 .rt_rcl_clock_t).2, [c1]⟩
    | some obj =>
      let w2 := ((enif_alloc_resource w1 .rt_rcl_clock_t).2).store obj r.out
      let term := (enif_make_resource w2 obj).1
      let w3 := enif_release_resource (enif_make_resource w2 obj).2 obj
      ⟨some term, w3, [c1]⟩

/-- The NIF `nif_rcl_clock_get_now` of `src/rcl_clock.c`. -/
def nif_rcl_clock_get_now (N : Native) (w : World) (argv : List ERL_NIF_TERM) : NifRun :=
  match argv with
  | [a0] =>
    match enif_get_resource w a0 .rt_rcl_clock_t with
    | none => ⟨some enif_make_badarg, w, []⟩
    | some clock_p =>
      let r := N.rcl_clock_get_now w.g (w.deref clock_p)
      let c1 : NativeCall :=
        { fn := .rcl_clock_get_now, cells := [clock_p], args := [w.deref clock_p], str := [],
          rc := r.rc }
      let w1 := (w.setG r.g).store clock_p r.out
      if r.rc ≠ RCL_RET_OK then ⟨some enif_make_badarg, w1, [c1]⟩ else
      ⟨some (enif_make_int (r.out2 : Int)), w1, [c1]⟩
  | _ => ⟨some enif_make_badarg, w, []⟩

/-- The NIF `nif_rcl_clock_fini` of `src/rcl_clock.c`. -/
def nif_rcl_clock_fini (N : Native) (w : World) (argv : List ERL_NIF_TERM) : NifRun :=
  match argv with
  | [a0] =>
    match enif_get_resource w a0 .rt_rcl_clock_t with
    | none => ⟨some enif_make_badarg, w, []⟩
    | some clock_p =>
      let r := N.rcl_clock_fini w.g (w.deref clock_p)
      let c1 : NativeCall :=
        { fn := .rcl_clock_fini, cells := [clock_p], args := [w.deref clock_p], str := [],
          rc := r.rc }
      let w1 := (w.setG r.g).store clock_p r.out
      if r.rc ≠ RCL_RET_OK then ⟨some enif_make_badarg, w1, [c1]⟩ else
      ⟨some atom_ok, w1, [c1]⟩
  | _ => ⟨some enif_make_badarg, w, []⟩

end rcl_clock

/-! ## `src/msg_int16_nif.c` -/

namespace msg_int16_nif

/-- The field `data` of a `std_msgs__msg__Int16` stored in a cell: the low sixteen bits of
the cell, read as a signed integer. -/
def int16_data (v : Nat) : Int :=
  if v % 65536 < 32768 then ((v % 65536 : Nat) : Int) else ((v % 65536 : Nat) : Int) - 65536

/-- The cell after the assignment `res_msg_Int16->data = num`: the low sixteen bits are
those of `num`, the other bytes are kept. -/
def set_int16_data (v : Nat) (num : Int) : Nat :=
  v - v % 65536 + (num % 65536).toNat

/-- The NIF `nif_create_empty_int16` of `src/msg_int16_nif.c`. -/
def nif_create_empty_int16 (_N : Native) (w : World) (argv : List ERL_NIF_TERM) : NifRun :=
  match argv with
  | [] =>
    match (enif_alloc_resource w .rt_void).1 with
    | none => ⟨some enif_make_badarg, (enif_alloc_resource w .rt_void).2, []⟩
    | some res =>
      let ret := (enif_make_resource (enif_alloc_resource w .rt_void).2 res).1
      let w1 := enif_release_resource
        (enif_make_resource (enif_alloc_resource w .rt_void).2 res).2 res
      ⟨some ret, w1, []⟩
  | _ => ⟨some enif_make_badarg, w, []⟩

/-- The NIF `nif_create_msginfo` of `src/msg_int16_nif.c`. -/
def nif_create_msginfo (_N : Native) (w : World) (argv : List ERL_NIF_TERM) : NifRun :=
  match argv with
  | [] =>
    match (enif_alloc_resource w .rt_msginfo).1 with
    | none => ⟨some enif_make_badarg, (enif_alloc_resource w .rt_msginfo).2, []⟩
    | some res =>
      let ret := (enif_make_resource (enif_alloc_resource w .rt_msginfo).2 res).1
      let w1 := enif_release_resource
        (enif_make_resource (enif_alloc_resource w .rt_msginfo).2 res).2 res
      ⟨some ret, w1, []⟩
  | _ => ⟨some enif_make_badarg, w, []⟩

/-- The NIF `nif_std_msgs__msg__Int16__init` of `src/msg_int16_nif.c`. -/
def nif_std_msgs__msg__Int16__init (N : Native) (w : World) (argv : List ERL_NIF_TERM) :
    NifRun :=
  match argv with
  | [a0] =>
    match enif_get_resource w a0 .rt_Int16 with
    | none => ⟨some enif_make_badarg, w, []⟩
    | some res_msg =>
      let ret := (N.std_msgs__msg__Int16__init (w.deref res_msg)).1
      let c1 : NativeCall :=
        { fn := .std_msgs__msg__Int16__init, cells := [res_msg], args := [w.deref res_msg],
          str := [], rc := if ret then 1 else 0 }
      let w1 := w.store res_msg (N.std_msgs__msg__Int16__init (w.deref res_msg)).2
      if !ret then ⟨some atom_false, w1, [c1]⟩ else ⟨some atom_true, w1, [c1]⟩
  | _ => ⟨some enif_make_badarg, w, []⟩

/-- The NIF `nif_std_msgs__msg__Int16__destroy` of `src/msg_int16_nif.c`. -/
def nif_std_msgs__msg__Int16__destroy (N : Native) (w : World) (argv : List ERL_NIF_TERM) :
    NifRun :=
  match argv with
  | [a0] =>
    match enif_get_resource w a0 .rt_Int16 with
    | none => ⟨some enif_make_badarg, w, []⟩
    | some res_msg =>
      let c1 : NativeCall :=
        { fn := .std_msgs__msg__Int16__destroy, cells := [res_msg],
          args := [w.deref res_msg], str := [], rc := 0 }
      ⟨some atom_ok, w.store res_msg (N.std_msgs__msg__Int16__destroy (w.deref res_msg)),
        [c1]⟩
  | _ => ⟨some enif_make_badarg, w, []⟩

/-- The NIF `nif_getmsgtype_int16` of `src/msg_int16_nif.c`. -/
def nif_getmsgtype_int16 (N : Native) (w : World) (argv : List ERL_NIF_TERM) : NifRun :=
  match argv with
  | [] =>
    match (enif_alloc_resource w .rt_void).1 with
    | none => ⟨some enif_make_badarg, (enif_alloc_resource w .rt_void).2, []⟩
    | some res_tmp =>
      let ret := (enif_make_resource (enif_alloc_resource w .rt_void).2 res_tmp).1
      let w1 := enif_release_resource
        (enif_make_resource (enif_alloc_resource w .rt_void).2 res_tmp).2 res_tmp
      ⟨some ret, w1.store res_tmp N.ROSIDL_GET_MSG_TYPE_SUPPORT_std_msgs_msg_Int16, []⟩
  | _ => ⟨some enif_make_badarg, w, []⟩

/-- The NIF `nif_readdata_int16` of `src/msg_int16_nif.c`. -/
def nif_readdata_int16 (_N : Native) (w : World) (argv : List ERL_NIF_TERM) : NifRun :=
  match argv with
  | [a0] =>
    match enif_get_resource w a0 .rt_void with
    | none => ⟨some enif_make_badarg, w, []⟩
    | some res_msg => ⟨some (enif_make_int (int16_data (w.deref res_msg))), w, []⟩
  | _ => ⟨some enif_make_badarg, w, []⟩

/-- The NIF `nif_setdata_int16` of `src/msg_int16_nif.c`. -/
def nif_setdata_int16 (_N : Native) (w : World) (argv : List ERL_NIF_TERM) : NifRun :=
  match argv with
  | [a0, a1] =>
    match enif_get_resource w a0 .rt_void with
    | none => ⟨some enif_make_badarg, w, []⟩
    | some res_msg =>
      match enif_get_int a1 with
      | none => ⟨some enif_make_badarg, w, []⟩
      | some num =>
        ⟨some (enif_make_atom "ok"), w.store res_msg (set_int16_data (w.deref res_msg) num),
          []⟩
  | _ => ⟨some enif_make_badarg, w, []⟩

end msg_int16_nif

/-! ## `c_src/src/publisher_nif.c` -/

namespace publisher_nif

/-- The four bytes of a C `int` (a return code or an integer argument) as stored in memory. -/
def int_bytes (rc : rcl_ret_t) : Nat := (rc % 4294967296).toNat

/-- The NIF `nif_rcl_get_zero_initialized_publisher` of `c_src/src/publisher_nif.c`. -/
def nif_rcl_get_zero_initialized_publisher (N : Native) (w : World)
    (_argv : List ERL_NIF_TERM) : NifRun :=
  match (enif_alloc_resource w .rt_pub).1 with
  | none => ⟨some enif_make_badarg, (enif_alloc_resource w .rt_pub).2, []⟩
  | some res =>
    let ret := (enif_make_resource (enif_alloc_resource w .rt_pub).2 res).1
    let w1 := enif_release_resource (enif_make_resource (enif_alloc_resource w .rt_pub).2 res).2
      res
    ⟨some ret, w1.store res N.rcl_get_zero_initialized_publisher, []⟩

/-- The NIF `nif_rcl_publisher_get_default_options` of `c_src/src/publisher_nif.c`. -/
def nif_rcl_publisher_get_default_options (N : Native) (w : World)
    (_argv : List ERL_NIF_TERM) : NifRun :=
  match (enif_alloc_resource w .rt_pub_options).1 with
  | none => ⟨some enif_make_badarg, (enif_alloc_resource w .rt_pub_options).2, []⟩
  | some res =>
    let ret := (enif_make_resource (enif_alloc_resource w .rt_pub_options).2 res).1
    let w1 := enif_release_resource
      (enif_make_resource (enif_alloc_resource w .rt_pub_options).2 res).2 res
    ⟨some ret, w1.store res N.rcl_publisher_get_default_options, []⟩

/-- The NIF `nif_rcl_publisher_get_topic_name` of `c_src/src/publisher_nif.c`; the native
function may return a null pointer, which `enif_make_string` then reads. -/
def nif_rcl_publisher_get_topic_name (N : Native) (w : World) (argv : List ERL_NIF_TERM) :
    NifRun :=
  match argv with
  | [a0] =>
    match enif_get_resource w a0 .rt_pub with
    | none => ⟨some enif_make_badarg, w, []⟩
    | some res =>
      let c1 : NativeCall :=
        { fn := .rcl_publisher_get_topic_name, cells := [res], args := [w.deref res],
          str := [], rc := 0 }
      match N.rcl_publisher_get_topic_name w.g (w.deref res) with
      | none => ⟨none, w, [c1]⟩
      | some result => ⟨some (.list (result.map Int.ofNat)), w, [c1]⟩
  | _ => ⟨some enif_make_badarg, w, []⟩

/-- The NIF `nif_rcl_publisher_fini` of `c_src/src/publisher_nif.c`. -/
def nif_rcl_publisher_fini (N : Native) (w : World) (argv : List ERL_NIF_TERM) : NifRun :=
  match argv with
  | [a0, a1] =>
    match enif_get_resource w a0 .rt_pub with
    | none => ⟨some enif_make_badarg, w, []⟩
    | some res_arg_pub =>
      match enif_get_resource w a1 .rt_node with
      | none => ⟨some enif_make_badarg, w, []⟩
      | some res_arg_node =>
        match (enif_alloc_resource w .rt_ret).1 with
        | none => ⟨some enif_make_badarg, (enif_alloc_resource w .rt_ret).2, []⟩
        | some res =>
          let ret := (enif_make_resource (enif_alloc_resource w .rt_ret).2 res).1
          let w1 := enif_release_resource
            (enif_make_resource (enif_alloc_resource w .rt_ret).2 res).2 res
          let r := N.rcl_publisher_fini w1.g (w1.deref res_arg_pub) (w1.deref res_arg_node)
          let c1 := pairCall .rcl_publisher_fini w1 res_arg_pub res_arg_node r.rc
          let w2 := ((w1.setG r.g).store res_arg_pub r.out).store res_arg_node r.out2
          ⟨some ret, w2.store res (int_bytes r.rc), [c1]⟩
  | _ => ⟨some enif_make_badarg, w, []⟩

/-- The NIF `nif_rcl_publisher_init` of `c_src/src/publisher_nif.c`.  The topic name is read
into a buffer of 128 bytes and only the result `0` of `enif_get_string` is rejected; the
type support handed to the native constructor is the compiled-in one of
`std_msgs/msg/Int16`. -/
def nif_rcl_publisher_init (N : Native) (w : World) (argv : List ERL_NIF_TERM) : NifRun :=
  match argv with
  | [a0, a1, a2, a3] =>
    match enif_get_resource w a0 .rt_pub with
    | none => ⟨some enif_make_badarg, w, []⟩
    | some res_pub =>
      match enif_get_resource w a1 .rt_node with
      | none => ⟨some enif_make_badarg, w, []⟩
      | some res_node =>
        let buf := cstr (enif_get_string a2 128).2
        if (enif_get_string a2 128).1 = 0 then ⟨some enif_make_badarg, w, []⟩ else
        match enif_get_resource w a3 .rt_pub_options with
        | none => ⟨some enif_make_badarg, w, []⟩
        | some res_options =>
          match (enif_alloc_resource w .rt_ret).1 with
          | none => ⟨some enif_make_badarg, (enif_alloc_resource w .rt_ret).2, []⟩
          | some res_return =>
            let ret := (enif_make_resource (enif_alloc_resource w .rt_ret).2 res_return).1
            let w1 := enif_release_resource
              (enif_make_resource (enif_alloc_resource w .rt_ret).2 res_return).2 res_return
            let msgtype := N.ROSIDL_GET_MSG_TYPE_SUPPORT_std_msgs_msg_Int16
            let options : rcl_publisher_options_t :=
              { defaults := w1.deref res_options, allocator := none, qos := none }
            let r := N.rcl_publisher_init w1.g (w1.deref res_pub) (w1.deref res_node) msgtype
              buf options
            let c1 : NativeCall :=
              { fn := .rcl_publisher_init, cells := [res_pub, res_node, res_options],
                args := [w1.deref res_pub, w1.deref res_node, msgtype], str := buf,
                rc := r.rc }
            let w2 := (w1.setG r.g).store res_pub r.out
            ⟨some ret, w2.store res_return (int_bytes r.rc), [c1]⟩
  | _ => ⟨some enif_make_badarg, w, []⟩

/-- The NIF `nif_rcl_publisher_is_valid` of `c_src/src/publisher_nif.c`. -/
def nif_rcl_publisher_is_valid (N : Native) (w : World) (argv : List ERL_NIF_TERM) :
    NifRun :=
  match argv with
  | [a0] =>
    match enif_get_resource w a0 .rt_pub with
    | none => ⟨some enif_make_badarg, w, []⟩
    | some res =>
      let result := N.rcl_publisher_is_valid (w.deref res)
      let c1 := predCall .rcl_publisher_is_valid w res result
      if result = true then ⟨some atom_true, w, [c1]⟩ else ⟨some atom_false, w, [c1]⟩
  | _ => ⟨some enif_make_badarg, w, []⟩

/-- The NIF `nif_rcl_publish` of `c_src/src/publisher_nif.c`; the message handed to the
native call is the address of the local integer `a`. -/
def nif_rcl_publish (N : Native) (w : World) (argv : List ERL_NIF_TERM) : NifRun :=
  match argv with
  | [a0, a1] =>
    match enif_get_resource w a0 .rt_pub with
    | none => ⟨some enif_make_badarg, w, []⟩
    | some res_arg_pub =>
      match enif_get_int a1 with
      | none => ⟨some enif_make_badarg, w, []⟩
      | some a =>
        match (enif_alloc_resource w .rt_ret).1 with
        | none => ⟨some enif_make_badarg, (enif_alloc_resource w .rt_ret).2, []⟩
        | some res =>
          let ret := (enif_make_resource (enif_alloc_resource w .rt_ret).2 res).1
          let w1 := enif_release_resource
            (enif_make_resource (enif_alloc_resource w .rt_ret).2 res).2 res
          let r := N.rcl_publish w1.g (w1.deref res_arg_pub) (int_bytes a)
          let c1 : NativeCall :=
            { fn := .rcl_publish, cells := [res_arg_pub],
              args := [w1.deref res_arg_pub, int_bytes a], str := [], rc := r.rc }
          ⟨some ret, (w1.setG r.g).store res (int_bytes r.rc), [c1]⟩
  | _ => ⟨some enif_make_badarg, w, []⟩

end publisher_nif

/-! ## The bridge as a whole -/

/-- The NIF entry points of the tree; those of `c_src/src/publisher_nif.c` carry the prefix
`c_src`. -/
inductive Nif
  | publisher_init
  | publisher_fini
  | publish
  | publisher_can_loan_messages
  | borrow_loaned_message
  | publish_loaned_message
  | return_loaned_message_from_publisher
  | subscription_init
  | subscription_fini
  | take
  | subscription_can_loan_messages
  | take_loaned_message
  | return_loaned_message_from_subscription
  | client_init
  | client_fini
  | take_response_with_info
  | send_request
  | clock_init
  | clock_get_now
  | clock_fini
  | create_empty_int16
  | create_msginfo
  | Int16__init
  | Int16__destroy
  | getmsgtype_int16
  | readdata_int16
  | setdata_int16
  | c_src_get_zero_initialized_publisher
  | c_src_publisher_get_default_options
  | c_src_publisher_get_topic_name
  | c_src_publisher_fini
  | c_src_publisher_init
  | c_src_publisher_is_valid
  | c_src_publish
  deriving DecidableEq, Repr

/-- Run an entry point. -/
def Nif.run : Nif → Native → World → List ERL_NIF_TERM → NifRun
  | .publisher_init => rcl_publisher.nif_rcl_publisher_init
  | .publisher_fini => rcl_publisher.nif_rcl_publisher_fini
  | .publish => rcl_publisher.nif_rcl_publish
  | .publisher_can_loan_messages => rcl_publisher.nif_rcl_publisher_can_loan_messages
  | .borrow_loaned_message => rcl_publisher.nif_rcl_borrow_loaned_message
  | .publish_loaned_message => rcl_publisher.nif_rcl_publish_loaned_message
  | .return_loaned_message_from_publisher => rcl_publisher.nif_rcl_return_loaned_message_from_publisher
  | .subscription_init => rcl_subscription.nif_rcl_subscription_init
  | .subscription_fini => rcl_subscription.nif_rcl_subscription_fini
  | .take => rcl_subscription.nif_rcl_take
  | .subscription_can_loan_messages => rcl_subscription.nif_rcl_subscription_can_loan_messages
  | .take_loaned_message => rcl_subscription.nif_rcl_take_loaned_message
  | .return_loaned_message_from_subscription => rcl_subscription.nif_rcl_return_loaned_message_from_subscription
  | .client_init => rcl_client.nif_rcl_client_init
  | .client_fini => rcl_client.nif_rcl_client_fini
  | .take_response_with_info => rcl_client.nif_rcl_take_response_with_info
  | .send_request => rcl_client.nif_rcl_send_request
  | .clock_init => rcl_clock.nif_rcl_clock_init
  | .clock_get_now => rcl_clock.nif_rcl_clock_get_now
  | .clock_fini => rcl_clock.nif_rcl_clock_fini
  | .create_empty_int16 => msg_int16_nif.nif_create_empty_int16
  | .create_msginfo => msg_int16_nif.nif_create_msginfo
  | .Int16__init => msg_int16_nif.nif_std_msgs__msg__Int16__init
  | .Int16__destroy => msg_int16_nif.nif_std_msgs__msg__Int16__destroy
  | .getmsgtype_int16 => msg_int16_nif.nif_getmsgtype_int16
  | .readdata_int16 => msg_int16_nif.nif_readdata_int16
  | .setdata_int16 => msg_int16_nif.nif_setdata_int16
  | .c_src_get_zero_initialized_publisher => publisher_nif.nif_rcl_get_zero_initialized_publisher
  | .c_src_publisher_get_default_options => publisher_nif.nif_rcl_publisher_get_default_options
  | .c_src_publisher_get_topic_name => publisher_nif.nif_rcl_publisher_get_topic_name
  | .c_src_publisher_fini => publisher_nif.nif_rcl_publisher_fini
  | .c_src_publisher_init => publisher_nif.nif_rcl_publisher_init
  | .c_src_publisher_is_valid => publisher_nif.nif_rcl_publisher_is_valid
  | .c_src_publish => publisher_nif.nif_rcl_publish

/-- The resource type that each entry point asks `enif_get_resource` for, per argument
position; `none` for an argument that is not a handle. -/
def Nif.expects : Nif → List (Option ResourceType)
  | .publisher_init => [some .rt_rcl_node_t, some .rt_rosidl_message_type_support_t, none, none]
  | .publisher_fini => [some .rt_rcl_publisher_t, some .rt_rcl_node_t]
  | .publish => [some .rt_rcl_publisher_t, some .rt_ros_message]
  | .publisher_can_loan_messages => [some .rt_rcl_publisher_t]
  | .borrow_loaned_message => [some .rt_rcl_publisher_t, some .rt_rosidl_message_type_support_t]
  | .publish_loaned_message => [some .rt_rcl_publisher_t, some .rt_ros_message]
  | .return_loaned_message_from_publisher => [some .rt_rcl_publisher_t, some .rt_ros_message]
  | .subscription_init => [some .rt_rcl_node_t, some .rt_rosidl_message_type_support_t, none, none]
  | .subscription_fini => [some .rt_rcl_subscription_t, some .rt_rcl_node_t]
  | .take => [some .rt_rcl_subscription_t, some .rt_ros_message]
  | .subscription_can_loan_messages => [some .rt_rcl_subscription_t]
  | .take_loaned_message => [some .rt_rcl_subscription_t]
  | .return_loaned_message_from_subscription => [some .rt_rcl_subscription_t, some .rt_ros_message]
  | .client_init => [some .rt_rcl_node_t, some .rt_rosidl_service_type_support_t, none, none]
  | .client_fini => [some .rt_rcl_client_t, some .rt_rcl_node_t]
  | .take_response_with_info => [some .rt_rcl_client_t, some .rt_ros_message]
  | .send_request => [some .rt_rcl_client_t, some .rt_ros_message]
  | .clock_init => [none]
  | .clock_get_now => [some .rt_rcl_clock_t]
  | .clock_fini => [some .rt_rcl_clock_t]
  | .create_empty_int16 => []
  | .create_msginfo => []
  | .Int16__init => [some .rt_Int16]
  | .Int16__destroy => [some .rt_Int16]
  | .getmsgtype_int16 => []
  | .readdata_int16 => [some .rt_void]
  | .setdata_int16 => [some .rt_void, none]
  | .c_src_get_zero_initialized_publisher => []
  | .c_src_publisher_get_default_options => []
  | .c_src_publisher_get_topic_name => [some .rt_pub]
  | .c_src_publisher_fini => [some .rt_pub, some .rt_node]
  | .c_src_publisher_init => [some .rt_pub, some .rt_node, none, some .rt_pub_options]
  | .c_src_publisher_is_valid => [some .rt_pub]
  | .c_src_publish => [some .rt_pub, none]

/-- The validity predicates of the native library. -/
def isValidityFn : NativeFn → Bool
  | .rcl_node_is_valid => true
  | .rcl_publisher_is_valid => true
  | .rcl_subscription_is_valid => true
  | .rcl_client_is_valid => true
  | _ => false

/-- Run a sequence of NIF calls from a world: the final world and all native calls issued.
A call without a defined result ends the run. -/
def runSeq (N : Native) : World → List (Nif × List ERL_NIF_TERM) → World × List NativeCall
  | w, [] => (w, [])
  | w, (op, argv) :: rest =>
    match (op.run N w argv).ret with
    | none => ((op.run N w argv).world, (op.run N w argv).calls)
    | some _ =>
      ((runSeq N (op.run N w argv).world rest).1,
        (op.run N w argv).calls ++ (runSeq N (op.run N w argv).world rest).2)

/-- The successful native `rcl_publisher_fini` calls on the cell at an address. -/
def finiSuccesses (a : Nat) (log : List NativeCall) : Nat :=
  (log.filter (fun c =>
    decide (c.fn = .rcl_publisher_fini ∧ c.cells.head? = some a ∧ c.rc = RCL_RET_OK))).length

/-- The three pre-flight steps of an init-class operation of `src/`: the first argument is a
node handle that passes the native liveness check, the name is read into the buffer and
passes the name validator, and QoS translation returns no exception. -/
def preflight (N : Native) (w : World) (argv : List ERL_NIF_TERM) : Prop :=
  ∃ a0 a1 a2 a3 node_p, argv = [a0, a1, a2, a3] ∧
    enif_get_resource w a0 .rt_rcl_node_t = some node_p ∧
    N.rcl_node_is_valid (w.deref node_p) = true ∧
    0 < (enif_get_string a2 256).1 ∧
    N.rmw_validate_full_topic_name (cstr (enif_get_string a2 256).2)
      = (RMW_RET_OK, RMW_TOPIC_VALID) ∧
    enif_is_exception (N.get_c_qos_profile a3).1 = false

/-! ## A test double of the native library -/

/-- A native result that leaves the hidden state alone. -/
def okRet (g out out2 : Nat) : NativeRet := { rc := RCL_RET_OK, g := g, out := out, out2 := out2 }

/-- A test double of the native library: a native value is live exactly when it is `1`;
constructors succeed and write `1`, destructors succeed and write `0`; a name is valid when
it starts with a slash; QoS translation accepts the term `other 0` only; taking fails with
the empty-result code while the hidden state is `0`. -/
def Native.double : Native where
  rcl_node_is_valid := fun v => v == 1
  rcl_publisher_is_valid := fun v => v == 1
  rcl_subscription_is_valid := fun v => v == 1
  rcl_client_is_valid := fun v => v == 1
  rmw_validate_full_topic_name := fun name =>
    match name with
    | [] => (RMW_RET_OK, 1)
    | c :: _ => if c = 47 then (RMW_RET_OK, RMW_TOPIC_VALID) else (RMW_RET_OK, 2)
  rmw_full_topic_name_validation_result_string := fun r =>
    if r = 1 then "topic name must not be empty string"
    else if r = 2 then "topic name must be absolute, it must lead with a slash"
    else "unknown result code for rwm topic name validation"
  get_c_qos_profile := fun t =>
    match t with
    | .other 0 => (atom_ok, 5)
    | _ => (enif_make_badarg, 0)
  get_nif_allocator := 9
  rcl_get_zero_initialized_publisher := 0
  rcl_publisher_get_default_options := 4
  rcl_publisher_init := fun g _ _ _ _ _ => okRet g 1 0
  rcl_publisher_fini := fun g _ n => okRet g 0 n
  rcl_publish := fun g _ _ => okRet g 0 0
  rcl_publisher_can_loan_messages := fun _ _ => false
  rcl_borrow_loaned_message := fun g _ _ =>
    { rc := RCL_RET_UNSUPPORTED, g := g, out := 0, out2 := 0 }
  rcl_publish_loaned_message := fun g _ _ =>
    { rc := RCL_RET_UNSUPPORTED, g := g, out := 0, out2 := 0 }
  rcl_return_loaned_message_from_publisher := fun g _ _ =>
    { rc := RCL_RET_UNSUPPORTED, g := g, out := 0, out2 := 0 }
  rcl_publisher_get_topic_name := fun _ v => if v == 1 then some [47, 116] else none
  rcl_get_zero_initialized_subscription := 0
  rcl_subscription_get_default_options := 4
  rcl_subscription_init := fun g _ _ _ _ _ => okRet g 1 0
  rcl_subscription_fini := fun g _ n => okRet g 0 n
  rcl_take := fun g _ _ =>
    if g = 0 then { rc := RCL_RET_SUBSCRIPTION_TAKE_FAILED, g := g, out := 0, out2 := 0 }
    else okRet (g - 1) 0 0
  rcl_subscription_can_loan_messages := fun _ _ => true
  rcl_take_loaned_message := fun g _ =>
    if g = 0 then { rc := RCL_RET_SUBSCRIPTION_TAKE_FAILED, g := g, out := 0, out2 := 0 }
    else okRet (g - 1) 77 0
  rcl_return_loaned_message_from_subscription := fun g _ _ => okRet g 0 0
  rcl_get_zero_initialized_client := 0
  rcl_client_get_default_options := 4
  rcl_client_init := fun g _ _ _ _ _ => okRet g 1 0
  rcl_client_fini := fun g _ n => okRet g 0 n
  rcl_take_response_with_info := fun g _ _ =>
    if g = 0 then ({ rc := RCL_RET_CLIENT_TAKE_FAILED, g := g, out := 0, out2 := 0 }, 0)
    else (okRet (g - 1) 0 0, 12)
  rcl_send_request := fun g _ _ => (okRet (g + 1) 0 0, 12)
  rcl_clock_init := fun g ty _ => okRet g ty.toNat 0
  rcl_clock_get_now := fun g c =>
    if c = 0 then { rc := RCL_RET_INVALID_ARGUMENT, g := g, out := c, out2 := 0 }
    else okRet g c 1000
  rcl_clock_fini := fun g c => okRet g c 0
  std_msgs__msg__Int16__init := fun _ => (true, 0)
  std_msgs__msg__Int16__destroy := fun v => v
  ROSIDL_GET_MSG_TYPE_SUPPORT_std_msgs_msg_Int16 := 16

/-- A world for the examples: a live node at address `0`, a message type support at `1`, a
publisher that is not live at `2`, a live subscription at `3`, a live client at `4`, a
message at `5` and a service type support at `6`; nothing is queued. -/
def World.sample : World :=
  { heap := [⟨.rt_rcl_node_t, 1, 1⟩, ⟨.rt_rosidl_message_type_support_t, 16, 1⟩,
             ⟨.rt_rcl_publisher_t, 0, 1⟩, ⟨.rt_rcl_subscription_t, 1, 1⟩,
             ⟨.rt_rcl_client_t, 1, 1⟩, ⟨.rt_ros_message, 50, 1⟩,
             ⟨.rt_rosidl_service_type_support_t, 17, 1⟩],
    g := 0, avail := 8, junk := 0, events := [] }

/-- The character list of the topic name `/chatter`. -/
def chatter : ERL_NIF_TERM := .list [47, 99, 104, 97, 116, 116, 101, 114]

/-! ## Contracts -/

/-- The guard of a fini-class run in world `w`, given what the two validity predicates
report for the entity and for the node: when either is false the run raises at the line of
the first failing check, leaves the world alone and never calls the native function `fn`;
`fn` is called only when both are true. -/
def FiniGuard (run : NifRun) (w : World) (entity_valid node_valid : Bool) (file : String)
    (fn : NativeFn) : Prop :=
  ((entity_valid = false ∨ node_valid = false) →
    run.ret = some (raise file (if entity_valid = false then 69 else 74)) ∧ run.world = w ∧
    ∀ k ∈ run.calls, k.fn ≠ fn) ∧
  ((∃ k ∈ run.calls, k.fn = fn) → entity_valid = true ∧ node_valid = true)

/-- The gate of an init-class run on an argument vector: the native constructor `fn` is
called only after the three pre-flight steps have passed, and when one of them fails the
run returns an exception and never calls `fn`. -/
def InitGate (N : Native) (w : World) (argv : List ERL_NIF_TERM) (run : NifRun)
    (fn : NativeFn) : Prop :=
  ((∃ k ∈ run.calls, k.fn = fn) → preflight N w argv) ∧
  (¬ preflight N w argv →
    (∃ r, run.ret = some (.exception r)) ∧ ∀ k ∈ run.calls, k.fn ≠ fn)

/-- The outcome of an init-class run in world `w` whose native constructor returned `r`:
a handle is returned only if the return code is `RCL_RET_OK`; on any other code the run
raises at line 53 and the world is as before but for the state of the middleware, so no
cell is allocated; on `RCL_RET_OK`, when the host can allocate, the handle is the address
of one new cell of type `rt` that holds the value the constructor wrote. -/
def InitOutcome (w : World) (run : NifRun) (r : NativeRet) (rt : ResourceType)
    (file : String) : Prop :=
  ((∃ a, run.ret = some (.resource a)) → r.rc = RCL_RET_OK) ∧
  (r.rc ≠ RCL_RET_OK → run.ret = some (raise file 53) ∧ run.world = w.setG r.g) ∧
  (r.rc = RCL_RET_OK → 0 < w.avail →
    run.ret = some (.resource w.heap.length) ∧ w.cell w.heap.length = none ∧
    run.world.heap = w.heap ++ [⟨rt, r.out, 1⟩])

/-- The three-way mapping of a take-class run by the native return code `rc`:
`RCL_RET_OK` gives the result `ok`, the empty-result code `empty` gives the atom `error` as
an ordinary value, and every other code gives a raised exception. -/
def ThreeWay (run : NifRun) (rc empty : rcl_ret_t) (ok : ERL_NIF_TERM) : Prop :=
  (rc = RCL_RET_OK → run.ret = some ok) ∧
  (rc = empty → run.ret = some atom_error) ∧
  (rc ≠ RCL_RET_OK → rc ≠ empty → ∃ r, run.ret = some (.exception r))

/-- What one NIF run may do to the cells, as far as publisher finalisation goes: every
cell stays and keeps its type; a cell of type `rt_rcl_publisher_t` either sees no successful
native fini, and keeps its value unless it was live, or sees exactly one, having been live
before and being not live after; no successful native fini is issued on an address that
holds no cell. -/
def Frame (N : Native) (w : World) (run : NifRun) : Prop :=
  (∀ a, w.kind a ≠ none → run.world.kind a = w.kind a) ∧
  (∀ a, w.kind a = some .rt_rcl_publisher_t →
    (finiSuccesses a run.calls = 0 ∧
      (run.world.deref a = w.deref a ∨ N.rcl_publisher_is_valid (w.deref a) = true)) ∨
    (finiSuccesses a run.calls = 1 ∧ N.rcl_publisher_is_valid (w.deref a) = true ∧
      N.rcl_publisher_is_valid (run.world.deref a) = false)) ∧
  (∀ a, w.kind a = none → finiSuccesses a run.calls = 0)

/-- The invariant of publisher finalisation over a world and the native calls issued so
far: an address without a cell has seen no successful native fini, and a cell of type
`rt_rcl_publisher_t` has seen none, or exactly one and is not live. -/
def FiniOnce (N : Native) (w : World) (log : List NativeCall) : Prop :=
  ∀ a, (w.kind a = none → finiSuccesses a log = 0) ∧
    (w.kind a = some .rt_rcl_publisher_t →
      finiSuccesses a log = 0 ∨
      (finiSuccesses a log = 1 ∧ N.rcl_publisher_is_valid (w.deref a) = false))

/-- The cell that the argument at position `j` resolves to when it is a handle of the kind
the entry point expects there. -/
def argCell (w : World) (op : Nif) (argv : List ERL_NIF_TERM) (j : Nat) : Option Nat :=
  match op.expects.get? j, argv.get? j with
  | some (some K), some t => enif_get_resource w t K
  | _, _ => none

/-- The guard of an operate-class run in world `w` on the entity cell `p`, given what the
validity predicate `fn` reports for it: the predicate is the first native call of the run,
and when it reports false the run raises at `line`, leaves the world alone and issues no
other native call. -/
def OperateGuard (run : NifRun) (w : World) (fn : NativeFn) (p : Nat) (valid : Bool)
    (file : String) (line : Nat) : Prop :=
  run.calls.head? = some (predCall fn w p valid) ∧
  (valid = false →
    run.ret = some (raise file line) ∧ run.world = w ∧ run.calls = [predCall fn w p false])

/-- The categories of native failure that the specification names. -/
inductive FailureCategory
  | invalid_handle
  | invalid_argument
  | unsupported_feature
  | allocation_failure
  | unspecified
  deriving DecidableEq, Repr

/-- The category that the specification gives to a native return code other than
`RCL_RET_OK` and the empty-result code; `invalid` is the entity-invalid code of the
operation. -/
def categoryOf (invalid rc : rcl_ret_t) : FailureCategory :=
  if rc = invalid then .invalid_handle
  else if rc = RCL_RET_INVALID_ARGUMENT then .invalid_argument
  else if rc = RCL_RET_UNSUPPORTED then .unsupported_feature
  else if rc = RCL_RET_BAD_ALLOC then .allocation_failure
  else .unspecified

/-- The category that a failure returned by a loaned-message operation carries: `badarg` is
the invalid-argument failure, and a failure raised with a message carries the category that
the message names. -/
def carried : ERL_NIF_TERM → Option FailureCategory
  | .exception .badarg => some .invalid_argument
  | .exception (.raise_with_message _ _ m) =>
    if m = "passed publisher is invalid" ∨ m = "passed subscription is invalid" then
      some .invalid_handle
    else if m = "middleware does not support that feature" then some .unsupported_feature
    else if m = "ros message could not be correctly created" then some .allocation_failure
    else if m = "unspecified error" then some .unspecified
    else none
  | _ => none

/-- The sample world with the publisher at address `2` made live. -/
def World.live : World := World.sample.store 2 1

/-- A world for the examples of `c_src/src/publisher_nif.c` and `src/msg_int16_nif.c`: a
zero-initialised publisher at address `0`, a node at `1`, publisher options at `2` and an
Int16 message at `3`. -/
def World.legacy : World :=
  { heap := [⟨.rt_pub, 0, 1⟩, ⟨.rt_node, 1, 1⟩, ⟨.rt_pub_options, 4, 1⟩, ⟨.rt_void, 0, 1⟩],
    g := 0, avail := 8, junk := 0, events := [] }

/-- The reference count of the cell at an address, if there is one. -/
def World.refc (w : World) (p : Nat) : Option Nat := (w.cell p).map Cell.refc

/-- The condition on a name argument: a list of Latin-1 characters (bytes) whose length is
less than `size`, so that it fits a buffer of `size` bytes with its terminator. -/
def nameFits (t : ERL_NIF_TERM) (size : Nat) : Bool :=
  match t with
  | .list cs => cs.all (fun c => decide (0 ≤ c ∧ c ≤ 255)) && decide (cs.length < size)
  | _ => false

end Rclex

/-! # Theorems -/

namespace Rclex

open ResourceType

/-! ## Auxiliary facts about the host model -/

theorem enif_is_exception_iff (t : ERL_NIF_TERM) :
    enif_is_exception t = true ↔ ∃ r, t = .exception r := by
  cases t <;> simp [enif_is_exception]

theorem setCell_append_length (h : List Cell) (c : Cell) (f : Cell → Cell) :
    setCell (h ++ [c]) h.length f = h ++ [f c] := by
  induction h with
  | nil => rfl
  | cons x xs ih => simp [setCell, ih]

/-- Allocating a cell, writing a value into it, making its handle and releasing the
allocation reference appends one cell with reference count one. -/
theorem alloc_write_register (w : World) (rt : ResourceType) (v : Nat) (h : 0 < w.avail) :
    (enif_alloc_resource w rt).1 = some w.heap.length ∧
    (enif_make_resource (((enif_alloc_resource w rt).2).store w.heap.length v)
      w.heap.length).1 = .resource w.heap.length ∧
    enif_release_resource (enif_make_resource
        (((enif_alloc_resource w rt).2).store w.heap.length v) w.heap.length).2 w.heap.length
      = { w with heap := w.heap ++ [⟨rt, v, 1⟩], avail := w.avail - 1,
                 events := w.events ++ [.alloc w.heap.length, .make w.heap.length,
                   .release w.heap.length] } := by
  have h0 : w.avail ≠ 0 := by omega
  simp [enif_alloc_resource, h0, enif_make_resource, enif_release_resource, World.store,
    setCell_append_length]

theorem alloc_fails (w : World) (rt : ResourceType) (h : w.avail = 0) :
    enif_alloc_resource w rt = (none, w) := by
  simp [enif_alloc_resource, h]

/-! ## The init-class operations of `src/` -/

/-- When a pre-flight step fails, `nif_rcl_publisher_init` raises and never reaches the
native constructor. -/
theorem publisher_init_preflight (N : Native) (w : World) (argv : List ERL_NIF_TERM)
    (hnp : ¬ preflight N w argv) :
    (∃ r, (rcl_publisher.nif_rcl_publisher_init N w argv).ret = some (.exception r)) ∧
      ∀ c ∈ (rcl_publisher.nif_rcl_publisher_init N w argv).calls,
        c.fn ≠ .rcl_publisher_init := by
  unfold rcl_publisher.nif_rcl_publisher_init
  split
  · rename_i a0 a1 a2 a3
    cases h0 : enif_get_resource w a0 .rt_rcl_node_t with
    | none => simp [enif_make_badarg]
    | some node_p =>
      cases h1 : N.rcl_node_is_valid (w.deref node_p) with
      | false => simp [h1, raise, predCall]
      | true =>
        cases h2 : enif_get_resource w a1 .rt_rosidl_message_type_support_t with
        | none => simp [h1, predCall, enif_make_badarg]
        | some ts_p =>
          by_cases h3 : (enif_get_string a2 256).1 ≤ 0
          · simp [h1, h3, predCall, enif_make_badarg]
          by_cases h4 : (N.rmw_validate_full_topic_name (cstr (enif_get_string a2 256).2)).1
              = RMW_RET_OK
          swap
          · simp [h1, h3, h4, predCall, validateCall, raise]
          by_cases h5 : (N.rmw_validate_full_topic_name (cstr (enif_get_string a2 256).2)).2
              = RMW_TOPIC_VALID
          swap
          · simp [h1, h3, h4, h5, predCall, validateCall, raise_with_message]
          cases h6 : enif_is_exception (N.get_c_qos_profile a3).1 with
          | true =>
            obtain ⟨r, hr⟩ := (enif_is_exception_iff _).1 h6
            simp [h1, h3, h4, h5, hr, enif_is_exception, predCall, validateCall]
          | false =>
            exact absurd ⟨a0, a1, a2, a3, node_p, rfl, h0, h1, by omega, Prod.ext h4 h5, h6⟩ hnp
  · simp [enif_make_badarg]

/-- The name validator reporting a syntax failure makes `nif_rcl_publisher_init` raise with
the validator's reason string. -/
theorem publisher_init_invalid_name (N : Native) (w : World) (a0 a1 a2 a3 : ERL_NIF_TERM)
    (node_p ts_p : Nat)
    (h0 : enif_get_resource w a0 .rt_rcl_node_t = some node_p)
    (h1 : N.rcl_node_is_valid (w.deref node_p) = true)
    (h2 : enif_get_resource w a1 .rt_rosidl_message_type_support_t = some ts_p)
    (h3 : 0 < (enif_get_string a2 256).1)
    (h4 : (N.rmw_validate_full_topic_name (cstr (enif_get_string a2 256).2)).1 = RMW_RET_OK)
    (h5 : (N.rmw_validate_full_topic_name (cstr (enif_get_string a2 256).2)).2
      ≠ RMW_TOPIC_VALID) :
    rcl_publisher.nif_rcl_publisher_init N w [a0, a1, a2, a3] =
      ⟨some (raise_with_message rcl_publisher.FILE 38
          (N.rmw_full_topic_name_validation_result_string
            (N.rmw_validate_full_topic_name (cstr (enif_get_string a2 256).2)).2)), w,
        [predCall .rcl_node_is_valid w node_p true,
          validateCall (cstr (enif_get_string a2 256).2) RMW_RET_OK]⟩ := by
  have h3n : ¬ (enif_get_string a2 256).1 ≤ 0 := by omega
  simp [rcl_publisher.nif_rcl_publisher_init, h0, h1, h2, h3n, h4, h5]

/-- The run of `nif_rcl_publisher_init` once every check in front of the native
constructor has passed, by the constructor's return code and the host's allocation. -/
theorem publisher_init_checked (N : Native) (w : World) (a0 a1 a2 a3 : ERL_NIF_TERM)
    (node_p ts_p : Nat) (r : NativeRet)
    (h0 : enif_get_resource w a0 .rt_rcl_node_t = some node_p)
    (h1 : N.rcl_node_is_valid (w.deref node_p) = true)
    (h2 : enif_get_resource w a1 .rt_rosidl_message_type_support_t = some ts_p)
    (h3 : 0 < (enif_get_string a2 256).1)
    (h4 : N.rmw_validate_full_topic_name (cstr (enif_get_string a2 256).2)
      = (RMW_RET_OK, RMW_TOPIC_VALID))
    (h6 : enif_is_exception (N.get_c_qos_profile a3).1 = false)
    (hr : r = N.rcl_publisher_init w.g N.rcl_get_zero_initialized_publisher (w.deref node_p)
      (w.deref ts_p) (cstr (enif_get_string a2 256).2)
      { defaults := N.rcl_publisher_get_default_options,
        allocator := some N.get_nif_allocator, qos := some (N.get_c_qos_profile a3).2 }) :
    (rcl_publisher.nif_rcl_publisher_init N w [a0, a1, a2, a3]).calls =
      [predCall .rcl_node_is_valid w node_p true,
        validateCall (cstr (enif_get_string a2 256).2) RMW_RET_OK,
        initCall .rcl_publisher_init w N.rcl_get_zero_initialized_publisher node_p ts_p
          (cstr (enif_get_string a2 256).2) r.rc] ∧
    (r.rc ≠ RCL_RET_OK →
      (rcl_publisher.nif_rcl_publisher_init N w [a0, a1, a2, a3]).ret
        = some (raise rcl_publisher.FILE 53) ∧
      (rcl_publisher.nif_rcl_publisher_init N w [a0, a1, a2, a3]).world = w.setG r.g) ∧
    (r.rc = RCL_RET_OK → w.avail = 0 →
      (rcl_publisher.nif_rcl_publisher_init N w [a0, a1, a2, a3]).ret = none ∧
      (rcl_publisher.nif_rcl_publisher_init N w [a0, a1, a2, a3]).world = w.setG r.g) ∧
    (r.rc = RCL_RET_OK → 0 < w.avail →
      (rcl_publisher.nif_rcl_publisher_init N w [a0, a1, a2, a3]).ret
        = some (.resource w.heap.length) ∧
      (rcl_publisher.nif_rcl_publisher_init N w [a0, a1, a2, a3]).world =
        { w with heap := w.heap ++ [⟨.rt_rcl_publisher_t, r.out, 1⟩], g := r.g,
                 avail := w.avail - 1,
                 events := w.events ++ [.alloc w.heap.length, .make w.heap.length,
                   .release w.heap.length] }) := by
  have h3n : ¬ (enif_get_string a2 256).1 ≤ 0 := by omega
  have h4a := congrArg Prod.fst h4
  have h4b := congrArg Prod.snd h4
  simp only at h4a h4b
  subst hr
  refine ⟨?_, ?_, ?_, ?_⟩
  · simp only [rcl_publisher.nif_rcl_publisher_init, h0, h1, h2, h3n, h4a, h4b, h6]
    simp only [Bool.not_true, Bool.false_eq_true, if_false, ne_eq, not_true_eq_false]
    split
    · rfl
    · split <;> rfl
  · intro hrc
    simp [rcl_publisher.nif_rcl_publisher_init, h0, h1, h2, h3n, h4a, h4b, h6, hrc]
  · intro hrc hav
    simp [rcl_publisher.nif_rcl_publisher_init, h0, h1, h2, h3n, h4a, h4b, h6, hrc,
      enif_alloc_resource, World.setG, hav]
  · intro hrc hav
    have hav0 : w.avail ≠ 0 := by omega
    simp [rcl_publisher.nif_rcl_publisher_init, h0, h1, h2, h3n, h4a, h4b, h6, hrc,
      enif_alloc_resource, World.setG, hav0, enif_make_resource, enif_release_resource,
      World.store, setCell_append_length]

/-- When a pre-flight step fails, `nif_rcl_subscription_init` raises and never reaches the
native constructor. -/
theorem subscription_init_preflight (N : Native) (w : World) (argv : List ERL_NIF_TERM)
    (hnp : ¬ preflight N w argv) :
    (∃ r, (rcl_subscription.nif_rcl_subscription_init N w argv).ret = some (.exception r)) ∧
      ∀ c ∈ (rcl_subscription.nif_rcl_subscription_init N w argv).calls,
        c.fn ≠ .rcl_subscription_init := by
  unfold rcl_subscription.nif_rcl_subscription_init
  split
  · rename_i a0 a1 a2 a3
    cases h0 : enif_get_resource w a0 .rt_rcl_node_t with
    | none => simp [enif_make_badarg]
    | some node_p =>
      cases h1 : N.rcl_node_is_valid (w.deref node_p) with
      | false => simp [h1, raise, predCall]
      | true =>
        cases h2 : enif_get_resource w a1 .rt_rosidl_message_type_support_t with
        | none => simp [h1, predCall, enif_make_badarg]
        | some ts_p =>
          by_cases h3 : (enif_get_string a2 256).1 ≤ 0
          · simp [h1, h3, predCall, enif_make_badarg]
          by_cases h4 : (N.rmw_validate_full_topic_name (cstr (enif_get_string a2 256).2)).1
              = RMW_RET_OK
          swap
          · simp [h1, h3, h4, predCall, validateCall, raise]
          by_cases h5 : (N.rmw_validate_full_topic_name (cstr (enif_get_string a2 256).2)).2
              = RMW_TOPIC_VALID
          swap
          · simp [h1, h3, h4, h5, predCall, validateCall, raise_with_message]
          cases h6 : enif_is_exception (N.get_c_qos_profile a3).1 with
          | true =>
            obtain ⟨r, hr⟩ := (enif_is_exception_iff _).1 h6
            simp [h1, h3, h4, h5, hr, enif_is_exception, predCall, validateCall]
          | false =>
            exact absurd ⟨a0, a1, a2, a3, node_p, rfl, h0, h1, by omega, Prod.ext h4 h5, h6⟩ hnp
  · simp [enif_make_badarg]

/-- The name validator reporting a syntax failure makes `nif_rcl_subscription_init` raise with
the validator's reason string. -/
theorem subscription_init_invalid_name (N : Native) (w : World) (a0 a1 a2 a3 : ERL_NIF_TERM)
    (node_p ts_p : Nat)
    (h0 : enif_get_resource w a0 .rt_rcl_node_t = some node_p)
    (h1 : N.rcl_node_is_valid (w.deref node_p) = true)
    (h2 : enif_get_resource w a1 .rt_rosidl_message_type_support_t = some ts_p)
    (h3 : 0 < (enif_get_string a2 256).1)
    (h4 : (N.rmw_validate_full_topic_name (cstr (enif_get_string a2 256).2)).1 = RMW_RET_OK)
    (h5 : (N.rmw_validate_full_topic_name (cstr (enif_get_string a2 256).2)).2
      ≠ RMW_TOPIC_VALID) :
    rcl_subscription.nif_rcl_subscription_init N w [a0, a1, a2, a3] =
      ⟨some (raise_with_message rcl_subscription.FILE 38
          (N.rmw_full_topic_name_validation_result_string
            (N.rmw_validate_full_topic_name (cstr (enif_get_string a2 256).2)).2)), w,
        [predCall .rcl_node_is_valid w node_p true,
          validateCall (cstr (enif_get_string a2 256).2) RMW_RET_OK]⟩ := by
  have h3n : ¬ (enif_get_string a2 256).1 ≤ 0 := by omega
  simp [rcl_subscription.nif_rcl_subscription_init, h0, h1, h2, h3n, h4, h5]

/-- The run of `nif_rcl_subscription_init` once every check in front of the native
constructor has passed, by the constructor's return code and the host's allocation. -/
theorem subscription_init_checked (N : Native) (w : World) (a0 a1 a2 a3 : ERL_NIF_TERM)
    (node_p ts_p : Nat) (r : NativeRet)
    (h0 : enif_get_resource w a0 .rt_rcl_node_t = some node_p)
    (h1 : N.rcl_node_is_valid (w.deref node_p) = true)
    (h2 : enif_get_resource w a1 .rt_rosidl_message_type_support_t = some ts_p)
    (h3 : 0 < (enif_get_string a2 256).1)
    (h4 : N.rmw_validate_full_topic_name (cstr (enif_get_string a2 256).2)
      = (RMW_RET_OK, RMW_TOPIC_VALID))
    (h6 : enif_is_exception (N.get_c_qos_profile a3).1 = false)
    (hr : r = N.rcl_subscription_init w.g N.rcl_get_zero_initialized_subscription (w.deref node_p)
      (w.deref ts_p) (cstr (enif_get_string a2 256).2)
      { defaults := N.rcl_subscription_get_default_options,
        allocator := some N.get_nif_allocator, qos := some (N.get_c_qos_profile a3).2 }) :
    (rcl_subscription.nif_rcl_subscription_init N w [a0, a1, a2, a3]).calls =
      [predCall .rcl_node_is_valid w node_p true,
        validateCall (cstr (enif_get_string a2 256).2) RMW_RET_OK,
        initCall .rcl_subscription_init w N.rcl_get_zero_initialized_subscription node_p ts_p
          (cstr (enif_get_string a2 256).2) r.rc] ∧
    (r.rc ≠ RCL_RET_OK →
      (rcl_subscription.nif_rcl_subscription_init N w [a0, a1, a2, a3]).ret
        = some (raise rcl_subscription.FILE 53) ∧
      (rcl_subscription.nif_rcl_subscription_init N w [a0, a1, a2, a3]).world = w.setG r.g) ∧
    (r.rc = RCL_RET_OK → w.avail = 0 →
      (rcl_subscription.nif_rcl_subscription_init N w [a0, a1, a2, a3]).ret = none ∧
      (rcl_subscription.nif_rcl_subscription_init N w [a0, a1, a2, a3]).world = w.setG r.g) ∧
    (r.rc = RCL_RET_OK → 0 < w.avail →
      (rcl_subscription.nif_rcl_subscription_init N w [a0, a1, a2, a3]).ret
        = some (.resource w.heap.length) ∧
      (rcl_subscription.nif_rcl_subscription_init N w [a0, a1, a2, a3]).world =
        { w with heap := w.heap ++ [⟨.rt_rcl_subscription_t, r.out, 1⟩], g := r.g,
                 avail := w.avail - 1,
                 events := w.events ++ [.alloc w.heap.length, .make w.heap.length,
                   .release w.heap.length] }) := by
  have h3n : ¬ (enif_get_string a2 256).1 ≤ 0 := by omega
  have h4a := congrArg Prod.fst h4
  have h4b := congrArg Prod.snd h4
  simp only at h4a h4b
  subst hr
  refine ⟨?_, ?_, ?_, ?_⟩
  · simp only [rcl_subscription.nif_rcl_subscription_init, h0, h1, h2, h3n, h4a, h4b, h6]
    simp only [Bool.not_true, Bool.false_eq_true, if_false, ne_eq, not_true_eq_false]
    split
    · rfl
    · split <;> rfl
  · intro hrc
    simp [rcl_subscription.nif_rcl_subscription_init, h0, h1, h2, h3n, h4a, h4b, h6, hrc]
  · intro hrc hav
    simp [rcl_subscription.nif_rcl_subscription_init, h0, h1, h2, h3n, h4a, h4b, h6, hrc,
      enif_alloc_resource, World.setG, hav]
  · intro hrc hav
    have hav0 : w.avail ≠ 0 := by omega
    simp [rcl_subscription.nif_rcl_subscription_init, h0, h1, h2, h3n, h4a, h4b, h6, hrc,
      enif_alloc_resource, World.setG, hav0, enif_make_resource, enif_release_resource,
      World.store, setCell_append_length]

/-- When a pre-flight step fails, `nif_rcl_client_init` raises and never reaches the
native constructor. -/
theorem client_init_preflight (N : Native) (w : World) (argv : List ERL_NIF_TERM)
    (hnp : ¬ preflight N w argv) :
    (∃ r, (rcl_client.nif_rcl_client_init N w argv).ret = some (.exception r)) ∧
      ∀ c ∈ (rcl_client.nif_rcl_client_init N w argv).calls,
        c.fn ≠ .rcl_client_init := by
  unfold rcl_client.nif_rcl_client_init
  split
  · rename_i a0 a1 a2 a3
    cases h0 : enif_get_resource w a0 .rt_rcl_node_t with
    | none => simp [enif_make_badarg]
    | some node_p =>
      cases h1 : N.rcl_node_is_valid (w.deref node_p) with
      | false => simp [h1, raise, predCall]
      | true =>
        cases h2 : enif_get_resource w a1 .rt_rosidl_service_type_support_t with
        | none => simp [h1, predCall, enif_make_badarg]
        | some ts_p =>
          by_cases h3 : (enif_get_string a2 256).1 ≤ 0
          · simp [h1, h3, predCall, enif_make_badarg]
          by_cases h4 : (N.rmw_validate_full_topic_name (cstr (enif_get_string a2 256).2)).1
              = RMW_RET_OK
          swap
          · simp [h1, h3, h4, predCall, validateCall, raise]
          by_cases h5 : (N.rmw_validate_full_topic_name (cstr (enif_get_string a2 256).2)).2
              = RMW_TOPIC_VALID
          swap
          · simp [h1, h3, h4, h5, predCall, validateCall, raise_with_message]
          cases h6 : enif_is_exception (N.get_c_qos_profile a3).1 with
          | true =>
            obtain ⟨r, hr⟩ := (enif_is_exception_iff _).1 h6
            simp [h1, h3, h4, h5, hr, enif_is_exception, predCall, validateCall]
          | false =>
            exact absurd ⟨a0, a1, a2, a3, node_p, rfl, h0, h1, by omega, Prod.ext h4 h5, h6⟩ hnp
  · simp [enif_make_badarg]

/-- The name validator reporting a syntax failure makes `nif_rcl_client_init` raise with
the validator's reason string. -/
theorem client_init_invalid_name (N : Native) (w : World) (a0 a1 a2 a3 : ERL_NIF_TERM)
    (node_p ts_p : Nat)
    (h0 : enif_get_resource w a0 .rt_rcl_node_t = some node_p)
    (h1 : N.rcl_node_is_valid (w.deref node_p) = true)
    (h2 : enif_get_resource w a1 .rt_rosidl_service_type_support_t = some ts_p)
    (h3 : 0 < (enif_get_string a2 256).1)
    (h4 : (N.rmw_validate_full_topic_name (cstr (enif_get_string a2 256).2)).1 = RMW_RET_OK)
    (h5 : (N.rmw_validate_full_topic_name (cstr (enif_get_string a2 256).2)).2
      ≠ RMW_TOPIC_VALID) :
    rcl_client.nif_rcl_client_init N w [a0, a1, a2, a3] =
      ⟨some (raise_with_message rcl_client.FILE 38
          (N.rmw_full_topic_name_validation_result_string
            (N.rmw_validate_full_topic_name (cstr (enif_get_string a2 256).2)).2)), w,
        [predCall .rcl_node_is_valid w node_p true,
          validateCall (cstr (enif_get_string a2 256).2) RMW_RET_OK]⟩ := by
  have h3n : ¬ (enif_get_string a2 256).1 ≤ 0 := by omega
  simp [rcl_client.nif_rcl_client_init, h0, h1, h2, h3n, h4, h5]

/-- The run of `nif_rcl_client_init` once every check in front of the native
constructor has passed, by the constructor's return code and the host's allocation. -/
theorem client_init_checked (N : Native) (w : World) (a0 a1 a2 a3 : ERL_NIF_TERM)
    (node_p ts_p : Nat) (r : NativeRet)
    (h0 : enif_get_resource w a0 .rt_rcl_node_t = some node_p)
    (h1 : N.rcl_node_is_valid (w.deref node_p) = true)
    (h2 : enif_get_resource w a1 .rt_rosidl_service_type_support_t = some ts_p)
    (h3 : 0 < (enif_get_string a2 256).1)
    (h4 : N.rmw_validate_full_topic_name (cstr (enif_get_string a2 256).2)
      = (RMW_RET_OK, RMW_TOPIC_VALID))
    (h6 : enif_is_exception (N.get_c_qos_profile a3).1 = false)
    (hr : r = N.rcl_client_init w.g N.rcl_get_zero_initialized_client (w.deref node_p)
      (w.deref ts_p) (cstr (enif_get_string a2 256).2)
      { defaults := N.rcl_client_get_default_options,
        allocator := some N.get_nif_allocator, qos := some (N.get_c_qos_profile a3).2 }) :
    (rcl_client.nif_rcl_client_init N w [a0, a1, a2, a3]).calls =
      [predCall .rcl_node_is_valid w node_p true,
        validateCall (cstr (enif_get_string a2 256).2) RMW_RET_OK,
        initCall .rcl_client_init w N.rcl_get_zero_initialized_client node_p ts_p
          (cstr (enif_get_string a2 256).2) r.rc] ∧
    (r.rc ≠ RCL_RET_OK →
      (rcl_client.nif_rcl_client_init N w [a0, a1, a2, a3]).ret
        = some (raise rcl_client.FILE 53) ∧
      (rcl_client.nif_rcl_client_init N w [a0, a1, a2, a3]).world = w.setG r.g) ∧
    (r.rc = RCL_RET_OK → w.avail = 0 →
      (rcl_client.nif_rcl_client_init N w [a0, a1, a2, a3]).ret = none ∧
      (rcl_client.nif_rcl_client_init N w [a0, a1, a2, a3]).world = w.setG r.g) ∧
    (r.rc = RCL_RET_OK → 0 < w.avail →
      (rcl_client.nif_rcl_client_init N w [a0, a1, a2, a3]).ret
        = some (.resource w.heap.length) ∧
      (rcl_client.nif_rcl_client_init N w [a0, a1, a2, a3]).world =
        { w with heap := w.heap ++ [⟨.rt_rcl_client_t, r.out, 1⟩], g := r.g,
                 avail := w.avail - 1,
                 events := w.events ++ [.alloc w.heap.length, .make w.heap.length,
                   .release w.heap.length] }) := by
  have h3n : ¬ (enif_get_string a2 256).1 ≤ 0 := by omega
  have h4a := congrArg Prod.fst h4
  have h4b := congrArg Prod.snd h4
  simp only at h4a h4b
  subst hr
  refine ⟨?_, ?_, ?_, ?_⟩
  · simp only [rcl_client.nif_rcl_client_init, h0, h1, h2, h3n, h4a, h4b, h6]
    simp only [Bool.not_true, Bool.false_eq_true, if_false, ne_eq, not_true_eq_false]
    split
    · rfl
    · split <;> rfl
  · intro hrc
    simp [rcl_client.nif_rcl_client_init, h0, h1, h2, h3n, h4a, h4b, h6, hrc]
  · intro hrc hav
    simp [rcl_client.nif_rcl_client_init, h0, h1, h2, h3n, h4a, h4b, h6, hrc,
      enif_alloc_resource, World.setG, hav]
  · intro hrc hav
    have hav0 : w.avail ≠ 0 := by omega
    simp [rcl_client.nif_rcl_client_init, h0, h1, h2, h3n, h4a, h4b, h6, hrc,
      enif_alloc_resource, World.setG, hav0, enif_make_resource, enif_release_resource,
      World.store, setCell_append_length]

end Rclex

namespace Rclex

open ResourceType

/-! ## Finalisation is guarded by both validity predicates -/

/-- C1: each of `nif_rcl_publisher_fini`, `nif_rcl_subscription_fini` and
`nif_rcl_client_fini`, called with an entity handle and a node handle of the correct kinds:
if the native validity predicate is false for the entity or for the node, the operation
returns the raised invalid-handle signal of the first failing check, leaves the world
unchanged and does not call the native fini function; the native fini function is called
only when both predicates are true. -/
theorem fini_guarded (N : Native) (w : World) :
    (∀ pub_h node_h p n,
      enif_get_resource w pub_h .rt_rcl_publisher_t = some p →
      enif_get_resource w node_h .rt_rcl_node_t = some n →
      FiniGuard (rcl_publisher.nif_rcl_publisher_fini N w [pub_h, node_h]) w
        (N.rcl_publisher_is_valid (w.deref p)) (N.rcl_node_is_valid (w.deref n))
        rcl_publisher.FILE .rcl_publisher_fini) ∧
    (∀ sub_h node_h s n,
      enif_get_resource w sub_h .rt_rcl_subscription_t = some s →
      enif_get_resource w node_h .rt_rcl_node_t = some n →
      FiniGuard (rcl_subscription.nif_rcl_subscription_fini N w [sub_h, node_h]) w
        (N.rcl_subscription_is_valid (w.deref s)) (N.rcl_node_is_valid (w.deref n))
        rcl_subscription.FILE .rcl_subscription_fini) ∧
    (∀ cli_h node_h c n,
      enif_get_resource w cli_h .rt_rcl_client_t = some c →
      enif_get_resource w node_h .rt_rcl_node_t = some n →
      FiniGuard (rcl_client.nif_rcl_client_fini N w [cli_h, node_h]) w
        (N.rcl_client_is_valid (w.deref c)) (N.rcl_node_is_valid (w.deref n))
        rcl_client.FILE .rcl_client_fini) := by
  refine ⟨fun pub_h node_h p n hp hn => ?_, fun sub_h node_h s n hs hn => ?_,
    fun cli_h node_h c n hc hn => ?_⟩
  · cases h1 : N.rcl_publisher_is_valid (w.deref p) <;>
      cases h2 : N.rcl_node_is_valid (w.deref n) <;>
      simp [FiniGuard, rcl_publisher.nif_rcl_publisher_fini, hp, hn, h1, h2, predCall,
        pairCall, raise]
  · cases h1 : N.rcl_subscription_is_valid (w.deref s) <;>
      cases h2 : N.rcl_node_is_valid (w.deref n) <;>
      simp [FiniGuard, rcl_subscription.nif_rcl_subscription_fini, hs, hn, h1, h2, predCall,
        pairCall, raise]
  · cases h1 : N.rcl_client_is_valid (w.deref c) <;>
      cases h2 : N.rcl_node_is_valid (w.deref n) <;>
      simp [FiniGuard, rcl_client.nif_rcl_client_fini, hc, hn, h1, h2, predCall,
        pairCall, raise]

/-- C1, instance: in a world that holds only a live node, at address `0`, and a publisher
that is not live, at address `1`, finalising the publisher against the node raises at
line 69, leaves the world unchanged and makes no native call but the validity predicate. -/
theorem fini_guarded_witness :
    enif_get_resource ⟨[⟨.rt_rcl_node_t, 1, 1⟩, ⟨.rt_rcl_publisher_t, 0, 1⟩], 0, 8, 0, []⟩
      (.resource 1) .rt_rcl_publisher_t = some 1 ∧
    enif_get_resource ⟨[⟨.rt_rcl_node_t, 1, 1⟩, ⟨.rt_rcl_publisher_t, 0, 1⟩], 0, 8, 0, []⟩
      (.resource 0) .rt_rcl_node_t = some 0 ∧
    Native.double.rcl_publisher_is_valid
      (World.deref ⟨[⟨.rt_rcl_node_t, 1, 1⟩, ⟨.rt_rcl_publisher_t, 0, 1⟩], 0, 8, 0, []⟩ 1)
      = false ∧
    (rcl_publisher.nif_rcl_publisher_fini Native.double
      ⟨[⟨.rt_rcl_node_t, 1, 1⟩, ⟨.rt_rcl_publisher_t, 0, 1⟩], 0, 8, 0, []⟩
      [.resource 1, .resource 0]).ret = some (raise rcl_publisher.FILE 69) ∧
    ∀ k ∈ (rcl_publisher.nif_rcl_publisher_fini Native.double
      ⟨[⟨.rt_rcl_node_t, 1, 1⟩, ⟨.rt_rcl_publisher_t, 0, 1⟩], 0, 8, 0, []⟩
      [.resource 1, .resource 0]).calls, k.fn ≠ .rcl_publisher_fini :=
  ⟨by decide, by decide, by decide,
    (((fini_guarded Native.double
      ⟨[⟨.rt_rcl_node_t, 1, 1⟩, ⟨.rt_rcl_publisher_t, 0, 1⟩], 0, 8, 0, []⟩).1
      (.resource 1) (.resource 0) 1 0 (by decide) (by decide)).1 (Or.inl (by decide))).1,
    (((fini_guarded Native.double
      ⟨[⟨.rt_rcl_node_t, 1, 1⟩, ⟨.rt_rcl_publisher_t, 0, 1⟩], 0, 8, 0, []⟩).1
      (.resource 1) (.resource 0) 1 0 (by decide) (by decide)).1 (Or.inl (by decide))).2.2⟩

/-! ## The native constructor is reached only through the pre-flight steps -/

/-- C2: for `nif_rcl_publisher_init`, `nif_rcl_subscription_init` and `nif_rcl_client_init`
and every input, the native constructor is invoked only if the parent node passed the
native liveness check, the name passed the name validator (it returned `RMW_RET_OK` with
result `RMW_TOPIC_VALID`) and QoS translation returned no exception; if one of these
pre-flight steps fails, the operation returns a raised failure and the native constructor
is never called. -/
theorem init_gated (N : Native) (w : World) (argv : List ERL_NIF_TERM) :
    InitGate N w argv (rcl_publisher.nif_rcl_publisher_init N w argv) .rcl_publisher_init ∧
    InitGate N w argv (rcl_subscription.nif_rcl_subscription_init N w argv)
      .rcl_subscription_init ∧
    InitGate N w argv (rcl_client.nif_rcl_client_init N w argv) .rcl_client_init := by
  refine ⟨⟨?_, publisher_init_preflight N w argv⟩, ⟨?_, subscription_init_preflight N w argv⟩,
    ⟨?_, client_init_preflight N w argv⟩⟩
  · rintro ⟨k, hk, hfn⟩
    by_contra hnp
    exact (publisher_init_preflight N w argv hnp).2 k hk hfn
  · rintro ⟨k, hk, hfn⟩
    by_contra hnp
    exact (subscription_init_preflight N w argv hnp).2 k hk hfn
  · rintro ⟨k, hk, hfn⟩
    by_contra hnp
    exact (client_init_preflight N w argv hnp).2 k hk hfn

end Rclex

namespace Rclex

open ResourceType

/-! ## The result of the init-class operations -/

theorem cell_length_none (w : World) : w.cell w.heap.length = none := by
  simp [World.cell]

/-- C3, as stated, fails: in the sample world with no allocation left, every pre-flight
check of `nif_rcl_publisher_init` passes and the native constructor returns `RCL_RET_OK`,
yet the operation returns no handle, because the cell cannot be allocated. -/
theorem init_ok_without_handle :
    preflight Native.double { World.sample with avail := 0 }
      [.resource 0, .resource 1, chatter, .other 0] ∧
    (∃ k ∈ (rcl_publisher.nif_rcl_publisher_init Native.double
        { World.sample with avail := 0 } [.resource 0, .resource 1, chatter, .other 0]).calls,
      k.fn = .rcl_publisher_init ∧ k.rc = RCL_RET_OK) ∧
    (rcl_publisher.nif_rcl_publisher_init Native.double
        { World.sample with avail := 0 } [.resource 0, .resource 1, chatter, .other 0]).ret
      = none :=
  ⟨⟨.resource 0, .resource 1, chatter, .other 0, 0, rfl, by decide, by decide,
    by decide, by decide, by decide⟩, by decide, by decide⟩

/-- C3, amended: each of `nif_rcl_publisher_init`, `nif_rcl_subscription_init` and
`nif_rcl_client_init` whose pre-flight checks all pass returns a handle only if the native
constructor returned `RCL_RET_OK`; on any other code it raises at line 53, allocates no
cell and exposes no handle, whatever the host can allocate; on `RCL_RET_OK`, provided the
host can allocate the cell, it returns the handle of a new cell of the matching kind that
holds exactly the value the constructor initialised. -/
theorem init_outcome (N : Native) (w : World) :
    (∀ a0 a1 a2 a3 node_p ts_p,
      enif_get_resource w a0 .rt_rcl_node_t = some node_p →
      N.rcl_node_is_valid (w.deref node_p) = true →
      enif_get_resource w a1 .rt_rosidl_message_type_support_t = some ts_p →
      0 < (enif_get_string a2 256).1 →
      N.rmw_validate_full_topic_name (cstr (enif_get_string a2 256).2)
        = (RMW_RET_OK, RMW_TOPIC_VALID) →
      enif_is_exception (N.get_c_qos_profile a3).1 = false →
      InitOutcome w (rcl_publisher.nif_rcl_publisher_init N w [a0, a1, a2, a3])
        (N.rcl_publisher_init w.g N.rcl_get_zero_initialized_publisher (w.deref node_p)
          (w.deref ts_p) (cstr (enif_get_string a2 256).2)
          { defaults := N.rcl_publisher_get_default_options,
            allocator := some N.get_nif_allocator, qos := some (N.get_c_qos_profile a3).2 })
        .rt_rcl_publisher_t rcl_publisher.FILE) ∧
    (∀ a0 a1 a2 a3 node_p ts_p,
      enif_get_resource w a0 .rt_rcl_node_t = some node_p →
      N.rcl_node_is_valid (w.deref node_p) = true →
      enif_get_resource w a1 .rt_rosidl_message_type_support_t = some ts_p →
      0 < (enif_get_string a2 256).1 →
      N.rmw_validate_full_topic_name (cstr (enif_get_string a2 256).2)
        = (RMW_RET_OK, RMW_TOPIC_VALID) →
      enif_is_exception (N.get_c_qos_profile a3).1 = false →
      InitOutcome w (rcl_subscription.nif_rcl_subscription_init N w [a0, a1, a2, a3])
        (N.rcl_subscription_init w.g N.rcl_get_zero_initialized_subscription
          (w.deref node_p) (w.deref ts_p) (cstr (enif_get_string a2 256).2)
          { defaults := N.rcl_subscription_get_default_options,
            allocator := some N.get_nif_allocator, qos := some (N.get_c_qos_profile a3).2 })
        .rt_rcl_subscription_t rcl_subscription.FILE) ∧
    (∀ a0 a1 a2 a3 node_p ts_p,
      enif_get_resource w a0 .rt_rcl_node_t = some node_p →
      N.rcl_node_is_valid (w.deref node_p) = true →
      enif_get_resource w a1 .rt_rosidl_service_type_support_t = some ts_p →
      0 < (enif_get_string a2 256).1 →
      N.rmw_validate_full_topic_name (cstr (enif_get_string a2 256).2)
        = (RMW_RET_OK, RMW_TOPIC_VALID) →
      enif_is_exception (N.get_c_qos_profile a3).1 = false →
      InitOutcome w (rcl_client.nif_rcl_client_init N w [a0, a1, a2, a3])
        (N.rcl_client_init w.g N.rcl_get_zero_initialized_client (w.deref node_p)
          (w.deref ts_p) (cstr (enif_get_string a2 256).2)
          { defaults := N.rcl_client_get_default_options,
            allocator := some N.get_nif_allocator, qos := some (N.get_c_qos_profile a3).2 })
        .rt_rcl_client_t rcl_client.FILE) := by
  refine ⟨fun a0 a1 a2 a3 node_p ts_p h0 h1 h2 h3 h4 h6 => ?_,
    fun a0 a1 a2 a3 node_p ts_p h0 h1 h2 h3 h4 h6 => ?_,
    fun a0 a1 a2 a3 node_p ts_p h0 h1 h2 h3 h4 h6 => ?_⟩
  · obtain ⟨_, hbad, _, hok⟩ :=
      publisher_init_checked N w a0 a1 a2 a3 node_p ts_p _ h0 h1 h2 h3 h4 h6 rfl
    refine ⟨?_, fun h => hbad h, fun h hav => ?_⟩
    · rintro ⟨a, ha⟩
      by_contra h
      rw [(hbad h).1] at ha
      simp [raise] at ha
    · rw [(hok h hav).1, (hok h hav).2]
      exact ⟨rfl, cell_length_none w, rfl⟩
  · obtain ⟨_, hbad, _, hok⟩ :=
      subscription_init_checked N w a0 a1 a2 a3 node_p ts_p _ h0 h1 h2 h3 h4 h6 rfl
    refine ⟨?_, fun h => hbad h, fun h hav => ?_⟩
    · rintro ⟨a, ha⟩
      by_contra h
      rw [(hbad h).1] at ha
      simp [raise] at ha
    · rw [(hok h hav).1, (hok h hav).2]
      exact ⟨rfl, cell_length_none w, rfl⟩
  · obtain ⟨_, hbad, _, hok⟩ :=
      client_init_checked N w a0 a1 a2 a3 node_p ts_p _ h0 h1 h2 h3 h4 h6 rfl
    refine ⟨?_, fun h => hbad h, fun h hav => ?_⟩
    · rintro ⟨a, ha⟩
      by_contra h
      rw [(hbad h).1] at ha
      simp [raise] at ha
    · rw [(hok h hav).1, (hok h hav).2]
      exact ⟨rfl, cell_length_none w, rfl⟩

/-- C3, instance: in the sample world a publisher on `/chatter` is created as the new cell
at address `7`; with a native library whose constructor fails and with no allocation left,
the same call raises at line 53 and leaves the world as it was. -/
theorem init_outcome_witness :
    enif_get_resource World.sample (.resource 0) .rt_rcl_node_t = some 0 ∧
    Native.double.rcl_node_is_valid (World.sample.deref 0) = true ∧
    enif_get_resource World.sample (.resource 1) .rt_rosidl_message_type_support_t = some 1 ∧
    0 < (enif_get_string chatter 256).1 ∧
    Native.double.rmw_validate_full_topic_name (cstr (enif_get_string chatter 256).2)
      = (RMW_RET_OK, RMW_TOPIC_VALID) ∧
    enif_is_exception (Native.double.get_c_qos_profile (.other 0)).1 = false ∧
    0 < World.sample.avail ∧
    (rcl_publisher.nif_rcl_publisher_init Native.double World.sample
      [.resource 0, .resource 1, chatter, .other 0]).ret = some (.resource 7) ∧
    (rcl_publisher.nif_rcl_publisher_init
      { Native.double with
        rcl_publisher_init := fun g _ _ _ _ _ => ⟨RCL_RET_ERROR, g, 0, 0⟩ }
      { World.sample with avail := 0 }
      [.resource 0, .resource 1, chatter, .other 0]).ret
        = some (raise rcl_publisher.FILE 53) ∧
    (rcl_publisher.nif_rcl_publisher_init
      { Native.double with
        rcl_publisher_init := fun g _ _ _ _ _ => ⟨RCL_RET_ERROR, g, 0, 0⟩ }
      { World.sample with avail := 0 }
      [.resource 0, .resource 1, chatter, .other 0]).world
        = { World.sample with avail := 0 } :=
  ⟨by decide, by decide, by decide, by decide, by decide, by decide, by decide,
    (((init_outcome Native.double World.sample).1 (.resource 0) (.resource 1) chatter
      (.other 0) 0 1 (by decide) (by decide) (by decide) (by decide) (by decide)
      (by decide)).2.2 (by decide) (by decide)).1,
    (((init_outcome { Native.double with
        rcl_publisher_init := fun g _ _ _ _ _ => ⟨RCL_RET_ERROR, g, 0, 0⟩ }
      { World.sample with avail := 0 }).1 (.resource 0) (.resource 1) chatter
      (.other 0) 0 1 (by decide) (by decide) (by decide) (by decide) (by decide)
      (by decide)).2.1 (by decide)).1,
    (((init_outcome { Native.double with
        rcl_publisher_init := fun g _ _ _ _ _ => ⟨RCL_RET_ERROR, g, 0, 0⟩ }
      { World.sample with avail := 0 }).1 (.resource 0) (.resource 1) chatter
      (.other 0) 0 1 (by decide) (by decide) (by decide) (by decide) (by decide)
      (by decide)).2.1 (by decide)).2⟩

/-! ## A name the validator rejects -/

/-- C4, as stated, fails: in the sample world `nif_rcl_subscription_init` with the empty
name gets a syntax failure from the name validator and makes no constructor call, but what
it returns is the failure raised through `raise_with_message`, with the validator's reason,
and not the argument error `badarg`. -/
theorem init_empty_name_not_badarg :
    (Native.double.rmw_validate_full_topic_name (cstr (enif_get_string (.list []) 256).2)).2
      ≠ RMW_TOPIC_VALID ∧
    (rcl_subscription.nif_rcl_subscription_init Native.double World.sample
      [.resource 0, .resource 1, .list [], .other 0]).ret =
        some (raise_with_message rcl_subscription.FILE 38
          "topic name must not be empty string") ∧
    (rcl_subscription.nif_rcl_subscription_init Native.double World.sample
      [.resource 0, .resource 1, .list [], .other 0]).ret ≠ some enif_make_badarg ∧
    ∀ k ∈ (rcl_subscription.nif_rcl_subscription_init Native.double World.sample
      [.resource 0, .resource 1, .list [], .other 0]).calls, k.fn ≠ .rcl_subscription_init :=
  ⟨by decide, by decide, by decide, by decide⟩

/-- C4, amended: each of `nif_rcl_publisher_init`, `nif_rcl_subscription_init` and
`nif_rcl_client_init` with a live parent node and a type descriptor of the correct kind:
whenever the name validator reports a syntax failure for the supplied name, the operation
fails with the failure raised through `raise_with_message` at line 38, which is not the
argument error `badarg`, whose message is exactly the validator's reason string for that
validation result; the world is unchanged, the validator is the last native call and no
native constructor call occurs. -/
theorem init_invalid_name (N : Native) (w : World) :
    (∀ a0 a1 a2 a3 node_p ts_p,
      enif_get_resource w a0 .rt_rcl_node_t = some node_p →
      N.rcl_node_is_valid (w.deref node_p) = true →
      enif_get_resource w a1 .rt_rosidl_message_type_support_t = some ts_p →
      0 < (enif_get_string a2 256).1 →
      (N.rmw_validate_full_topic_name (cstr (enif_get_string a2 256).2)).1 = RMW_RET_OK →
      (N.rmw_validate_full_topic_name (cstr (enif_get_string a2 256).2)).2
        ≠ RMW_TOPIC_VALID →
      (rcl_publisher.nif_rcl_publisher_init N w [a0, a1, a2, a3]).ret =
        some (raise_with_message rcl_publisher.FILE 38
          (N.rmw_full_topic_name_validation_result_string
            (N.rmw_validate_full_topic_name (cstr (enif_get_string a2 256).2)).2)) ∧
      (rcl_publisher.nif_rcl_publisher_init N w [a0, a1, a2, a3]).ret
        ≠ some enif_make_badarg ∧
      (rcl_publisher.nif_rcl_publisher_init N w [a0, a1, a2, a3]).world = w ∧
      (rcl_publisher.nif_rcl_publisher_init N w [a0, a1, a2, a3]).calls =
        [predCall .rcl_node_is_valid w node_p true,
          validateCall (cstr (enif_get_string a2 256).2) RMW_RET_OK]) ∧
    (∀ a0 a1 a2 a3 node_p ts_p,
      enif_get_resource w a0 .rt_rcl_node_t = some node_p →
      N.rcl_node_is_valid (w.deref node_p) = true →
      enif_get_resource w a1 .rt_rosidl_message_type_support_t = some ts_p →
      0 < (enif_get_string a2 256).1 →
      (N.rmw_validate_full_topic_name (cstr (enif_get_string a2 256).2)).1 = RMW_RET_OK →
      (N.rmw_validate_full_topic_name (cstr (enif_get_string a2 256).2)).2
        ≠ RMW_TOPIC_VALID →
      (rcl_subscription.nif_rcl_subscription_init N w [a0, a1, a2, a3]).ret =
        some (raise_with_message rcl_subscription.FILE 38
          (N.rmw_full_topic_name_validation_result_string
            (N.rmw_validate_full_topic_name (cstr (enif_get_string a2 256).2)).2)) ∧
      (rcl_subscription.nif_rcl_subscription_init N w [a0, a1, a2, a3]).ret
        ≠ some enif_make_badarg ∧
      (rcl_subscription.nif_rcl_subscription_init N w [a0, a1, a2, a3]).world = w ∧
      (rcl_subscription.nif_rcl_subscription_init N w [a0, a1, a2, a3]).calls =
        [predCall .rcl_node_is_valid w node_p true,
          validateCall (cstr (enif_get_string a2 256).2) RMW_RET_OK]) ∧
    (∀ a0 a1 a2 a3 node_p ts_p,
      enif_get_resource w a0 .rt_rcl_node_t = some node_p →
      N.rcl_node_is_valid (w.deref node_p) = true →
      enif_get_resource w a1 .rt_rosidl_service_type_support_t = some ts_p →
      0 < (enif_get_string a2 256).1 →
      (N.rmw_validate_full_topic_name (cstr (enif_get_string a2 256).2)).1 = RMW_RET_OK →
      (N.rmw_validate_full_topic_name (cstr (enif_get_string a2 256).2)).2
        ≠ RMW_TOPIC_VALID →
      (rcl_client.nif_rcl_client_init N w [a0, a1, a2, a3]).ret =
        some (raise_with_message rcl_client.FILE 38
          (N.rmw_full_topic_name_validation_result_string
            (N.rmw_validate_full_topic_name (cstr (enif_get_string a2 256).2)).2)) ∧
      (rcl_client.nif_rcl_client_init N w [a0, a1, a2, a3]).ret
        ≠ some enif_make_badarg ∧
      (rcl_client.nif_rcl_client_init N w [a0, a1, a2, a3]).world = w ∧
      (rcl_client.nif_rcl_client_init N w [a0, a1, a2, a3]).calls =
        [predCall .rcl_node_is_valid w node_p true,
          validateCall (cstr (enif_get_string a2 256).2) RMW_RET_OK]) := by
  refine ⟨fun a0 a1 a2 a3 node_p ts_p h0 h1 h2 h3 h4 h5 => ?_,
    fun a0 a1 a2 a3 node_p ts_p h0 h1 h2 h3 h4 h5 => ?_,
    fun a0 a1 a2 a3 node_p ts_p h0 h1 h2 h3 h4 h5 => ?_⟩
  · rw [publisher_init_invalid_name N w a0 a1 a2 a3 node_p ts_p h0 h1 h2 h3 h4 h5]
    simp [raise_with_message, enif_make_badarg]
  · rw [subscription_init_invalid_name N w a0 a1 a2 a3 node_p ts_p h0 h1 h2 h3 h4 h5]
    simp [raise_with_message, enif_make_badarg]
  · rw [client_init_invalid_name N w a0 a1 a2 a3 node_p ts_p h0 h1 h2 h3 h4 h5]
    simp [raise_with_message, enif_make_badarg]

/-- C4, instance: the test double of the validator rejects the name `chatter` without its
leading slash, and the client is refused with the validator's reason. -/
theorem init_invalid_name_witness :
    enif_get_resource World.sample (.resource 0) .rt_rcl_node_t = some 0 ∧
    Native.double.rcl_node_is_valid (World.sample.deref 0) = true ∧
    enif_get_resource World.sample (.resource 6) .rt_rosidl_service_type_support_t = some 6 ∧
    0 < (enif_get_string (.list [99, 104, 97, 116, 116, 101, 114]) 256).1 ∧
    (Native.double.rmw_validate_full_topic_name
      (cstr (enif_get_string (.list [99, 104, 97, 116, 116, 101, 114]) 256).2)).1
      = RMW_RET_OK ∧
    (Native.double.rmw_validate_full_topic_name
      (cstr (enif_get_string (.list [99, 104, 97, 116, 116, 101, 114]) 256).2)).2
      ≠ RMW_TOPIC_VALID ∧
    (rcl_client.nif_rcl_client_init Native.double World.sample
      [.resource 0, .resource 6, .list [99, 104, 97, 116, 116, 101, 114], .other 0]).ret =
        some (raise_with_message rcl_client.FILE 38
          "topic name must be absolute, it must lead with a slash") :=
  ⟨by decide, by decide, by decide, by decide, by decide, by decide,
    ((init_invalid_name Native.double World.sample).2.2 (.resource 0) (.resource 6)
      (.list [99, 104, 97, 116, 116, 101, 114]) (.other 0) 0 6 (by decide) (by decide)
      (by decide) (by decide) (by decide) (by decide)).1⟩

end Rclex

namespace Rclex

open ResourceType

/-! ## The three-way result of the take-class operations -/

/-- C5, as stated, fails: in the sample world with one message queued and no allocation
left, `nif_rcl_take_loaned_message` on the live subscription gets `RCL_RET_OK` from the
native call and returns no result at all. -/
theorem take_loaned_ok_without_result :
    enif_get_resource { World.sample with g := 1, avail := 0 } (.resource 3)
      .rt_rcl_subscription_t = some 3 ∧
    Native.double.rcl_subscription_is_valid
      (World.deref { World.sample with g := 1, avail := 0 } 3) = true ∧
    (∃ k ∈ (rcl_subscription.nif_rcl_take_loaned_message Native.double
        { World.sample with g := 1, avail := 0 } [.resource 3]).calls,
      k.fn = .rcl_take_loaned_message ∧ k.rc = RCL_RET_OK) ∧
    (rcl_subscription.nif_rcl_take_loaned_message Native.double
        { World.sample with g := 1, avail := 0 } [.resource 3]).ret = none :=
  ⟨by decide, by decide, by decide, by decide⟩

/-- C5, amended: each of `nif_rcl_take`, `nif_rcl_take_response_with_info` and
`nif_rcl_take_loaned_message`, called with live handles of the correct kinds, maps the
native return code three ways: `RCL_RET_OK` gives an ok result (`ok`,
`{ok, sequence number}`, and for `nif_rcl_take_loaned_message`, provided the host can
allocate the message cell, `{ok, new message handle}`), the empty-result code gives the
atom `error` as an ordinary value, and every other code gives a raised exception; the atom
`error` is no exception and differs from every ok result. -/
theorem take_three_way (N : Native) (w : World) :
    (∀ sub_h msg_h s m,
      enif_get_resource w sub_h .rt_rcl_subscription_t = some s →
      N.rcl_subscription_is_valid (w.deref s) = true →
      enif_get_resource w msg_h .rt_ros_message = some m →
      ThreeWay (rcl_subscription.nif_rcl_take N w [sub_h, msg_h])
        (N.rcl_take w.g (w.deref s) (w.deref m)).rc RCL_RET_SUBSCRIPTION_TAKE_FAILED
        atom_ok) ∧
    (∀ cli_h msg_h c m,
      enif_get_resource w cli_h .rt_rcl_client_t = some c →
      N.rcl_client_is_valid (w.deref c) = true →
      enif_get_resource w msg_h .rt_ros_message = some m →
      ThreeWay (rcl_client.nif_rcl_take_response_with_info N w [cli_h, msg_h])
        (N.rcl_take_response_with_info w.g (w.deref c) (w.deref m)).1.rc
        RCL_RET_CLIENT_TAKE_FAILED
        (enif_make_tuple2 atom_ok
          (enif_make_int (N.rcl_take_response_with_info w.g (w.deref c) (w.deref m)).2))) ∧
    (∀ sub_h s,
      enif_get_resource w sub_h .rt_rcl_subscription_t = some s →
      N.rcl_subscription_is_valid (w.deref s) = true →
      ((N.rcl_take_loaned_message w.g (w.deref s)).rc = RCL_RET_OK → 0 < w.avail →
        (rcl_subscription.nif_rcl_take_loaned_message N w [sub_h]).ret =
          some (enif_make_tuple2 atom_ok (.resource w.heap.length))) ∧
      ((N.rcl_take_loaned_message w.g (w.deref s)).rc = RCL_RET_SUBSCRIPTION_TAKE_FAILED →
        (rcl_subscription.nif_rcl_take_loaned_message N w [sub_h]).ret = some atom_error) ∧
      ((N.rcl_take_loaned_message w.g (w.deref s)).rc ≠ RCL_RET_OK →
        (N.rcl_take_loaned_message w.g (w.deref s)).rc ≠ RCL_RET_SUBSCRIPTION_TAKE_FAILED →
        ∃ r, (rcl_subscription.nif_rcl_take_loaned_message N w [sub_h]).ret
          = some (.exception r))) ∧
    enif_is_exception atom_error = false ∧ atom_error ≠ atom_ok ∧
    ∀ t, atom_error ≠ enif_make_tuple2 atom_ok t := by
  refine ⟨fun sub_h msg_h s m hs hsv hm => ⟨?_, ?_, ?_⟩,
    fun cli_h msg_h c m hc hcv hm => ⟨?_, ?_, ?_⟩,
    fun sub_h s hs hsv => ⟨?_, ?_, ?_⟩, by decide, by decide, ?_⟩
  · intro h
    simp [rcl_subscription.nif_rcl_take, hs, hsv, hm, h]
  · intro h
    simp [rcl_subscription.nif_rcl_take, hs, hsv, hm, h, RCL_RET_SUBSCRIPTION_TAKE_FAILED,
      RCL_RET_OK]
  · intro h1 h2
    simp [rcl_subscription.nif_rcl_take, hs, hsv, hm, h1, h2, raise]
  · intro h
    simp [rcl_client.nif_rcl_take_response_with_info, hc, hcv, hm, h]
  · intro h
    simp [rcl_client.nif_rcl_take_response_with_info, hc, hcv, hm, h,
      RCL_RET_CLIENT_TAKE_FAILED, RCL_RET_OK]
  · intro h1 h2
    simp [rcl_client.nif_rcl_take_response_with_info, hc, hcv, hm, h1, h2, raise]
  · intro h hav
    have hav0 : w.avail ≠ 0 := by omega
    simp [rcl_subscription.nif_rcl_take_loaned_message, hs, hsv, h, enif_alloc_resource,
      World.setG, hav0, enif_make_resource]
  · intro h
    simp [rcl_subscription.nif_rcl_take_loaned_message, hs, hsv, h,
      RCL_RET_SUBSCRIPTION_TAKE_FAILED, RCL_RET_OK]
  · intro h1 h2
    simp only [rcl_subscription.nif_rcl_take_loaned_message, hs, hsv, h1, h2]
    simp only [Bool.not_true, Bool.false_eq_true, if_false]
    split
    · exact ⟨_, rfl⟩
    · split
      · exact ⟨_, rfl⟩
      · split <;> exact ⟨_, rfl⟩
  · intro t
    simp [atom_error, enif_make_tuple2]

/-- C5, instance: in the sample world with no allocation left and nothing queued, taking
from the live subscription returns the atom `error`; with one message queued it returns
`ok`. -/
theorem take_three_way_witness :
    enif_get_resource { World.sample with avail := 0 } (.resource 3)
      .rt_rcl_subscription_t = some 3 ∧
    Native.double.rcl_subscription_is_valid
      (World.deref { World.sample with avail := 0 } 3) = true ∧
    enif_get_resource { World.sample with avail := 0 } (.resource 5) .rt_ros_message
      = some 5 ∧
    (rcl_subscription.nif_rcl_take Native.double { World.sample with avail := 0 }
      [.resource 3, .resource 5]).ret = some atom_error ∧
    (rcl_subscription.nif_rcl_take Native.double { World.sample with g := 1, avail := 0 }
      [.resource 3, .resource 5]).ret = some atom_ok :=
  ⟨by decide, by decide, by decide,
    ((take_three_way Native.double { World.sample with avail := 0 }).1 (.resource 3)
      (.resource 5) 3 5 (by decide) (by decide) (by decide)).2.1 (by decide),
    ((take_three_way Native.double { World.sample with g := 1, avail := 0 }).1 (.resource 3)
      (.resource 5) 3 5 (by decide) (by decide) (by decide)).1 (by decide)⟩

end Rclex

namespace Rclex

open ResourceType

/-! ## Clocks -/

/-- The clock operations hand every clock cell straight to the native library: whatever
the state of the clock, `nif_rcl_clock_fini` and `nif_rcl_clock_get_now` issue their native
call on it, and they answer `ok` (or the time) or `badarg`, never a raised invalid-handle
signal. -/
theorem clock_never_checked (N : Native) (w : World) (h : ERL_NIF_TERM) (p : Nat)
    (hp : enif_get_resource w h .rt_rcl_clock_t = some p) :
    (rcl_clock.nif_rcl_clock_fini N w [h]).calls =
      [⟨.rcl_clock_fini, [p], [w.deref p], [], (N.rcl_clock_fini w.g (w.deref p)).rc⟩] ∧
    ((rcl_clock.nif_rcl_clock_fini N w [h]).ret = some atom_ok ∨
      (rcl_clock.nif_rcl_clock_fini N w [h]).ret = some enif_make_badarg) ∧
    (rcl_clock.nif_rcl_clock_get_now N w [h]).calls =
      [⟨.rcl_clock_get_now, [p], [w.deref p], [], (N.rcl_clock_get_now w.g (w.deref p)).rc⟩] ∧
    ((rcl_clock.nif_rcl_clock_get_now N w [h]).ret =
        some (enif_make_int ((N.rcl_clock_get_now w.g (w.deref p)).out2 : Int)) ∨
      (rcl_clock.nif_rcl_clock_get_now N w [h]).ret = some enif_make_badarg) := by
  refine ⟨?_, ?_, ?_, ?_⟩
  · simp only [rcl_clock.nif_rcl_clock_fini, hp]
    split <;> rfl
  · by_cases hrc : (N.rcl_clock_fini w.g (w.deref p)).rc = RCL_RET_OK <;>
      simp [rcl_clock.nif_rcl_clock_fini, hp, hrc]
  · simp only [rcl_clock.nif_rcl_clock_get_now, hp]
    split <;> rfl
  · by_cases hrc : (N.rcl_clock_get_now w.g (w.deref p)).rc = RCL_RET_OK <;>
      simp [rcl_clock.nif_rcl_clock_get_now, hp, hrc]

/-- C8, the code at the failing input: in the sample world a steady clock is created as
the cell at address `7` and finalised with result `ok`; a second `nif_rcl_clock_fini` on
the same handle passes the finalised clock to native `rcl_clock_fini` again and answers
`ok` once more, and `nif_rcl_clock_get_now` passes it to native `rcl_clock_get_now`. -/
theorem clock_fini_twice :
    (rcl_clock.nif_rcl_clock_init Native.double World.sample [atom_steady_time]).ret
      = some (.resource 7) ∧
    (rcl_clock.nif_rcl_clock_fini Native.double
      (rcl_clock.nif_rcl_clock_init Native.double World.sample [atom_steady_time]).world
      [.resource 7]).ret = some atom_ok ∧
    (rcl_clock.nif_rcl_clock_fini Native.double
      (rcl_clock.nif_rcl_clock_fini Native.double
        (rcl_clock.nif_rcl_clock_init Native.double World.sample [atom_steady_time]).world
        [.resource 7]).world [.resource 7]).ret = some atom_ok ∧
    (rcl_clock.nif_rcl_clock_fini Native.double
      (rcl_clock.nif_rcl_clock_fini Native.double
        (rcl_clock.nif_rcl_clock_init Native.double World.sample [atom_steady_time]).world
        [.resource 7]).world [.resource 7]).calls = [⟨.rcl_clock_fini, [7], [3], [], 0⟩] ∧
    (rcl_clock.nif_rcl_clock_get_now Native.double
      (rcl_clock.nif_rcl_clock_fini Native.double
        (rcl_clock.nif_rcl_clock_init Native.double World.sample [atom_steady_time]).world
        [.resource 7]).world [.resource 7]).calls = [⟨.rcl_clock_get_now, [7], [3], [], 0⟩] :=
  ⟨by decide, by decide, by decide, by decide, by decide⟩

/-- C9, the code at the failing input: an atom that is none of the three selectors falls
through the comparisons, keeps the initial kind `RCL_STEADY_TIME`, and native
`rcl_clock_init` is called with it; the result is whatever that call gives, not the
argument error raised for a selector that is no atom. -/
theorem clock_init_unknown_atom (N : Native) (w : World) (name : String)
    (h1 : name ≠ "steady_time") (h2 : name ≠ "system_time") (h3 : name ≠ "ros_time") :
    (rcl_clock.nif_rcl_clock_init N w [.atom name]).calls =
      [⟨.rcl_clock_init, [], [rcl_clock_type_t.RCL_STEADY_TIME.toNat, N.get_nif_allocator], [],
        (N.rcl_clock_init w.g .RCL_STEADY_TIME N.get_nif_allocator).rc⟩] ∧
    ((N.rcl_clock_init w.g .RCL_STEADY_TIME N.get_nif_allocator).rc = RCL_RET_OK →
      0 < w.avail →
      (rcl_clock.nif_rcl_clock_init N w [.atom name]).ret = some (.resource w.heap.length)) ∧
    (rcl_clock.nif_rcl_clock_init N w [.other 0]).ret = some enif_make_badarg ∧
    (rcl_clock.nif_rcl_clock_init N w [.other 0]).calls = [] := by
  refine ⟨?_, ?_, ?_, ?_⟩
  · simp only [rcl_clock.nif_rcl_clock_init, enif_is_atom, enif_compare, atom_steady_time,
      atom_system_time, atom_ros_time, ERL_NIF_TERM.atom.injEq, h1, h2, h3]
    simp only [Bool.not_true, Bool.false_eq_true, if_false, one_ne_zero]
    split
    · rfl
    · split <;> rfl
  · intro hrc hav
    have hav0 : w.avail ≠ 0 := by omega
    simp [rcl_clock.nif_rcl_clock_init, enif_is_atom, enif_compare, atom_steady_time,
      atom_system_time, atom_ros_time, h1, h2, h3, hrc, enif_alloc_resource, World.setG, hav0,
      enif_make_resource]
  · simp [rcl_clock.nif_rcl_clock_init, enif_is_atom]
  · simp [rcl_clock.nif_rcl_clock_init, enif_is_atom]

/-- C9, instance: the atom `foo` gives a steady clock. -/
theorem clock_init_unknown_atom_witness :
    "foo" ≠ "steady_time" ∧ "foo" ≠ "system_time" ∧ "foo" ≠ "ros_time" ∧
    (rcl_clock.nif_rcl_clock_init Native.double World.sample [.atom "foo"]).calls =
      [⟨.rcl_clock_init, [], [3, 9], [], 0⟩] :=
  ⟨by decide, by decide, by decide,
    (clock_init_unknown_atom Native.double World.sample "foo" (by decide) (by decide)
      (by decide)).1⟩

/-- C10: for each recognised selector the clock kind that `nif_rcl_clock_init` passes to
native `rcl_clock_init` depends on the selector alone, whatever the native library and the
world: `steady_time` gives `RCL_STEADY_TIME`, `system_time` gives `RCL_SYSTEM_TIME` and
`ros_time` gives `RCL_ROS_TIME`, the native call being the only one issued; the three
kinds are distinct. -/
theorem clock_kind_mapping (N : Native) (w : World) :
    (rcl_clock.nif_rcl_clock_init N w [atom_steady_time]).calls =
      [⟨.rcl_clock_init, [], [rcl_clock_type_t.RCL_STEADY_TIME.toNat, N.get_nif_allocator], [],
        (N.rcl_clock_init w.g .RCL_STEADY_TIME N.get_nif_allocator).rc⟩] ∧
    (rcl_clock.nif_rcl_clock_init N w [atom_system_time]).calls =
      [⟨.rcl_clock_init, [], [rcl_clock_type_t.RCL_SYSTEM_TIME.toNat, N.get_nif_allocator], [],
        (N.rcl_clock_init w.g .RCL_SYSTEM_TIME N.get_nif_allocator).rc⟩] ∧
    (rcl_clock.nif_rcl_clock_init N w [atom_ros_time]).calls =
      [⟨.rcl_clock_init, [], [rcl_clock_type_t.RCL_ROS_TIME.toNat, N.get_nif_allocator], [],
        (N.rcl_clock_init w.g .RCL_ROS_TIME N.get_nif_allocator).rc⟩] ∧
    rcl_clock_type_t.RCL_STEADY_TIME ≠ rcl_clock_type_t.RCL_SYSTEM_TIME ∧
    rcl_clock_type_t.RCL_STEADY_TIME ≠ rcl_clock_type_t.RCL_ROS_TIME ∧
    rcl_clock_type_t.RCL_SYSTEM_TIME ≠ rcl_clock_type_t.RCL_ROS_TIME ∧
    rcl_clock_type_t.RCL_STEADY_TIME.toNat ≠ rcl_clock_type_t.RCL_SYSTEM_TIME.toNat ∧
    rcl_clock_type_t.RCL_STEADY_TIME.toNat ≠ rcl_clock_type_t.RCL_ROS_TIME.toNat ∧
    rcl_clock_type_t.RCL_SYSTEM_TIME.toNat ≠ rcl_clock_type_t.RCL_ROS_TIME.toNat := by
  refine ⟨?_, ?_, ?_, by decide, by decide, by decide, by decide, by decide, by decide⟩
  · simp only [rcl_clock.nif_rcl_clock_init, enif_is_atom, enif_compare, atom_steady_time]
    simp only [Bool.not_true, Bool.false_eq_true, if_false, if_true]
    split
    · rfl
    · split <;> rfl
  · have h : ¬ ("system_time" = "steady_time") := by decide
    simp only [rcl_clock.nif_rcl_clock_init, enif_is_atom, enif_compare, atom_steady_time,
      atom_system_time, ERL_NIF_TERM.atom.injEq, h]
    simp only [Bool.not_true, Bool.false_eq_true, if_false, if_true, one_ne_zero]
    split
    · rfl
    · split <;> rfl
  · have h : ¬ ("ros_time" = "steady_time") := by decide
    have h' : ¬ ("ros_time" = "system_time") := by decide
    simp only [rcl_clock.nif_rcl_clock_init, enif_is_atom, enif_compare, atom_steady_time,
      atom_system_time, atom_ros_time, ERL_NIF_TERM.atom.injEq, h, h']
    simp only [Bool.not_true, Bool.false_eq_true, if_false, if_true, one_ne_zero]
    split
    · rfl
    · split <;> rfl

end Rclex

namespace Rclex

open ResourceType

/-! ## Cells under the primitive operations of the host -/

theorem get_setCell (l : List Cell) (p : Nat) (f : Cell → Cell) (a : Nat) :
    (setCell l p f)[a]? = if a = p then (l[a]?).map f else l[a]? := by
  induction l generalizing p a with
  | nil => simp [setCell]
  | cons x xs ih =>
    cases p with
    | zero => cases a <;> simp [setCell]
    | succ p => cases a <;> simp [setCell, ih]

@[simp] theorem cell_setG (w : World) (g a : Nat) : (w.setG g).cell a = w.cell a := rfl

@[simp] theorem cell_store (w : World) (p v a : Nat) :
    (w.store p v).cell a =
      if a = p then (w.cell a).map (fun c => { c with val := v }) else w.cell a := by
  simp [World.store, World.cell, get_setCell]

@[simp] theorem cell_make_resource (w : World) (obj a : Nat) :
    (enif_make_resource w obj).2.cell a =
      if a = obj then (w.cell a).map (fun c => { c with refc := c.refc + 1 })
      else w.cell a := by
  simp [enif_make_resource, World.cell, get_setCell]

@[simp] theorem cell_release_resource (w : World) (obj a : Nat) :
    (enif_release_resource w obj).cell a =
      if a = obj then (w.cell a).map (fun c => { c with refc := c.refc - 1 })
      else w.cell a := by
  simp [enif_release_resource, World.cell, get_setCell]

theorem alloc_fst (w : World) (rt : ResourceType) :
    (enif_alloc_resource w rt).1 = if w.avail = 0 then none else some w.heap.length := by
  unfold enif_alloc_resource
  split <;> rfl

theorem cell_alloc (w : World) (rt : ResourceType) (a : Nat) :
    (enif_alloc_resource w rt).2.cell a =
      if w.avail = 0 then w.cell a
      else if a = w.heap.length then some ⟨rt, w.junk, 1⟩ else w.cell a := by
  unfold enif_alloc_resource
  split
  · rfl
  · simp only [World.cell]
    split
    · rename_i h
      subst h
      simp
    · rename_i h
      rcases Nat.lt_or_gt_of_ne h with h' | h'
      · simp [List.getElem?_append_left h']
      · have h1 : w.heap.length ≤ a := by omega
        have h2 : (w.heap ++ [({ rt := rt, val := w.junk, refc := 1 } : Cell)]).length ≤ a := by
          simp; omega
        simp [List.getElem?_eq_none h1, List.getElem?_eq_none h2]

theorem cell_length (w : World) : w.cell w.heap.length = none := by
  simp [World.cell]

theorem get_resource_cell (w : World) (t : ERL_NIF_TERM) (K : ResourceType) (p : Nat)
    (h : enif_get_resource w t K = some p) :
    t = .resource p ∧ ∃ c, w.cell p = some c ∧ c.rt = K := by
  unfold enif_get_resource at h
  split at h
  · split at h
    · split at h
      · simp only [Option.some.injEq] at h
        subst h
        rename_i c hc hrt
        exact ⟨rfl, c, hc, hrt⟩
      · simp at h
    · simp at h
  · simp at h


/-! ## Kinds and values under the primitive operations -/

@[simp] theorem kind_setG (w : World) (g a : Nat) : (w.setG g).kind a = w.kind a := rfl

@[simp] theorem kind_store (w : World) (p v a : Nat) : (w.store p v).kind a = w.kind a := by
  simp only [World.kind, cell_store]
  split
  · cases w.cell a <;> rfl
  · rfl

@[simp] theorem kind_make_resource (w : World) (obj a : Nat) :
    (enif_make_resource w obj).2.kind a = w.kind a := by
  simp only [World.kind, cell_make_resource]
  split
  · cases w.cell a <;> rfl
  · rfl

@[simp] theorem kind_release_resource (w : World) (obj a : Nat) :
    (enif_release_resource w obj).kind a = w.kind a := by
  simp only [World.kind, cell_release_resource]
  split
  · cases w.cell a <;> rfl
  · rfl

theorem kind_alloc (w : World) (rt : ResourceType) (a : Nat) :
    (enif_alloc_resource w rt).2.kind a =
      if w.avail = 0 then w.kind a else if a = w.heap.length then some rt else w.kind a := by
  simp only [World.kind, cell_alloc]
  split
  · rfl
  · split <;> rfl

@[simp] theorem heap_setG (w : World) (g : Nat) : (w.setG g).heap = w.heap := rfl

@[simp] theorem avail_setG (w : World) (g : Nat) : (w.setG g).avail = w.avail := rfl

theorem kind_of_length_eq (w : World) (p : Nat) (h : w.heap.length = p) : w.kind p = none := by
  subst h
  simp [World.kind, cell_length]

theorem deref_of_length_eq (w : World) (p : Nat) (h : w.heap.length = p) : w.deref p = 0 := by
  subst h
  simp [World.deref, cell_length]

theorem kind_length (w : World) : w.kind w.heap.length = none := by
  simp [World.kind, cell_length]

@[simp] theorem deref_setG (w : World) (g a : Nat) : (w.setG g).deref a = w.deref a := rfl

theorem deref_store (w : World) (p v a : Nat) :
    (w.store p v).deref a = if a = p ∧ w.kind p ≠ none then v else w.deref a := by
  simp only [World.deref, World.kind, cell_store]
  by_cases h : a = p
  · subst h
    cases w.cell a <;> simp
  · simp [h]

@[simp] theorem deref_make_resource (w : World) (obj a : Nat) :
    (enif_make_resource w obj).2.deref a = w.deref a := by
  simp only [World.deref, cell_make_resource]
  by_cases h : a = obj
  · subst h
    cases w.cell a <;> simp
  · simp [h]

@[simp] theorem deref_release_resource (w : World) (obj a : Nat) :
    (enif_release_resource w obj).deref a = w.deref a := by
  simp only [World.deref, cell_release_resource]
  by_cases h : a = obj
  · subst h
    cases w.cell a <;> simp
  · simp [h]

theorem deref_alloc (w : World) (rt : ResourceType) (a : Nat) :
    (enif_alloc_resource w rt).2.deref a =
      if w.avail = 0 then w.deref a else if a = w.heap.length then w.junk else w.deref a := by
  simp only [World.deref, cell_alloc]
  by_cases h : w.avail = 0
  · simp [h]
  · by_cases h' : a = w.heap.length
    · simp [h, h']
    · simp [h, h']

theorem get_resource_kind (w : World) (t : ERL_NIF_TERM) (K : ResourceType) (p : Nat) :
    enif_get_resource w t K = some p ↔ t = .resource p ∧ w.kind p = some K := by
  constructor
  · intro h
    obtain ⟨h1, c, hc, hrt⟩ := get_resource_cell w t K p h
    simp [h1, World.kind, hc, hrt]
  · rintro ⟨rfl, h⟩
    cases hc : w.cell p with
    | none => simp [World.kind, hc] at h
    | some c =>
      simp [World.kind, hc] at h
      simp [enif_get_resource, hc, h]

theorem finiSuccesses_nil (a : Nat) : finiSuccesses a [] = 0 := rfl

theorem finiSuccesses_cons (a : Nat) (k : NativeCall) (ks : List NativeCall) :
    finiSuccesses a (k :: ks) =
      (if k.fn = .rcl_publisher_fini ∧ some a = k.cells.head? ∧ k.rc = RCL_RET_OK then 1 else 0)
        + finiSuccesses a ks := by
  unfold finiSuccesses
  rw [List.filter_cons]
  by_cases h : k.fn = .rcl_publisher_fini ∧ some a = k.cells.head? ∧ k.rc = RCL_RET_OK
  · have h' : decide (k.fn = .rcl_publisher_fini ∧ k.cells.head? = some a ∧ k.rc = RCL_RET_OK)
        = true := decide_eq_true ⟨h.1, h.2.1.symm, h.2.2⟩
    rw [if_pos h, if_pos h', List.length_cons]
    omega
  · have h' : ¬ (decide (k.fn = .rcl_publisher_fini ∧ k.cells.head? = some a ∧
        k.rc = RCL_RET_OK) = true) := by
      rw [decide_eq_true_iff]
      exact fun x => h ⟨x.1, x.2.1.symm, x.2.2⟩
    rw [if_neg h, if_neg h', Nat.zero_add]

theorem finiSuccesses_append (a : Nat) (l1 l2 : List NativeCall) :
    finiSuccesses a (l1 ++ l2) = finiSuccesses a l1 + finiSuccesses a l2 := by
  simp [finiSuccesses]


/-! ## Publisher finalisation over call sequences -/

set_option maxHeartbeats 4000000 in
/-- Every entry point respects the frame of publisher finalisation, in a native library
whose successful `rcl_publisher_fini` leaves the publisher not live. -/
theorem frame_run (N : Native)
    (Hfini : ∀ g p n, (N.rcl_publisher_fini g p n).rc = RCL_RET_OK →
      N.rcl_publisher_is_valid (N.rcl_publisher_fini g p n).out = false)
    (w : World) (op : Nif) (argv : List ERL_NIF_TERM) :
    Frame N w (op.run N w argv) := by
  generalize hrun : op.run N w argv = run
  cases op <;> simp only [Nif.run] at hrun
  all_goals
    simp only [rcl_publisher.nif_rcl_publisher_init,
      rcl_publisher.nif_rcl_publisher_fini,
      rcl_publisher.nif_rcl_publish,
      rcl_publisher.nif_rcl_publisher_can_loan_messages,
      rcl_publisher.nif_rcl_borrow_loaned_message,
      rcl_publisher.nif_rcl_publish_loaned_message,
      rcl_publisher.nif_rcl_return_loaned_message_from_publisher,
      rcl_subscription.nif_rcl_subscription_init,
      rcl_subscription.nif_rcl_subscription_fini,
      rcl_subscription.nif_rcl_take,
      rcl_subscription.nif_rcl_subscription_can_loan_messages,
      rcl_subscription.nif_rcl_take_loaned_message,
      rcl_subscription.nif_rcl_return_loaned_message_from_subscription,
      rcl_client.nif_rcl_client_init,
      rcl_client.nif_rcl_client_fini,
      rcl_client.nif_rcl_take_response_with_info,
      rcl_client.nif_rcl_send_request,
      rcl_clock.nif_rcl_clock_init,
      rcl_clock.nif_rcl_clock_get_now,
      rcl_clock.nif_rcl_clock_fini,
      msg_int16_nif.nif_create_empty_int16,
      msg_int16_nif.nif_create_msginfo,
      msg_int16_nif.nif_std_msgs__msg__Int16__init,
      msg_int16_nif.nif_std_msgs__msg__Int16__destroy,
      msg_int16_nif.nif_getmsgtype_int16,
      msg_int16_nif.nif_readdata_int16,
      msg_int16_nif.nif_setdata_int16,
      publisher_nif.nif_rcl_get_zero_initialized_publisher,
      publisher_nif.nif_rcl_publisher_get_default_options,
      publisher_nif.nif_rcl_publisher_get_topic_name,
      publisher_nif.nif_rcl_publisher_fini,
      publisher_nif.nif_rcl_publisher_init,
      publisher_nif.nif_rcl_publisher_is_valid,
      publisher_nif.nif_rcl_publish] at hrun
  all_goals repeat' (split at hrun)
  all_goals
    subst hrun
    refine ⟨fun a ha => ?_, fun a ha => ?_, fun a ha => ?_⟩
  all_goals
    simp_all [get_resource_kind, finiSuccesses_nil, finiSuccesses_cons, predCall, pairCall,
      initCall, validateCall, alloc_fst, kind_alloc, deref_alloc, deref_store,
      kind_of_length_eq, deref_of_length_eq]
  all_goals first
    | (intro h; subst h; simp_all [kind_of_length_eq, deref_of_length_eq])
    | (left; intro h; subst h; simp_all [kind_of_length_eq, deref_of_length_eq])
    | (split_ifs <;> (try subst_vars) <;> simp_all [kind_of_length_eq, deref_of_length_eq])

/-- One NIF call keeps the invariant of publisher finalisation. -/
theorem fini_once_step (N : Native)
    (Hfini : ∀ g p n, (N.rcl_publisher_fini g p n).rc = RCL_RET_OK →
      N.rcl_publisher_is_valid (N.rcl_publisher_fini g p n).out = false)
    (w : World) (log : List NativeCall) (op : Nif) (argv : List ERL_NIF_TERM)
    (hinv : FiniOnce N w log) :
    FiniOnce N (op.run N w argv).world (log ++ (op.run N w argv).calls) := by
  obtain ⟨hk, hv, hz⟩ := frame_run N Hfini w op argv
  intro a
  obtain ⟨hnone, hpub⟩ := hinv a
  rw [finiSuccesses_append]
  cases hka : w.kind a with
  | none =>
    have h1 := hnone hka
    have h2 := hz a hka
    refine ⟨fun _ => by omega, fun _ => Or.inl (by omega)⟩
  | some K =>
    have hk' := hk a (by simp [hka])
    rw [hka] at hk'
    refine ⟨fun h => by simp [hk'] at h, fun h => ?_⟩
    rw [hk'] at h
    have hK : K = .rt_rcl_publisher_t := by simpa using h
    subst hK
    rcases hv a hka with ⟨h0, hsame⟩ | ⟨h1, hvalid, hinvalid⟩
    · rcases hpub hka with hc | ⟨hc, hcv⟩
      · exact Or.inl (by omega)
      · rcases hsame with hs | hs
        · exact Or.inr ⟨by omega, by rw [hs]; exact hcv⟩
        · rw [hs] at hcv
          exact absurd hcv (by simp)
    · rcases hpub hka with hc | ⟨hc, hcv⟩
      · exact Or.inr ⟨by omega, hinvalid⟩
      · rw [hvalid] at hcv
        exact absurd hcv (by simp)

/-- A sequence of NIF calls keeps the invariant of publisher finalisation. -/
theorem fini_once_runSeq (N : Native)
    (Hfini : ∀ g p n, (N.rcl_publisher_fini g p n).rc = RCL_RET_OK →
      N.rcl_publisher_is_valid (N.rcl_publisher_fini g p n).out = false)
    (calls : List (Nif × List ERL_NIF_TERM)) :
    ∀ (w : World) (log : List NativeCall), FiniOnce N w log →
      FiniOnce N (runSeq N w calls).1 (log ++ (runSeq N w calls).2) := by
  induction calls with
  | nil =>
    intro w log h
    simpa [runSeq] using h
  | cons c rest ih =>
    intro w log h
    obtain ⟨op, argv⟩ := c
    have hs := fini_once_step N Hfini w log op argv h
    simp only [runSeq]
    split
    · exact hs
    · have := ih _ _ hs
      simpa [List.append_assoc] using this

end Rclex

namespace Rclex

open ResourceType

/-! ## The publisher lifecycle -/

theorem kind_push (w : World) (c : Cell) (g av a : Nat) (ev : List RefEvent) :
    World.kind { w with heap := w.heap ++ [c], g := g, avail := av, events := ev } a =
      if a = w.heap.length then some c.rt else w.kind a := by
  simp only [World.kind, World.cell]
  by_cases h : a = w.heap.length
  · subst h
    simp
  · rcases Nat.lt_or_gt_of_ne h with h' | h'
    · simp [h, List.getElem?_append_left h']
    · have h1 : w.heap.length ≤ a := by omega
      have h2 : (w.heap ++ [c]).length ≤ a := by
        simp
        omega
      simp [h, List.getElem?_eq_none h1, List.getElem?_eq_none h2]

theorem deref_push (w : World) (c : Cell) (g av a : Nat) (ev : List RefEvent) :
    World.deref { w with heap := w.heap ++ [c], g := g, avail := av, events := ev } a =
      if a = w.heap.length then c.val else w.deref a := by
  simp only [World.deref, World.cell]
  by_cases h : a = w.heap.length
  · subst h
    simp
  · rcases Nat.lt_or_gt_of_ne h with h' | h'
    · simp [h, List.getElem?_append_left h']
    · have h1 : w.heap.length ≤ a := by omega
      have h2 : (w.heap ++ [c]).length ≤ a := by
        simp
        omega
      simp [h, List.getElem?_eq_none h1, List.getElem?_eq_none h2]

/-- The run of `nif_rcl_publisher_fini` on a live publisher and a live node. -/
theorem publisher_fini_checked (N : Native) (w : World) (a0 a1 : ERL_NIF_TERM) (p n : Nat)
    (hp : enif_get_resource w a0 .rt_rcl_publisher_t = some p)
    (hpv : N.rcl_publisher_is_valid (w.deref p) = true)
    (hn : enif_get_resource w a1 .rt_rcl_node_t = some n)
    (hnv : N.rcl_node_is_valid (w.deref n) = true) :
    rcl_publisher.nif_rcl_publisher_fini N w [a0, a1] =
      ⟨some (if (N.rcl_publisher_fini w.g (w.deref p) (w.deref n)).rc ≠ RCL_RET_OK
          then raise rcl_publisher.FILE 78 else atom_ok),
        ((w.setG (N.rcl_publisher_fini w.g (w.deref p) (w.deref n)).g).store p
          (N.rcl_publisher_fini w.g (w.deref p) (w.deref n)).out).store n
          (N.rcl_publisher_fini w.g (w.deref p) (w.deref n)).out2,
        [predCall .rcl_publisher_is_valid w p true, predCall .rcl_node_is_valid w n true,
          pairCall .rcl_publisher_fini w p n
            (N.rcl_publisher_fini w.g (w.deref p) (w.deref n)).rc]⟩ := by
  simp only [rcl_publisher.nif_rcl_publisher_fini, hp, hpv, hn, hnv]
  by_cases h : (N.rcl_publisher_fini w.g (w.deref p) (w.deref n)).rc = RCL_RET_OK <;> simp [h]

/-- The run of `nif_rcl_publisher_fini` on a publisher that is not live. -/
theorem publisher_fini_stale (N : Native) (w : World) (a0 a1 : ERL_NIF_TERM) (p : Nat)
    (hp : enif_get_resource w a0 .rt_rcl_publisher_t = some p)
    (hpv : N.rcl_publisher_is_valid (w.deref p) = false) :
    rcl_publisher.nif_rcl_publisher_fini N w [a0, a1] =
      ⟨some (raise rcl_publisher.FILE 69), w,
        [predCall .rcl_publisher_is_valid w p false]⟩ := by
  simp [rcl_publisher.nif_rcl_publisher_fini, hp, hpv]

/-- A handle returned by `nif_rcl_publisher_init` is the address of one new publisher cell
holding the value written by a native constructor call that returned `RCL_RET_OK` on a live
node. -/
theorem publisher_init_success (N : Native) (w : World) (a0 a1 a2 a3 : ERL_NIF_TERM)
    (h : Nat)
    (hret : (rcl_publisher.nif_rcl_publisher_init N w [a0, a1, a2, a3]).ret
      = some (.resource h)) :
    ∃ node_p r, enif_get_resource w a0 .rt_rcl_node_t = some node_p ∧
      N.rcl_node_is_valid (w.deref node_p) = true ∧
      (∃ g p n t name o, r = N.rcl_publisher_init g p n t name o) ∧
      r.rc = RCL_RET_OK ∧ h = w.heap.length ∧
      (rcl_publisher.nif_rcl_publisher_init N w [a0, a1, a2, a3]).world =
        { w with heap := w.heap ++ [⟨.rt_rcl_publisher_t, r.out, 1⟩], g := r.g,
                 avail := w.avail - 1,
                 events := w.events ++ [.alloc w.heap.length, .make w.heap.length,
                   .release w.heap.length] } := by
  by_cases hpre : preflight N w [a0, a1, a2, a3]
  swap
  · obtain ⟨⟨e, he⟩, _⟩ := publisher_init_preflight N w _ hpre
    rw [he] at hret
    simp at hret
  obtain ⟨b0, b1, b2, b3, node_p, hargs, h0, h1, h3, h4, h6⟩ := hpre
  simp only [List.cons.injEq, and_true] at hargs
  obtain ⟨rfl, rfl, rfl, rfl⟩ := hargs
  cases h2 : enif_get_resource w a1 .rt_rosidl_message_type_support_t with
  | none =>
    simp [rcl_publisher.nif_rcl_publisher_init, h0, h1, h2, enif_make_badarg] at hret
  | some ts_p =>
    obtain ⟨_, hbad, hnull, hok⟩ :=
      publisher_init_checked N w a0 a1 a2 a3 node_p ts_p _ h0 h1 h2 h3 h4 h6 rfl
    by_cases hrc : (N.rcl_publisher_init w.g N.rcl_get_zero_initialized_publisher
        (w.deref node_p) (w.deref ts_p) (cstr (enif_get_string a2 256).2)
        { defaults := N.rcl_publisher_get_default_options,
          allocator := some N.get_nif_allocator,
          qos := some (N.get_c_qos_profile a3).2 }).rc = RCL_RET_OK
    swap
    · rw [(hbad hrc).1] at hret
      simp [raise] at hret
    by_cases hav : w.avail = 0
    · rw [(hnull hrc hav).1] at hret
      simp at hret
    have hav' : 0 < w.avail := by omega
    rw [(hok hrc hav').1] at hret
    simp only [Option.some.injEq, ERL_NIF_TERM.resource.injEq] at hret
    exact ⟨node_p, _, h0, h1, ⟨_, _, _, _, _, _, rfl⟩, hrc, hret.symm, (hok hrc hav').2⟩

end Rclex

namespace Rclex

open ResourceType

/-- C7: publisher lifecycle, over a native library in which a successful native init makes
the validity predicate true and a successful native fini makes it false.  After
`nif_rcl_publisher_init` succeeds on the node `node_h` with the name `/chatter`, returning
the handle `h`, the publisher is valid; `nif_rcl_publisher_fini(h, node_h)` then checks
both handles and calls native `rcl_publisher_fini` on the two cells; when that call reports
`RCL_RET_OK` the operation returns `ok`, the publisher is no longer valid, and a further
`nif_rcl_publisher_fini` on `h` raises the invalid-handle signal of line 69, leaves the
world unchanged and issues no native call but the validity predicate; when the native call
reports another code the operation raises at line 78.  Hence in every call sequence, from
every world, native `rcl_publisher_fini` succeeds at most once on each publisher cell. -/
theorem publisher_lifecycle (N : Native)
    (Hinit : ∀ g p n t name o, (N.rcl_publisher_init g p n t name o).rc = RCL_RET_OK →
      N.rcl_publisher_is_valid (N.rcl_publisher_init g p n t name o).out = true)
    (Hfini : ∀ g p n, (N.rcl_publisher_fini g p n).rc = RCL_RET_OK →
      N.rcl_publisher_is_valid (N.rcl_publisher_fini g p n).out = false) :
    (∀ (w w1 w2 : World) (node_h ts_h qos : ERL_NIF_TERM) (h node_p : Nat) (r : NativeRet),
      (rcl_publisher.nif_rcl_publisher_init N w [node_h, ts_h, chatter, qos]).ret
        = some (.resource h) →
      enif_get_resource w node_h .rt_rcl_node_t = some node_p →
      w1 = (rcl_publisher.nif_rcl_publisher_init N w [node_h, ts_h, chatter, qos]).world →
      r = N.rcl_publisher_fini w1.g (w1.deref h) (w1.deref node_p) →
      w2 = (rcl_publisher.nif_rcl_publisher_fini N w1 [.resource h, node_h]).world →
      N.rcl_publisher_is_valid (w1.deref h) = true ∧
      (rcl_publisher.nif_rcl_publisher_fini N w1 [.resource h, node_h]).calls =
        [predCall .rcl_publisher_is_valid w1 h true, predCall .rcl_node_is_valid w1 node_p true,
          pairCall .rcl_publisher_fini w1 h node_p r.rc] ∧
      (r.rc = RCL_RET_OK →
        (rcl_publisher.nif_rcl_publisher_fini N w1 [.resource h, node_h]).ret
          = some atom_ok ∧
        N.rcl_publisher_is_valid (w2.deref h) = false ∧
        ∀ node_h2,
          (rcl_publisher.nif_rcl_publisher_fini N w2 [.resource h, node_h2]).ret
            = some (raise rcl_publisher.FILE 69) ∧
          (rcl_publisher.nif_rcl_publisher_fini N w2 [.resource h, node_h2]).world = w2 ∧
          (rcl_publisher.nif_rcl_publisher_fini N w2 [.resource h, node_h2]).calls =
            [predCall .rcl_publisher_is_valid w2 h false]) ∧
      (r.rc ≠ RCL_RET_OK →
        (rcl_publisher.nif_rcl_publisher_fini N w1 [.resource h, node_h]).ret
          = some (raise rcl_publisher.FILE 78))) ∧
    (∀ (w : World) (calls : List (Nif × List ERL_NIF_TERM)) (a : Nat),
      (runSeq N w calls).1.kind a = some .rt_rcl_publisher_t →
      finiSuccesses a (runSeq N w calls).2 ≤ 1) := by
  refine ⟨?_, ?_⟩
  · intro w w1 w2 node_h ts_h qos h node_p0 r0 hret hnode0 hw1 hr0 hw2
    obtain ⟨node_p, r, h0, h1, ⟨g, p, n, t, name, o, hr⟩, hrc, hh, hworld⟩ :=
      publisher_init_success N w node_h ts_h chatter qos h hret
    rw [hnode0] at h0
    simp only [Option.some.injEq] at h0
    subst h0
    subst hh
    rw [hworld] at hw1
    obtain ⟨hnode, hnk⟩ := (get_resource_kind w node_h _ node_p0).1 hnode0
    have hne : node_p0 ≠ w.heap.length := by
      intro he
      rw [he, kind_length] at hnk
      simp at hnk
    have hk1 : w1.kind w.heap.length = some .rt_rcl_publisher_t := by
      rw [hw1, kind_push]
      simp
    have hd1 : w1.deref w.heap.length = r.out := by
      rw [hw1, deref_push]
      simp
    have hkn : w1.kind node_p0 = some .rt_rcl_node_t := by
      rw [hw1, kind_push]
      simp [hne, hnk]
    have hdn : w1.deref node_p0 = w.deref node_p0 := by
      rw [hw1, deref_push]
      simp [hne]
    have hp1 : enif_get_resource w1 (.resource w.heap.length) .rt_rcl_publisher_t
        = some w.heap.length := (get_resource_kind _ _ _ _).2 ⟨rfl, hk1⟩
    have hn1 : enif_get_resource w1 node_h .rt_rcl_node_t = some node_p0 :=
      (get_resource_kind _ _ _ _).2 ⟨hnode, hkn⟩
    have hpv : N.rcl_publisher_is_valid (w1.deref w.heap.length) = true := by
      rw [hd1, hr]
      exact Hinit _ _ _ _ _ _ (hr ▸ hrc)
    have hnv : N.rcl_node_is_valid (w1.deref node_p0) = true := by
      rw [hdn]
      exact h1
    have hrun := publisher_fini_checked N w1 _ _ _ _ hp1 hpv hn1 hnv
    rw [hrun] at hw2
    rw [hrun]
    rw [← hr0]
    rw [← hr0] at hw2
    refine ⟨hpv, rfl, ?_, ?_⟩
    · intro hf
      have hk2 : w2.kind w.heap.length = some .rt_rcl_publisher_t := by
        rw [hw2]
        simpa using hk1
      have hd2 : w2.deref w.heap.length = r0.out := by
        rw [hw2]
        simp [deref_store, hk1, Ne.symm hne]
      have hp2 : enif_get_resource w2 (.resource w.heap.length) .rt_rcl_publisher_t
          = some w.heap.length := (get_resource_kind _ _ _ _).2 ⟨rfl, hk2⟩
      have hpv2 : N.rcl_publisher_is_valid (w2.deref w.heap.length) = false := by
        rw [hd2, hr0]
        exact Hfini _ _ _ (hr0 ▸ hf)
      refine ⟨by simp [hf], hpv2, fun node_h2 => ?_⟩
      rw [publisher_fini_stale N w2 _ node_h2 _ hp2 hpv2]
      exact ⟨rfl, rfl, rfl⟩
    · intro hf
      simp [hf]
  · intro w calls a ha
    have hinv : FiniOnce N w [] := fun a => ⟨fun _ => rfl, fun _ => Or.inl rfl⟩
    have := (fini_once_runSeq N Hfini calls w [] hinv a).2 ha
    simp only [List.nil_append] at this
    omega

/-- C7, instance: the test double satisfies both assumptions; in the sample world the
publisher on `/chatter` is created at address `7` and is valid, finalising it returns `ok`,
a second finalisation raises at line 69 with no native fini call, and over the sequence
init, fini, fini native `rcl_publisher_fini` succeeds at most once on it. -/
theorem publisher_lifecycle_witness :
    (∀ g p n t name o, (Native.double.rcl_publisher_init g p n t name o).rc = RCL_RET_OK →
      Native.double.rcl_publisher_is_valid
        (Native.double.rcl_publisher_init g p n t name o).out = true) ∧
    (∀ g p n, (Native.double.rcl_publisher_fini g p n).rc = RCL_RET_OK →
      Native.double.rcl_publisher_is_valid (Native.double.rcl_publisher_fini g p n).out
        = false) ∧
    (rcl_publisher.nif_rcl_publisher_init Native.double World.sample
      [.resource 0, .resource 1, chatter, .other 0]).ret = some (.resource 7) ∧
    Native.double.rcl_publisher_is_valid
      ((rcl_publisher.nif_rcl_publisher_init Native.double World.sample
        [.resource 0, .resource 1, chatter, .other 0]).world.deref 7) = true ∧
    (rcl_publisher.nif_rcl_publisher_fini Native.double
      (rcl_publisher.nif_rcl_publisher_init Native.double World.sample
        [.resource 0, .resource 1, chatter, .other 0]).world
      [.resource 7, .resource 0]).ret = some atom_ok ∧
    (rcl_publisher.nif_rcl_publisher_fini Native.double
      (rcl_publisher.nif_rcl_publisher_fini Native.double
        (rcl_publisher.nif_rcl_publisher_init Native.double World.sample
          [.resource 0, .resource 1, chatter, .other 0]).world
        [.resource 7, .resource 0]).world
      [.resource 7, .resource 0]).ret = some (raise rcl_publisher.FILE 69) ∧
    (∀ k ∈ (rcl_publisher.nif_rcl_publisher_fini Native.double
      (rcl_publisher.nif_rcl_publisher_fini Native.double
        (rcl_publisher.nif_rcl_publisher_init Native.double World.sample
          [.resource 0, .resource 1, chatter, .other 0]).world
        [.resource 7, .resource 0]).world
      [.resource 7, .resource 0]).calls, k.fn ≠ .rcl_publisher_fini) ∧
    finiSuccesses 7 (runSeq Native.double World.sample
      [(.publisher_init, [.resource 0, .resource 1, chatter, .other 0]),
        (.publisher_fini, [.resource 7, .resource 0]),
        (.publisher_fini, [.resource 7, .resource 0])]).2 = 1 :=
  ⟨fun _ _ _ _ _ _ _ => rfl, fun _ _ _ _ => rfl, by decide,
    ((publisher_lifecycle Native.double (fun _ _ _ _ _ _ _ => rfl) (fun _ _ _ _ => rfl)).1
      World.sample _ _ (.resource 0) (.resource 1) (.other 0) 7 0 _ (by decide) (by decide)
      rfl rfl rfl).1,
    (((publisher_lifecycle Native.double (fun _ _ _ _ _ _ _ => rfl) (fun _ _ _ _ => rfl)).1
      World.sample _ _ (.resource 0) (.resource 1) (.other 0) 7 0 _ (by decide) (by decide)
      rfl rfl rfl).2.2.1 (by decide)).1,
    ((((publisher_lifecycle Native.double (fun _ _ _ _ _ _ _ => rfl) (fun _ _ _ _ => rfl)).1
      World.sample _ _ (.resource 0) (.resource 1) (.other 0) 7 0 _ (by decide) (by decide)
      rfl rfl rfl).2.2.1 (by decide)).2.2 (.resource 0)).1,
    by decide, by decide⟩

/-! ## A handle of the wrong kind -/

theorem get_resource_mismatch (w : World) (addr : Nat) (c : Cell) (B : ResourceType)
    (hc : w.cell addr = some c) (hne : c.rt ≠ B) :
    enif_get_resource w (.resource addr) B = none := by
  simp [enif_get_resource, hc, hne]

/-- C6, as stated, fails, in two ways.  `nif_rcl_publisher_fini` expects a node handle in
its second position; given the subscription handle of the sample world there, after a
publisher handle that is not live, it raises the invalid-handle signal of line 69 and not
`badarg`.  And `src/msg_int16_nif.c` gives the cell of a type support the same resource
type `rt_void` as the cell of an Int16 message: the handle that `nif_getmsgtype_int16`
returns is accepted by `nif_readdata_int16` and by `nif_setdata_int16` in the position of
the message, its bytes are read as message data (`16`) and overwritten. -/
theorem kind_mismatch_not_badarg :
    ((Nif.publisher_fini).expects.get? 1 = some (some .rt_rcl_node_t) ∧
      World.sample.kind 3 = some .rt_rcl_subscription_t ∧
      (Nif.publisher_fini.run Native.double World.sample [.resource 2, .resource 3]).ret
        = some (raise rcl_publisher.FILE 69) ∧
      (Nif.publisher_fini.run Native.double World.sample [.resource 2, .resource 3]).ret
        ≠ some enif_make_badarg) ∧
    ((Nif.getmsgtype_int16.run Native.double World.legacy []).ret = some (.resource 4) ∧
      (Nif.readdata_int16.run Native.double
        (Nif.getmsgtype_int16.run Native.double World.legacy []).world [.resource 4]).ret
        = some (.integer 16) ∧
      (Nif.setdata_int16.run Native.double
        (Nif.getmsgtype_int16.run Native.double World.legacy []).world
        [.resource 4, .integer 5]).ret = some (enif_make_atom "ok") ∧
      (Nif.setdata_int16.run Native.double
        (Nif.getmsgtype_int16.run Native.double World.legacy []).world
        [.resource 4, .integer 5]).world.deref 4 = 5) :=
  ⟨⟨by decide, by decide, by decide, by decide⟩, ⟨by decide, by decide, by decide, by decide⟩⟩

set_option maxHeartbeats 4000000 in
/-- C6, amended: for every entry point, every argument position `i` at which it expects a
handle of resource type `B`, and every handle there whose cell has another resource type:
the operation leaves the world unchanged; the only native calls it issues are validity
predicates on the cells of handles in earlier positions that have the type expected there,
so the mismatched cell is not read through position `i`; if all these predicates reported
true it returns `badarg`, and if one of them reported false it raises that check's
invalid-handle signal instead. -/
theorem kind_mismatch_rejected (N : Native) (w : World) (op : Nif)
    (argv : List ERL_NIF_TERM) (i addr : Nat) (B : ResourceType) (c : Cell)
    (hB : op.expects.get? i = some (some B))
    (harg : argv.get? i = some (.resource addr)) (hc : w.cell addr = some c)
    (hne : c.rt ≠ B) :
    (op.run N w argv).world = w ∧
    (∀ k ∈ (op.run N w argv).calls, isValidityFn k.fn = true ∧
        ∃ j p, j < i ∧ argCell w op argv j = some p ∧ k.cells = [p]) ∧
    (((∀ k ∈ (op.run N w argv).calls, k.rc = 1) ∧
        (op.run N w argv).ret = some enif_make_badarg) ∨
      ((∃ k ∈ (op.run N w argv).calls, k.rc = 0) ∧
        ∃ file line, (op.run N w argv).ret = some (raise file line))) := by
  generalize hrun : op.run N w argv = run
  cases op <;> simp only [Nif.expects] at hB <;>
    (rcases i with _ | _ | _ | _ | i <;> simp at hB) <;> subst hB <;>
    simp only [Nif.run] at hrun
  all_goals
    have hm := get_resource_mismatch w addr c _ hc hne
    simp only [rcl_publisher.nif_rcl_publisher_init,
      rcl_publisher.nif_rcl_publisher_fini,
      rcl_publisher.nif_rcl_publish,
      rcl_publisher.nif_rcl_publisher_can_loan_messages,
      rcl_publisher.nif_rcl_borrow_loaned_message,
      rcl_publisher.nif_rcl_publish_loaned_message,
      rcl_publisher.nif_rcl_return_loaned_message_from_publisher,
      rcl_subscription.nif_rcl_subscription_init,
      rcl_subscription.nif_rcl_subscription_fini,
      rcl_subscription.nif_rcl_take,
      rcl_subscription.nif_rcl_subscription_can_loan_messages,
      rcl_subscription.nif_rcl_take_loaned_message,
      rcl_subscription.nif_rcl_return_loaned_message_from_subscription,
      rcl_client.nif_rcl_client_init,
      rcl_client.nif_rcl_client_fini,
      rcl_client.nif_rcl_take_response_with_info,
      rcl_client.nif_rcl_send_request,
      rcl_clock.nif_rcl_clock_init,
      rcl_clock.nif_rcl_clock_get_now,
      rcl_clock.nif_rcl_clock_fini,
      msg_int16_nif.nif_create_empty_int16,
      msg_int16_nif.nif_create_msginfo,
      msg_int16_nif.nif_std_msgs__msg__Int16__init,
      msg_int16_nif.nif_std_msgs__msg__Int16__destroy,
      msg_int16_nif.nif_getmsgtype_int16,
      msg_int16_nif.nif_readdata_int16,
      msg_int16_nif.nif_setdata_int16,
      publisher_nif.nif_rcl_get_zero_initialized_publisher,
      publisher_nif.nif_rcl_publisher_get_default_options,
      publisher_nif.nif_rcl_publisher_get_topic_name,
      publisher_nif.nif_rcl_publisher_fini,
      publisher_nif.nif_rcl_publisher_init,
      publisher_nif.nif_rcl_publisher_is_valid,
      publisher_nif.nif_rcl_publish] at hrun
    split at hrun
    · simp only [List.get?, Option.some.injEq] at harg
      subst harg
      simp only [hm] at hrun
      repeat' (split at hrun)
      all_goals
        subst hrun
        simp_all [argCell, Nif.expects, predCall, enif_make_badarg, raise, isValidityFn]
    · subst hrun
      simp_all [argCell, Nif.expects, predCall, enif_make_badarg, raise, isValidityFn]

/-- C6, instance: the publisher handle of the sample world in the message position of
`nif_rcl_take`, after the live subscription, gives `badarg`. -/
theorem kind_mismatch_rejected_witness :
    (Nif.take).expects.get? 1 = some (some .rt_ros_message) ∧
    [ERL_NIF_TERM.resource 3, ERL_NIF_TERM.resource 2].get? 1 = some (.resource 2) ∧
    World.sample.cell 2 = some ⟨.rt_rcl_publisher_t, 0, 1⟩ ∧
    (⟨.rt_rcl_publisher_t, 0, 1⟩ : Cell).rt ≠ .rt_ros_message ∧
    (Nif.take.run Native.double World.sample [.resource 3, .resource 2]).world
      = World.sample ∧
    (((∀ k ∈ (Nif.take.run Native.double World.sample [.resource 3, .resource 2]).calls,
          k.rc = 1) ∧
        (Nif.take.run Native.double World.sample [.resource 3, .resource 2]).ret
          = some enif_make_badarg) ∨
      ((∃ k ∈ (Nif.take.run Native.double World.sample [.resource 3, .resource 2]).calls,
          k.rc = 0) ∧
        ∃ file line, (Nif.take.run Native.double World.sample [.resource 3, .resource 2]).ret
          = some (raise file line))) ∧
    (Nif.take.run Native.double World.sample [.resource 3, .resource 2]).ret
      = some enif_make_badarg :=
  ⟨by decide, by decide, by decide, by decide,
    (kind_mismatch_rejected Native.double World.sample .take
      [.resource 3, .resource 2] 1 2 .rt_ros_message ⟨.rt_rcl_publisher_t, 0, 1⟩
      (by decide) (by decide) (by decide) (by decide)).1,
    (kind_mismatch_rejected Native.double World.sample .take
      [.resource 3, .resource 2] 1 2 .rt_ros_message ⟨.rt_rcl_publisher_t, 0, 1⟩
      (by decide) (by decide) (by decide) (by decide)).2.2,
    by decide⟩

end Rclex

namespace Rclex

open ResourceType

/-! ## Operate-class calls re-validate the entity -/

/-- C11: every operate-class operation of `src/` on a publisher, subscription or client
handle of the correct kind, whatever the other argument is: the native validity predicate
of the entity is the first native call of the run, and if it reports false the operation
returns the raised invalid-handle signal of that check, leaves the world unchanged and
performs no native transfer, loan or query call. -/
theorem operate_guarded (N : Native) (w : World) :
    (∀ pub_h x p, enif_get_resource w pub_h .rt_rcl_publisher_t = some p →
      OperateGuard (rcl_publisher.nif_rcl_publish N w [pub_h, x]) w .rcl_publisher_is_valid p
        (N.rcl_publisher_is_valid (w.deref p)) rcl_publisher.FILE 91 ∧
      OperateGuard (rcl_publisher.nif_rcl_publisher_can_loan_messages N w [pub_h]) w
        .rcl_publisher_is_valid p (N.rcl_publisher_is_valid (w.deref p))
        rcl_publisher.FILE 110 ∧
      OperateGuard (rcl_publisher.nif_rcl_borrow_loaned_message N w [pub_h, x]) w
        .rcl_publisher_is_valid p (N.rcl_publisher_is_valid (w.deref p))
        rcl_publisher.FILE 127 ∧
      OperateGuard (rcl_publisher.nif_rcl_publish_loaned_message N w [pub_h, x]) w
        .rcl_publisher_is_valid p (N.rcl_publisher_is_valid (w.deref p))
        rcl_publisher.FILE 162 ∧
      OperateGuard (rcl_publisher.nif_rcl_return_loaned_message_from_publisher N w
          [pub_h, x]) w
        .rcl_publisher_is_valid p (N.rcl_publisher_is_valid (w.deref p))
        rcl_publisher.FILE 190) ∧
    (∀ sub_h x s, enif_get_resource w sub_h .rt_rcl_subscription_t = some s →
      OperateGuard (rcl_subscription.nif_rcl_take N w [sub_h, x]) w
        .rcl_subscription_is_valid s (N.rcl_subscription_is_valid (w.deref s))
        rcl_subscription.FILE 91 ∧
      OperateGuard (rcl_subscription.nif_rcl_subscription_can_loan_messages N w [sub_h]) w
        .rcl_subscription_is_valid s (N.rcl_subscription_is_valid (w.deref s))
        rcl_subscription.FILE 110 ∧
      OperateGuard (rcl_subscription.nif_rcl_take_loaned_message N w [sub_h]) w
        .rcl_subscription_is_valid s (N.rcl_subscription_is_valid (w.deref s))
        rcl_subscription.FILE 127 ∧
      OperateGuard (rcl_subscription.nif_rcl_return_loaned_message_from_subscription N w
          [sub_h, x]) w
        .rcl_subscription_is_valid s (N.rcl_subscription_is_valid (w.deref s))
        rcl_subscription.FILE 159) ∧
    (∀ cli_h x c, enif_get_resource w cli_h .rt_rcl_client_t = some c →
      OperateGuard (rcl_client.nif_rcl_send_request N w [cli_h, x]) w .rcl_client_is_valid c
        (N.rcl_client_is_valid (w.deref c)) rcl_client.FILE 116 ∧
      OperateGuard (rcl_client.nif_rcl_take_response_with_info N w [cli_h, x]) w
        .rcl_client_is_valid c (N.rcl_client_is_valid (w.deref c)) rcl_client.FILE 92) := by
  refine ⟨fun pub_h x p hp => ⟨?_, ?_, ?_, ?_, ?_⟩, fun sub_h x s hs => ⟨?_, ?_, ?_, ?_⟩,
    fun cli_h x c hc => ⟨?_, ?_⟩⟩
  · cases hv : N.rcl_publisher_is_valid (w.deref p) <;>
      simp only [OperateGuard, rcl_publisher.nif_rcl_publish, hp, hv] <;>
      (repeat' split) <;> simp_all
  · cases hv : N.rcl_publisher_is_valid (w.deref p) <;>
      simp only [OperateGuard, rcl_publisher.nif_rcl_publisher_can_loan_messages, hp, hv] <;>
      (repeat' split) <;> simp_all
  · cases hv : N.rcl_publisher_is_valid (w.deref p) <;>
      simp only [OperateGuard, rcl_publisher.nif_rcl_borrow_loaned_message, hp, hv] <;>
      (repeat' split) <;> simp_all
  · cases hv : N.rcl_publisher_is_valid (w.deref p) <;>
      simp only [OperateGuard, rcl_publisher.nif_rcl_publish_loaned_message, hp, hv] <;>
      (repeat' split) <;> simp_all
  · cases hv : N.rcl_publisher_is_valid (w.deref p) <;>
      simp only [OperateGuard, rcl_publisher.nif_rcl_return_loaned_message_from_publisher, hp, hv] <;>
      (repeat' split) <;> simp_all
  · cases hv : N.rcl_subscription_is_valid (w.deref s) <;>
      simp only [OperateGuard, rcl_subscription.nif_rcl_take, hs, hv] <;>
      (repeat' split) <;> simp_all
  · cases hv : N.rcl_subscription_is_valid (w.deref s) <;>
      simp only [OperateGuard, rcl_subscription.nif_rcl_subscription_can_loan_messages, hs, hv] <;>
      (repeat' split) <;> simp_all
  · cases hv : N.rcl_subscription_is_valid (w.deref s) <;>
      simp only [OperateGuard, rcl_subscription.nif_rcl_take_loaned_message, hs, hv] <;>
      (repeat' split) <;> simp_all
  · cases hv : N.rcl_subscription_is_valid (w.deref s) <;>
      simp only [OperateGuard, rcl_subscription.nif_rcl_return_loaned_message_from_subscription, hs, hv] <;>
      (repeat' split) <;> simp_all
  · cases hv : N.rcl_client_is_valid (w.deref c) <;>
      simp only [OperateGuard, rcl_client.nif_rcl_send_request, hc, hv] <;>
      (repeat' split) <;> simp_all
  · cases hv : N.rcl_client_is_valid (w.deref c) <;>
      simp only [OperateGuard, rcl_client.nif_rcl_take_response_with_info, hc, hv] <;>
      (repeat' split) <;> simp_all

/-- C11, instance: in a world that holds only a publisher that is not live, at address `0`,
publishing through it raises at line 91, leaves the world unchanged and makes no native
call but the validity predicate. -/
theorem operate_guarded_witness :
    enif_get_resource ⟨[⟨.rt_rcl_publisher_t, 0, 1⟩], 0, 8, 0, []⟩ (.resource 0)
      .rt_rcl_publisher_t = some 0 ∧
    Native.double.rcl_publisher_is_valid
      (World.deref ⟨[⟨.rt_rcl_publisher_t, 0, 1⟩], 0, 8, 0, []⟩ 0) = false ∧
    (rcl_publisher.nif_rcl_publish Native.double ⟨[⟨.rt_rcl_publisher_t, 0, 1⟩], 0, 8, 0, []⟩
      [.resource 0, .resource 5]).ret = some (raise rcl_publisher.FILE 91) ∧
    (rcl_publisher.nif_rcl_publish Native.double ⟨[⟨.rt_rcl_publisher_t, 0, 1⟩], 0, 8, 0, []⟩
      [.resource 0, .resource 5]).calls =
      [predCall .rcl_publisher_is_valid ⟨[⟨.rt_rcl_publisher_t, 0, 1⟩], 0, 8, 0, []⟩ 0
        false] :=
  ⟨by decide, by decide,
    ((((operate_guarded Native.double ⟨[⟨.rt_rcl_publisher_t, 0, 1⟩], 0, 8, 0, []⟩).1
      (.resource 0) (.resource 5) 0 (by decide)).1).2 (by decide)).1,
    ((((operate_guarded Native.double ⟨[⟨.rt_rcl_publisher_t, 0, 1⟩], 0, 8, 0, []⟩).1
      (.resource 0) (.resource 5) 0 (by decide)).1).2 (by decide)).2.2⟩

end Rclex

namespace Rclex

open ResourceType

/-! ## The failures of the loaned-message operations -/

/-- The code at the failing input of C12: in the sample world with a live publisher, when
native `rcl_publish_loaned_message` returns `RCL_RET_BAD_ALLOC`,
`nif_rcl_publish_loaned_message` raises the unspecified failure of line 178, the very
failure it raises for `RCL_RET_ERROR`, although the two codes have different categories. -/
theorem bad_alloc_surfaced_unspecified :
    enif_get_resource World.live (.resource 2) .rt_rcl_publisher_t = some 2 ∧
    Native.double.rcl_publisher_is_valid (World.live.deref 2) = true ∧
    enif_get_resource World.live (.resource 5) .rt_ros_message = some 5 ∧
    (rcl_publisher.nif_rcl_publish_loaned_message
      { Native.double with
        rcl_publish_loaned_message := fun g _ _ => ⟨RCL_RET_BAD_ALLOC, g, 0, 0⟩ }
      World.live [.resource 2, .resource 5]).ret
      = some (raise_with_message rcl_publisher.FILE 178 "unspecified error") ∧
    (rcl_publisher.nif_rcl_publish_loaned_message
      { Native.double with
        rcl_publish_loaned_message := fun g _ _ => ⟨RCL_RET_ERROR, g, 0, 0⟩ }
      World.live [.resource 2, .resource 5]).ret
      = some (raise_with_message rcl_publisher.FILE 178 "unspecified error") ∧
    categoryOf RCL_RET_PUBLISHER_INVALID RCL_RET_BAD_ALLOC = .allocation_failure ∧
    categoryOf RCL_RET_PUBLISHER_INVALID RCL_RET_ERROR = .unspecified :=
  ⟨by decide, by decide, by decide, by decide, by decide, by decide, by decide⟩

/-- C12, the category of the failure that each loaned-message operation raises, called with
live handles of the correct kinds, for a native return code other than `RCL_RET_OK` and the
empty-result code.  `nif_rcl_borrow_loaned_message` surfaces every code with its own
category: the entity-invalid code as invalid-handle, `RCL_RET_INVALID_ARGUMENT` as
invalid-argument, `RCL_RET_UNSUPPORTED` as unsupported-feature, `RCL_RET_BAD_ALLOC` as
allocation-failure and any remaining code as unspecified.  The other four operations do
the same except for `RCL_RET_BAD_ALLOC`: they have no branch for it and surface it as
unspecified, the category of `RCL_RET_ERROR`. -/
theorem loan_failure_category (N : Native) (w : World) :
    (∀ pub_h ts_h p t,
      enif_get_resource w pub_h .rt_rcl_publisher_t = some p →
      N.rcl_publisher_is_valid (w.deref p) = true →
      enif_get_resource w ts_h .rt_rosidl_message_type_support_t = some t →
      (N.rcl_borrow_loaned_message w.g (w.deref p) (w.deref t)).rc ≠ RCL_RET_OK →
      (rcl_publisher.nif_rcl_borrow_loaned_message N w [pub_h, ts_h]).ret.bind carried =
        some (categoryOf RCL_RET_PUBLISHER_INVALID
          (N.rcl_borrow_loaned_message w.g (w.deref p) (w.deref t)).rc)) ∧
    (∀ pub_h msg_h p m,
      enif_get_resource w pub_h .rt_rcl_publisher_t = some p →
      N.rcl_publisher_is_valid (w.deref p) = true →
      enif_get_resource w msg_h .rt_ros_message = some m →
      (N.rcl_publish_loaned_message w.g (w.deref p) (w.deref m)).rc ≠ RCL_RET_OK →
      (rcl_publisher.nif_rcl_publish_loaned_message N w [pub_h, msg_h]).ret.bind carried =
        some (if (N.rcl_publish_loaned_message w.g (w.deref p) (w.deref m)).rc
            = RCL_RET_BAD_ALLOC then .unspecified
          else categoryOf RCL_RET_PUBLISHER_INVALID
            (N.rcl_publish_loaned_message w.g (w.deref p) (w.deref m)).rc)) ∧
    (∀ pub_h msg_h p m,
      enif_get_resource w pub_h .rt_rcl_publisher_t = some p →
      N.rcl_publisher_is_valid (w.deref p) = true →
      enif_get_resource w msg_h .rt_ros_message = some m →
      (N.rcl_return_loaned_message_from_publisher w.g (w.deref p) (w.deref m)).rc
        ≠ RCL_RET_OK →
      (rcl_publisher.nif_rcl_return_loaned_message_from_publisher N w
          [pub_h, msg_h]).ret.bind carried =
        some (if (N.rcl_return_loaned_message_from_publisher w.g (w.deref p) (w.deref m)).rc
            = RCL_RET_BAD_ALLOC then .unspecified
          else categoryOf RCL_RET_PUBLISHER_INVALID
            (N.rcl_return_loaned_message_from_publisher w.g (w.deref p) (w.deref m)).rc)) ∧
    (∀ sub_h s,
      enif_get_resource w sub_h .rt_rcl_subscription_t = some s →
      N.rcl_subscription_is_valid (w.deref s) = true →
      (N.rcl_take_loaned_message w.g (w.deref s)).rc ≠ RCL_RET_OK →
      (N.rcl_take_loaned_message w.g (w.deref s)).rc ≠ RCL_RET_SUBSCRIPTION_TAKE_FAILED →
      (rcl_subscription.nif_rcl_take_loaned_message N w [sub_h]).ret.bind carried =
        some (if (N.rcl_take_loaned_message w.g (w.deref s)).rc
            = RCL_RET_BAD_ALLOC then .unspecified
          else categoryOf RCL_RET_SUBSCRIPTION_INVALID
            (N.rcl_take_loaned_message w.g (w.deref s)).rc)) ∧
    (∀ sub_h msg_h s m,
      enif_get_resource w sub_h .rt_rcl_subscription_t = some s →
      N.rcl_subscription_is_valid (w.deref s) = true →
      enif_get_resource w msg_h .rt_ros_message = some m →
      (N.rcl_return_loaned_message_from_subscription w.g (w.deref s) (w.deref m)).rc
        ≠ RCL_RET_OK →
      (rcl_subscription.nif_rcl_return_loaned_message_from_subscription N w
          [sub_h, msg_h]).ret.bind carried =
        some (if (N.rcl_return_loaned_message_from_subscription w.g (w.deref s)
              (w.deref m)).rc = RCL_RET_BAD_ALLOC then .unspecified
          else categoryOf RCL_RET_SUBSCRIPTION_INVALID
            (N.rcl_return_loaned_message_from_subscription w.g (w.deref s)
              (w.deref m)).rc)) := by
  refine ⟨fun pub_h ts_h p t hp hpv ht h => ?_, fun pub_h msg_h p m hp hpv hm h => ?_,
    fun pub_h msg_h p m hp hpv hm h => ?_, fun sub_h s hs hsv h h' => ?_,
    fun sub_h msg_h s m hs hsv hm h => ?_⟩
  · generalize hrc : (N.rcl_borrow_loaned_message w.g (w.deref p) (w.deref t)).rc = rc at h ⊢
    simp only [rcl_publisher.nif_rcl_borrow_loaned_message, hp, hpv, ht, hrc]
    simp only [categoryOf]
    split_ifs <;> simp_all [carried, raise_with_message, enif_make_badarg, RCL_RET_OK,
      RCL_RET_UNSUPPORTED, RCL_RET_BAD_ALLOC, RCL_RET_INVALID_ARGUMENT,
      RCL_RET_PUBLISHER_INVALID, RCL_RET_SUBSCRIPTION_INVALID,
      RCL_RET_SUBSCRIPTION_TAKE_FAILED]
  · generalize hrc : (N.rcl_publish_loaned_message w.g (w.deref p) (w.deref m)).rc = rc at h ⊢
    simp only [rcl_publisher.nif_rcl_publish_loaned_message, hp, hpv, hm, hrc]
    simp only [categoryOf]
    split_ifs <;> simp_all [carried, raise_with_message, enif_make_badarg, RCL_RET_OK,
      RCL_RET_UNSUPPORTED, RCL_RET_BAD_ALLOC, RCL_RET_INVALID_ARGUMENT,
      RCL_RET_PUBLISHER_INVALID, RCL_RET_SUBSCRIPTION_INVALID,
      RCL_RET_SUBSCRIPTION_TAKE_FAILED]
  · generalize hrc :
      (N.rcl_return_loaned_message_from_publisher w.g (w.deref p) (w.deref m)).rc = rc at h ⊢
    simp only [rcl_publisher.nif_rcl_return_loaned_message_from_publisher, hp, hpv, hm, hrc]
    simp only [categoryOf]
    split_ifs <;> simp_all [carried, raise_with_message, enif_make_badarg, RCL_RET_OK,
      RCL_RET_UNSUPPORTED, RCL_RET_BAD_ALLOC, RCL_RET_INVALID_ARGUMENT,
      RCL_RET_PUBLISHER_INVALID, RCL_RET_SUBSCRIPTION_INVALID,
      RCL_RET_SUBSCRIPTION_TAKE_FAILED]
  · generalize hrc : (N.rcl_take_loaned_message w.g (w.deref s)).rc = rc at h h' ⊢
    simp only [rcl_subscription.nif_rcl_take_loaned_message, hs, hsv, hrc]
    simp only [categoryOf]
    split_ifs <;> simp_all [carried, raise_with_message, enif_make_badarg, RCL_RET_OK,
      RCL_RET_UNSUPPORTED, RCL_RET_BAD_ALLOC, RCL_RET_INVALID_ARGUMENT,
      RCL_RET_PUBLISHER_INVALID, RCL_RET_SUBSCRIPTION_INVALID,
      RCL_RET_SUBSCRIPTION_TAKE_FAILED]
  · generalize hrc :
      (N.rcl_return_loaned_message_from_subscription w.g (w.deref s) (w.deref m)).rc = rc
      at h ⊢
    simp only [rcl_subscription.nif_rcl_return_loaned_message_from_subscription, hs, hsv, hm,
      hrc]
    simp only [categoryOf]
    split_ifs <;> simp_all [carried, raise_with_message, enif_make_badarg, RCL_RET_OK,
      RCL_RET_UNSUPPORTED, RCL_RET_BAD_ALLOC, RCL_RET_INVALID_ARGUMENT,
      RCL_RET_PUBLISHER_INVALID, RCL_RET_SUBSCRIPTION_INVALID,
      RCL_RET_SUBSCRIPTION_TAKE_FAILED]

/-- C12 at the failing input: in a world that holds only a live subscription, at address
`0`, with a native library whose `rcl_take_loaned_message` returns `RCL_RET_BAD_ALLOC`,
`nif_rcl_take_loaned_message` raises a failure of the unspecified category, while the
category of that code is allocation-failure. -/
theorem loan_failure_category_witness :
    enif_get_resource ⟨[⟨.rt_rcl_subscription_t, 1, 1⟩], 0, 8, 0, []⟩ (.resource 0)
      .rt_rcl_subscription_t = some 0 ∧
    Native.double.rcl_subscription_is_valid
      (World.deref ⟨[⟨.rt_rcl_subscription_t, 1, 1⟩], 0, 8, 0, []⟩ 0) = true ∧
    (rcl_subscription.nif_rcl_take_loaned_message
      { Native.double with rcl_take_loaned_message := fun g _ => ⟨RCL_RET_BAD_ALLOC, g, 0, 0⟩ }
      ⟨[⟨.rt_rcl_subscription_t, 1, 1⟩], 0, 8, 0, []⟩ [.resource 0]).ret.bind carried
        = some .unspecified ∧
    categoryOf RCL_RET_SUBSCRIPTION_INVALID RCL_RET_BAD_ALLOC = .allocation_failure :=
  ⟨by decide, by decide,
    (loan_failure_category
      { Native.double with rcl_take_loaned_message := fun g _ => ⟨RCL_RET_BAD_ALLOC, g, 0, 0⟩ }
      ⟨[⟨.rt_rcl_subscription_t, 1, 1⟩], 0, 8, 0, []⟩).2.2.2.1 (.resource 0) 0 (by decide)
      (by decide) (by decide) (by decide),
    by decide⟩

end Rclex

namespace Rclex

open ResourceType

/-! ## Borrowing a loaned message -/

/-- C13, as stated, fails: in the sample world with a live publisher and a native library
whose `rcl_borrow_loaned_message` returns `RCL_RET_OK`, the same return code gives a
message handle while the host can allocate the cell and no result at all when it cannot,
so the result is not determined by the return code alone. -/
theorem borrow_ok_two_results :
    (rcl_publisher.nif_rcl_borrow_loaned_message
      { Native.double with rcl_borrow_loaned_message := fun g _ _ => okRet g 77 0 }
      World.live [.resource 2, .resource 1]).calls =
      [predCall .rcl_publisher_is_valid World.live 2 true,
        pairCall .rcl_borrow_loaned_message World.live 2 1 RCL_RET_OK] ∧
    (rcl_publisher.nif_rcl_borrow_loaned_message
      { Native.double with rcl_borrow_loaned_message := fun g _ _ => okRet g 77 0 }
      World.live [.resource 2, .resource 1]).ret = some (.resource 7) ∧
    (rcl_publisher.nif_rcl_borrow_loaned_message
      { Native.double with rcl_borrow_loaned_message := fun g _ _ => okRet g 77 0 }
      { World.live with avail := 0 } [.resource 2, .resource 1]).calls =
      [predCall .rcl_publisher_is_valid World.live 2 true,
        pairCall .rcl_borrow_loaned_message World.live 2 1 RCL_RET_OK] ∧
    (rcl_publisher.nif_rcl_borrow_loaned_message
      { Native.double with rcl_borrow_loaned_message := fun g _ _ => okRet g 77 0 }
      { World.live with avail := 0 } [.resource 2, .resource 1]).ret = none :=
  ⟨by decide, by decide, by decide, by decide⟩

/-- C13, amended: `nif_rcl_borrow_loaned_message` on a live publisher with a type
descriptor of the correct kind issues the native `rcl_borrow_loaned_message` call exactly
once, after the validity predicate, and never consults `rcl_publisher_can_loan_messages`:
replacing that function by any other leaves the run the same.  For a return code other
than `RCL_RET_OK` the result is determined by the code alone, whatever the native library,
the world and the handles; on `RCL_RET_OK`, provided the host can allocate the cell, the
result is the handle of a new message cell holding the loaned pointer.  In particular when
`can_loan` is false and the native call returns `RCL_RET_UNSUPPORTED`, the result is the
unsupported-feature failure. -/
theorem borrow_ignores_can_loan (N N' : Native) (w w' : World)
    (pub_h ts_h pub_h' ts_h' : ERL_NIF_TERM) (p t p' t' : Nat)
    (hp : enif_get_resource w pub_h .rt_rcl_publisher_t = some p)
    (hpv : N.rcl_publisher_is_valid (w.deref p) = true)
    (ht : enif_get_resource w ts_h .rt_rosidl_message_type_support_t = some t)
    (hp' : enif_get_resource w' pub_h' .rt_rcl_publisher_t = some p')
    (hpv' : N'.rcl_publisher_is_valid (w'.deref p') = true)
    (ht' : enif_get_resource w' ts_h' .rt_rosidl_message_type_support_t = some t') :
    (∀ f, rcl_publisher.nif_rcl_borrow_loaned_message
        { N with rcl_publisher_can_loan_messages := f } w [pub_h, ts_h] =
      rcl_publisher.nif_rcl_borrow_loaned_message N w [pub_h, ts_h]) ∧
    (rcl_publisher.nif_rcl_borrow_loaned_message N w [pub_h, ts_h]).calls =
      [predCall .rcl_publisher_is_valid w p true,
        pairCall .rcl_borrow_loaned_message w p t
          (N.rcl_borrow_loaned_message w.g (w.deref p) (w.deref t)).rc] ∧
    ((rcl_publisher.nif_rcl_borrow_loaned_message N w [pub_h, ts_h]).calls.filter
      (fun k => decide (k.fn = .rcl_borrow_loaned_message))).length = 1 ∧
    ((N.rcl_borrow_loaned_message w.g (w.deref p) (w.deref t)).rc ≠ RCL_RET_OK →
      (N'.rcl_borrow_loaned_message w'.g (w'.deref p') (w'.deref t')).rc =
        (N.rcl_borrow_loaned_message w.g (w.deref p) (w.deref t)).rc →
      (rcl_publisher.nif_rcl_borrow_loaned_message N' w' [pub_h', ts_h']).ret =
        (rcl_publisher.nif_rcl_borrow_loaned_message N w [pub_h, ts_h]).ret) ∧
    ((N.rcl_borrow_loaned_message w.g (w.deref p) (w.deref t)).rc = RCL_RET_OK →
      0 < w.avail →
      (rcl_publisher.nif_rcl_borrow_loaned_message N w [pub_h, ts_h]).ret
        = some (.resource w.heap.length) ∧
      (rcl_publisher.nif_rcl_borrow_loaned_message N w [pub_h, ts_h]).world.heap =
        w.heap ++ [⟨.rt_ros_message,
          (N.rcl_borrow_loaned_message w.g (w.deref p) (w.deref t)).out, 1⟩]) ∧
    (N.rcl_publisher_can_loan_messages w.g (w.deref p) = false →
      (N.rcl_borrow_loaned_message w.g (w.deref p) (w.deref t)).rc = RCL_RET_UNSUPPORTED →
      (rcl_publisher.nif_rcl_borrow_loaned_message N w [pub_h, ts_h]).ret =
        some (raise_with_message rcl_publisher.FILE 149
          "middleware does not support that feature")) := by
  have hcalls : (rcl_publisher.nif_rcl_borrow_loaned_message N w [pub_h, ts_h]).calls =
      [predCall .rcl_publisher_is_valid w p true,
        pairCall .rcl_borrow_loaned_message w p t
          (N.rcl_borrow_loaned_message w.g (w.deref p) (w.deref t)).rc] := by
    simp only [rcl_publisher.nif_rcl_borrow_loaned_message, hp, hpv, ht]
    simp only [Bool.not_true, Bool.false_eq_true, if_false]
    repeat' split
    all_goals rfl
  refine ⟨fun f => rfl, hcalls, ?_, ?_, ?_, ?_⟩
  · rw [hcalls]
    simp [predCall, pairCall]
  · intro h heq
    generalize hrc : (N.rcl_borrow_loaned_message w.g (w.deref p) (w.deref t)).rc = rc
      at h heq
    simp only [rcl_publisher.nif_rcl_borrow_loaned_message, hp, hpv, ht, hp', hpv', ht', hrc,
      heq, h]
    simp only [Bool.not_true, Bool.false_eq_true, if_false]
    repeat' split
    all_goals rfl
  · intro h hav
    have hav0 : w.avail ≠ 0 := by omega
    simp [rcl_publisher.nif_rcl_borrow_loaned_message, hp, hpv, ht, h, enif_alloc_resource,
      World.setG, hav0, enif_make_resource, enif_release_resource, World.store,
      setCell_append_length]
  · intro _ h
    simp [rcl_publisher.nif_rcl_borrow_loaned_message, hp, hpv, ht, h, RCL_RET_UNSUPPORTED,
      RCL_RET_OK, RCL_RET_PUBLISHER_INVALID, RCL_RET_INVALID_ARGUMENT, RCL_RET_BAD_ALLOC]

/-- C13, instance: for the live publisher of the sample world the test double reports that
it cannot loan and refuses the loan with `RCL_RET_UNSUPPORTED`; the borrow is still
attempted and surfaces the unsupported-feature failure. -/
theorem borrow_ignores_can_loan_witness :
    enif_get_resource World.live (.resource 2) .rt_rcl_publisher_t = some 2 ∧
    Native.double.rcl_publisher_is_valid (World.live.deref 2) = true ∧
    enif_get_resource World.live (.resource 1) .rt_rosidl_message_type_support_t = some 1 ∧
    Native.double.rcl_publisher_can_loan_messages World.live.g (World.live.deref 2) = false ∧
    (rcl_publisher.nif_rcl_borrow_loaned_message Native.double World.live
      [.resource 2, .resource 1]).ret =
        some (raise_with_message rcl_publisher.FILE 149
          "middleware does not support that feature") :=
  ⟨by decide, by decide, by decide, by decide,
    (borrow_ignores_can_loan Native.double Native.double World.live World.live
      (.resource 2) (.resource 1) (.resource 2) (.resource 1) 2 1 2 1
      (by decide) (by decide) (by decide) (by decide) (by decide) (by decide)).2.2.2.2.2
      (by decide) (by decide)⟩

end Rclex

namespace Rclex

open ResourceType

/-! ## The type support handed to the publisher constructor -/

/-- C14, the two publisher init code paths: whenever `nif_rcl_publisher_init` of
`src/rcl_publisher.c` calls native `rcl_publisher_init`, the type support it passes is the
value unwrapped from the caller's type-descriptor argument; whenever
`nif_rcl_publisher_init` of `c_src/src/publisher_nif.c` calls it, the type support it passes
is the compiled-in one of `std_msgs/msg/Int16`, whatever the arguments are. -/
theorem publisher_init_type_support (N : Native) (w : World) (argv : List ERL_NIF_TERM) :
    (∀ k ∈ (rcl_publisher.nif_rcl_publisher_init N w argv).calls,
      k.fn = .rcl_publisher_init →
      ∃ a0 a1 a2 a3 ts_p, argv = [a0, a1, a2, a3] ∧
        enif_get_resource w a1 .rt_rosidl_message_type_support_t = some ts_p ∧
        k.args.get? 2 = some (w.deref ts_p)) ∧
    (∀ k ∈ (publisher_nif.nif_rcl_publisher_init N w argv).calls,
      k.fn = .rcl_publisher_init →
      k.args.get? 2 = some N.ROSIDL_GET_MSG_TYPE_SUPPORT_std_msgs_msg_Int16) := by
  constructor
  · generalize hrun : rcl_publisher.nif_rcl_publisher_init N w argv = run
    simp only [rcl_publisher.nif_rcl_publisher_init] at hrun
    repeat' (split at hrun)
    all_goals
      subst hrun
      simp_all [predCall, validateCall, initCall]
    all_goals exact ⟨_, _, ⟨rfl, rfl⟩, _, by assumption, rfl⟩
  · generalize hrun : publisher_nif.nif_rcl_publisher_init N w argv = run
    simp only [publisher_nif.nif_rcl_publisher_init] at hrun
    repeat' (split at hrun)
    all_goals
      subst hrun
      simp_all

/-- C14, the code at the failing input: in the sample world of the legacy bridge,
`nif_rcl_publisher_init(Publisher, Node, "/chatter", Options)` calls native
`rcl_publisher_init` with the compiled-in type support `16` of the test double; none of its
four arguments is a type descriptor. -/
theorem legacy_init_fixed_type_support :
    (publisher_nif.nif_rcl_publisher_init Native.double World.legacy
      [.resource 0, .resource 1, chatter, .resource 2]).calls =
      [⟨.rcl_publisher_init, [0, 1, 2], [0, 1, 16],
        [47, 99, 104, 97, 116, 116, 101, 114], 0⟩] ∧
    (Nif.c_src_publisher_init).expects = [some .rt_pub, some .rt_node, none,
      some .rt_pub_options] :=
  ⟨by decide, by decide⟩

end Rclex

namespace Rclex

open ResourceType

/-! ## When the host cannot allocate a cell -/

/-- C15, what the code does when `enif_alloc_resource` yields no storage: the factories of
`c_src/src/publisher_nif.c` and `src/msg_int16_nif.c` test the pointer and return `badarg`
with the world unchanged; the six allocating operations of `src/` (the inits of publisher,
subscription, client and clock, `nif_rcl_borrow_loaned_message` and
`nif_rcl_take_loaned_message`) do not test it: whenever their native call has returned
`RCL_RET_OK` they write the native value through the null pointer and have no defined
result. -/
theorem alloc_failure_unhandled (N : Native) (w : World) (h : w.avail = 0) :
    (∀ op ∈ [Nif.c_src_get_zero_initialized_publisher, .c_src_publisher_get_default_options,
        .create_empty_int16, .create_msginfo, .getmsgtype_int16],
      ∀ argv, (op.run N w argv).ret = some enif_make_badarg ∧ (op.run N w argv).world = w) ∧
    (∀ op ∈ [(Nif.publisher_init, NativeFn.rcl_publisher_init),
        (.subscription_init, .rcl_subscription_init), (.client_init, .rcl_client_init),
        (.clock_init, .rcl_clock_init), (.borrow_loaned_message, .rcl_borrow_loaned_message),
        (.take_loaned_message, .rcl_take_loaned_message)],
      ∀ argv, (∃ k ∈ (op.1.run N w argv).calls, k.fn = op.2 ∧ k.rc = RCL_RET_OK) →
        (op.1.run N w argv).ret = none) := by
  constructor
  · intro op hop argv
    simp only [List.mem_cons, List.mem_singleton, List.not_mem_nil, or_false] at hop
    rcases hop with rfl | rfl | rfl | rfl | rfl
    · simp [Nif.run, publisher_nif.nif_rcl_get_zero_initialized_publisher, alloc_fails, h]
    · simp [Nif.run, publisher_nif.nif_rcl_publisher_get_default_options, alloc_fails, h]
    · simp only [Nif.run, msg_int16_nif.nif_create_empty_int16]
      split <;> simp [alloc_fails, h]
    · simp only [Nif.run, msg_int16_nif.nif_create_msginfo]
      split <;> simp [alloc_fails, h]
    · simp only [Nif.run, msg_int16_nif.nif_getmsgtype_int16]
      split <;> simp [alloc_fails, h]
  · intro op hop argv
    simp only [List.mem_cons, List.mem_singleton, List.not_mem_nil, or_false] at hop
    rcases hop with rfl | rfl | rfl | rfl | rfl | rfl
    · generalize hrun : Nif.run .publisher_init N w argv = run
      simp only [Nif.run, rcl_publisher.nif_rcl_publisher_init] at hrun
      repeat' (split at hrun)
      all_goals
        subst hrun
        simp_all [predCall, validateCall, initCall, alloc_fails]
    · generalize hrun : Nif.run .subscription_init N w argv = run
      simp only [Nif.run, rcl_subscription.nif_rcl_subscription_init] at hrun
      repeat' (split at hrun)
      all_goals
        subst hrun
        simp_all [predCall, validateCall, initCall, alloc_fails]
    · generalize hrun : Nif.run .client_init N w argv = run
      simp only [Nif.run, rcl_client.nif_rcl_client_init] at hrun
      repeat' (split at hrun)
      all_goals
        subst hrun
        simp_all [predCall, validateCall, initCall, alloc_fails]
    · generalize hrun : Nif.run .clock_init N w argv = run
      simp only [Nif.run, rcl_clock.nif_rcl_clock_init] at hrun
      repeat' (split at hrun)
      all_goals
        subst hrun
        simp_all [alloc_fails]
    · generalize hrun : Nif.run .borrow_loaned_message N w argv = run
      simp only [Nif.run, rcl_publisher.nif_rcl_borrow_loaned_message] at hrun
      repeat' (split at hrun)
      all_goals
        subst hrun
        simp_all [predCall, pairCall, alloc_fails]
    · generalize hrun : Nif.run .take_loaned_message N w argv = run
      simp only [Nif.run, rcl_subscription.nif_rcl_take_loaned_message] at hrun
      repeat' (split at hrun)
      all_goals
        subst hrun
        simp_all [predCall, alloc_fails]

/-- C15 at a concrete input: in the sample world with no allocation left,
`nif_rcl_clock_init(ros_time)` gets `RCL_RET_OK` from native `rcl_clock_init` and then has
no defined result, while `nif_rcl_get_zero_initialized_publisher` returns `badarg`. -/
theorem alloc_failure_unhandled_witness :
    ({ World.sample with avail := 0 } : World).avail = 0 ∧
    (rcl_clock.nif_rcl_clock_init Native.double { World.sample with avail := 0 }
      [atom_ros_time]).calls = [⟨.rcl_clock_init, [], [1, 9], [], 0⟩] ∧
    (rcl_clock.nif_rcl_clock_init Native.double { World.sample with avail := 0 }
      [atom_ros_time]).ret = none ∧
    (publisher_nif.nif_rcl_get_zero_initialized_publisher Native.double
      { World.sample with avail := 0 } []).ret = some enif_make_badarg :=
  ⟨by decide, by decide,
    (alloc_failure_unhandled Native.double { World.sample with avail := 0 } (by decide)).2
      (.clock_init, .rcl_clock_init) (by decide) [atom_ros_time] (by decide),
    ((alloc_failure_unhandled Native.double { World.sample with avail := 0 } (by decide)).1
      .c_src_get_zero_initialized_publisher (by decide) []).1⟩

end Rclex

namespace Rclex

open ResourceType

/-! ## Reference counts of the cells -/

theorem length_setCell (l : List Cell) (p : Nat) (f : Cell → Cell) :
    (setCell l p f).length = l.length := by
  induction l generalizing p with
  | nil => rfl
  | cons x xs ih => cases p <;> simp [setCell, ih]

@[simp] theorem length_store (w : World) (p v : Nat) :
    (w.store p v).heap.length = w.heap.length := by
  simp [World.store, length_setCell]

@[simp] theorem length_make_resource (w : World) (obj : Nat) :
    (enif_make_resource w obj).2.heap.length = w.heap.length := by
  simp [enif_make_resource, length_setCell]

@[simp] theorem length_release_resource (w : World) (obj : Nat) :
    (enif_release_resource w obj).heap.length = w.heap.length := by
  simp [enif_release_resource, length_setCell]

theorem length_alloc (w : World) (rt : ResourceType) :
    (enif_alloc_resource w rt).2.heap.length =
      if w.avail = 0 then w.heap.length else w.heap.length + 1 := by
  unfold enif_alloc_resource
  split <;> simp

@[simp] theorem refc_setG (w : World) (g a : Nat) : (w.setG g).refc a = w.refc a := rfl

@[simp] theorem refc_store (w : World) (p v a : Nat) : (w.store p v).refc a = w.refc a := by
  simp only [World.refc, cell_store]
  split
  · cases w.cell a <;> rfl
  · rfl

theorem refc_make_resource (w : World) (obj a : Nat) :
    (enif_make_resource w obj).2.refc a =
      if a = obj then (w.refc a).map (fun n => n + 1) else w.refc a := by
  simp only [World.refc, cell_make_resource]
  split
  · cases w.cell a <;> rfl
  · rfl

theorem refc_release_resource (w : World) (obj a : Nat) :
    (enif_release_resource w obj).refc a =
      if a = obj then (w.refc a).map (fun n => n - 1) else w.refc a := by
  simp only [World.refc, cell_release_resource]
  split
  · cases w.cell a <;> rfl
  · rfl

theorem refc_alloc (w : World) (rt : ResourceType) (a : Nat) :
    (enif_alloc_resource w rt).2.refc a =
      if w.avail = 0 then w.refc a else if a = w.heap.length then some 1 else w.refc a := by
  simp only [World.refc, cell_alloc]
  split
  · rfl
  · split <;> rfl

theorem make_resource_fst (w : World) (obj : Nat) :
    (enif_make_resource w obj).1 = .resource obj := rfl

theorem refc_of_length_eq (w : World) (p : Nat) (h : w.heap.length = p) : w.refc p = none := by
  subst h
  simp [World.refc, cell_length]

@[simp] theorem events_setG (w : World) (g : Nat) : (w.setG g).events = w.events := rfl

@[simp] theorem events_store (w : World) (p v : Nat) : (w.store p v).events = w.events := rfl

theorem events_make_resource (w : World) (obj : Nat) :
    (enif_make_resource w obj).2.events = w.events ++ [.make obj] := rfl

theorem events_release_resource (w : World) (obj : Nat) :
    (enif_release_resource w obj).events = w.events ++ [.release obj] := rfl

theorem events_alloc (w : World) (rt : ResourceType) :
    (enif_alloc_resource w rt).2.events =
      if w.avail = 0 then w.events else w.events ++ [.alloc w.heap.length] := by
  unfold enif_alloc_resource
  split <;> rfl

set_option maxHeartbeats 4000000 in
/-- C16, the reference counts around cell creation, for every entry point, every native
library, every world and all arguments.  The run leaves the count of every cell that
existed before unchanged.  Either it adds no cell and the host sees no reference-count
event, or it adds exactly one cell, at the next free address, and the events of the run
are, in this order, the allocation of that cell (count `1`), exactly one term made for it
(count `2`) and exactly one release (count `1`): the count on return is exactly `1`, the
allocation reference is no longer held, and the term made is the handle returned, alone or
as `{ok, Handle}`. -/
theorem created_cell_count_one (N : Native) (w : World) (op : Nif)
    (argv : List ERL_NIF_TERM) :
    (∀ a, w.refc a ≠ none → (op.run N w argv).world.refc a = w.refc a) ∧
    (((op.run N w argv).world.heap.length = w.heap.length ∧
        (op.run N w argv).world.events = w.events) ∨
      ((op.run N w argv).world.heap.length = w.heap.length + 1 ∧
        (op.run N w argv).world.events =
          w.events ++ [.alloc w.heap.length, .make w.heap.length, .release w.heap.length] ∧
        (op.run N w argv).world.refc w.heap.length = some 1 ∧
        ((op.run N w argv).ret = some (.resource w.heap.length) ∨
          (op.run N w argv).ret =
            some (enif_make_tuple2 atom_ok (.resource w.heap.length))))) := by
  generalize hrun : op.run N w argv = run
  cases op <;> simp only [Nif.run] at hrun
  all_goals
    simp only [rcl_publisher.nif_rcl_publisher_init,
      rcl_publisher.nif_rcl_publisher_fini,
      rcl_publisher.nif_rcl_publish,
      rcl_publisher.nif_rcl_publisher_can_loan_messages,
      rcl_publisher.nif_rcl_borrow_loaned_message,
      rcl_publisher.nif_rcl_publish_loaned_message,
      rcl_publisher.nif_rcl_return_loaned_message_from_publisher,
      rcl_subscription.nif_rcl_subscription_init,
      rcl_subscription.nif_rcl_subscription_fini,
      rcl_subscription.nif_rcl_take,
      rcl_subscription.nif_rcl_subscription_can_loan_messages,
      rcl_subscription.nif_rcl_take_loaned_message,
      rcl_subscription.nif_rcl_return_loaned_message_from_subscription,
      rcl_client.nif_rcl_client_init,
      rcl_client.nif_rcl_client_fini,
      rcl_client.nif_rcl_take_response_with_info,
      rcl_client.nif_rcl_send_request,
      rcl_clock.nif_rcl_clock_init,
      rcl_clock.nif_rcl_clock_get_now,
      rcl_clock.nif_rcl_clock_fini,
      msg_int16_nif.nif_create_empty_int16,
      msg_int16_nif.nif_create_msginfo,
      msg_int16_nif.nif_std_msgs__msg__Int16__init,
      msg_int16_nif.nif_std_msgs__msg__Int16__destroy,
      msg_int16_nif.nif_getmsgtype_int16,
      msg_int16_nif.nif_readdata_int16,
      msg_int16_nif.nif_setdata_int16,
      publisher_nif.nif_rcl_get_zero_initialized_publisher,
      publisher_nif.nif_rcl_publisher_get_default_options,
      publisher_nif.nif_rcl_publisher_get_topic_name,
      publisher_nif.nif_rcl_publisher_fini,
      publisher_nif.nif_rcl_publisher_init,
      publisher_nif.nif_rcl_publisher_is_valid,
      publisher_nif.nif_rcl_publish] at hrun
  all_goals repeat' (split at hrun)
  all_goals
    subst hrun
    refine ⟨fun a ha => ?_, ?_⟩
  all_goals
    simp_all [alloc_fst, length_alloc, refc_alloc, refc_make_resource, refc_release_resource,
      refc_of_length_eq, make_resource_fst, enif_make_tuple2, events_alloc,
      events_make_resource, events_release_resource]
  all_goals
    intro h
    subst h
    simp_all [refc_of_length_eq]

/-- C16 on a concrete run of the legacy bridge: `nif_rcl_publisher_fini` of
`c_src/src/publisher_nif.c` adds the cell of the return code at address `4`, returns its
handle and leaves it with count `1` after one allocation, one term made and one release;
the counts of the four cells that existed stay `1`. -/
theorem legacy_fini_cell_count :
    (publisher_nif.nif_rcl_publisher_fini Native.double World.legacy
      [.resource 0, .resource 1]).ret = some (.resource 4) ∧
    ((publisher_nif.nif_rcl_publisher_fini Native.double World.legacy
      [.resource 0, .resource 1]).world.heap.map Cell.refc) = [1, 1, 1, 1, 1] ∧
    (publisher_nif.nif_rcl_publisher_fini Native.double World.legacy
      [.resource 0, .resource 1]).world.events = [.alloc 4, .make 4, .release 4] :=
  ⟨by decide, by decide, by decide⟩

end Rclex

namespace Rclex

open ResourceType

/-! ## The name handed to the validator and to the native constructor -/

theorem get_string_nameFits (t : ERL_NIF_TERM) :
    (0 < (enif_get_string t 256).1) ↔ nameFits t 256 = true := by
  cases t <;> simp [enif_get_string, nameFits]
  rename_i cs
  split
  · split
    · simp_all
    · simp_all
  · simp_all

theorem name_of_get_string (t : ERL_NIF_TERM) (h : 0 < (enif_get_string t 256).1) :
    ∃ cs, t = .list cs ∧ (∀ c ∈ cs, 0 ≤ c ∧ c ≤ 255) ∧ cs.length ≤ 255 ∧
      (enif_get_string t 256).2 = cs.map Int.toNat := by
  cases t <;> simp [enif_get_string] at h
  rename_i cs
  refine ⟨cs, rfl, ?_⟩
  simp only [enif_get_string]
  split at h
  · split at h
    · simp_all
      omega
    · simp at h
  · simp at h

theorem cstr_length_le (l : List Nat) : (cstr l).length ≤ l.length := by
  unfold cstr
  induction l with
  | nil => simp
  | cons x xs ih =>
    simp only [List.takeWhile_cons]
    split
    · simp only [List.length_cons]
      omega
    · simp

theorem cstr_of_no_nul (l : List Nat) (h : ∀ b ∈ l, b ≠ 0) : cstr l = l := by
  unfold cstr
  rw [List.takeWhile_eq_self_iff]
  intro b hb
  simpa using h b hb

theorem publisher_init_name_calls (N : Native) (w : World) (argv : List ERL_NIF_TERM)
    (k : NativeCall) (hk : k ∈ (rcl_publisher.nif_rcl_publisher_init N w argv).calls)
    (hfn : k.fn = .rmw_validate_full_topic_name ∨ k.fn = .rcl_publisher_init) :
    ∃ a0 a1 a2 a3, argv = [a0, a1, a2, a3] ∧ 0 < (enif_get_string a2 256).1 ∧
      k.str = cstr (enif_get_string a2 256).2 := by
  generalize hrun : rcl_publisher.nif_rcl_publisher_init N w argv = run at hk
  simp only [rcl_publisher.nif_rcl_publisher_init] at hrun
  repeat' (split at hrun)
  all_goals
    subst hrun
    simp_all [predCall, validateCall, initCall]
  all_goals
    rcases hk with rfl | rfl | rfl <;> simp_all <;>
      exact ⟨_, _, _, ⟨rfl, rfl, rfl⟩, by assumption, rfl⟩

theorem subscription_init_name_calls (N : Native) (w : World) (argv : List ERL_NIF_TERM)
    (k : NativeCall) (hk : k ∈ (rcl_subscription.nif_rcl_subscription_init N w argv).calls)
    (hfn : k.fn = .rmw_validate_full_topic_name ∨ k.fn = .rcl_subscription_init) :
    ∃ a0 a1 a2 a3, argv = [a0, a1, a2, a3] ∧ 0 < (enif_get_string a2 256).1 ∧
      k.str = cstr (enif_get_string a2 256).2 := by
  generalize hrun : rcl_subscription.nif_rcl_subscription_init N w argv = run at hk
  simp only [rcl_subscription.nif_rcl_subscription_init] at hrun
  repeat' (split at hrun)
  all_goals
    subst hrun
    simp_all [predCall, validateCall, initCall]
  all_goals
    rcases hk with rfl | rfl | rfl <;> simp_all <;>
      exact ⟨_, _, _, ⟨rfl, rfl, rfl⟩, by assumption, rfl⟩

theorem client_init_name_calls (N : Native) (w : World) (argv : List ERL_NIF_TERM)
    (k : NativeCall) (hk : k ∈ (rcl_client.nif_rcl_client_init N w argv).calls)
    (hfn : k.fn = .rmw_validate_full_topic_name ∨ k.fn = .rcl_client_init) :
    ∃ a0 a1 a2 a3, argv = [a0, a1, a2, a3] ∧ 0 < (enif_get_string a2 256).1 ∧
      k.str = cstr (enif_get_string a2 256).2 := by
  generalize hrun : rcl_client.nif_rcl_client_init N w argv = run at hk
  simp only [rcl_client.nif_rcl_client_init] at hrun
  repeat' (split at hrun)
  all_goals
    subst hrun
    simp_all [predCall, validateCall, initCall]
  all_goals
    rcases hk with rfl | rfl | rfl <;> simp_all <;>
      exact ⟨_, _, _, ⟨rfl, rfl, rfl⟩, by assumption, rfl⟩

/-- C17, as stated, fails: the name `/a`, a NUL byte, `b` is a list of Latin-1 characters of
length four, `nif_rcl_publisher_init` accepts it in the sample world, and the name validator
and native `rcl_publisher_init` receive the two bytes `/a` in front of the NUL, not the
four bytes of the caller. -/
theorem init_name_cut_at_nul :
    nameFits (.list [47, 97, 0, 98]) 256 = true ∧
    (rcl_publisher.nif_rcl_publisher_init Native.double World.sample
      [.resource 0, .resource 1, .list [47, 97, 0, 98], .other 0]).ret = some (.resource 7) ∧
    (rcl_publisher.nif_rcl_publisher_init Native.double World.sample
      [.resource 0, .resource 1, .list [47, 97, 0, 98], .other 0]).calls.map
        (fun k => (k.fn, k.str)) =
      [(.rcl_node_is_valid, []), (.rmw_validate_full_topic_name, [47, 97]),
        (.rcl_publisher_init, [47, 97])] :=
  ⟨by decide, by decide, by decide⟩

/-- C17, amended: in `nif_rcl_publisher_init`, `nif_rcl_subscription_init` and
`nif_rcl_client_init` of `src/`, whenever the name validator or the native constructor is
called, the name argument is a list of Latin-1 characters of length at most 255 and the
name passed is the caller's bytes in front of the first NUL byte, of length at most 255; it
is byte-for-byte the caller's name when that name holds no NUL byte.  A name argument that
is not such a list, or whose length is 256 or more, is rejected with `badarg`, the world
unchanged and neither the validator nor the constructor called, once the node handle is
accepted and live and the type-support handle is accepted. -/
theorem init_name_passed (N : Native) (w : World) :
    ∀ op ∈ [(Nif.publisher_init, NativeFn.rcl_publisher_init,
          rt_rosidl_message_type_support_t),
        (.subscription_init, .rcl_subscription_init, rt_rosidl_message_type_support_t),
        (.client_init, .rcl_client_init, rt_rosidl_service_type_support_t)],
      (∀ argv, ∀ k ∈ (op.1.run N w argv).calls,
        k.fn = .rmw_validate_full_topic_name ∨ k.fn = op.2.1 →
        ∃ a0 a1 cs a3, argv = [a0, a1, .list cs, a3] ∧
          (∀ c ∈ cs, 0 ≤ c ∧ c ≤ 255) ∧ cs.length ≤ 255 ∧
          k.str = cstr (cs.map Int.toNat) ∧ k.str.length ≤ 255 ∧
          ((0 : Int) ∉ cs → k.str = cs.map Int.toNat)) ∧
      (∀ a0 a1 a2 a3 node_p ts_p,
        enif_get_resource w a0 .rt_rcl_node_t = some node_p →
        N.rcl_node_is_valid (w.deref node_p) = true →
        enif_get_resource w a1 op.2.2 = some ts_p →
        nameFits a2 256 = false →
        (op.1.run N w [a0, a1, a2, a3]).ret = some enif_make_badarg ∧
        (op.1.run N w [a0, a1, a2, a3]).world = w ∧
        (op.1.run N w [a0, a1, a2, a3]).calls =
          [predCall .rcl_node_is_valid w node_p true]) := by
  have key : ∀ (argv : List ERL_NIF_TERM) (k : NativeCall),
      (∃ a0 a1 a2 a3, argv = [a0, a1, a2, a3] ∧ 0 < (enif_get_string a2 256).1 ∧
        k.str = cstr (enif_get_string a2 256).2) →
      ∃ a0 a1 cs a3, argv = [a0, a1, .list cs, a3] ∧
        (∀ c ∈ cs, 0 ≤ c ∧ c ≤ 255) ∧ cs.length ≤ 255 ∧
        k.str = cstr (cs.map Int.toNat) ∧ k.str.length ≤ 255 ∧
        ((0 : Int) ∉ cs → k.str = cs.map Int.toNat) := by
    rintro argv k ⟨a0, a1, a2, a3, rfl, hpos, hstr⟩
    obtain ⟨cs, rfl, hb, hl, hcs⟩ := name_of_get_string a2 hpos
    rw [hcs] at hstr
    refine ⟨a0, a1, cs, a3, rfl, hb, hl, hstr, ?_, ?_⟩
    · rw [hstr]
      have := cstr_length_le (cs.map Int.toNat)
      simp only [List.length_map] at this
      omega
    · intro h0
      rw [hstr]
      apply cstr_of_no_nul
      intro b hb0
      simp only [List.mem_map] at hb0
      obtain ⟨c, hc, rfl⟩ := hb0
      have h1 := hb c hc
      have h2 : c ≠ 0 := fun h => h0 (h ▸ hc)
      omega
  have rej : ∀ a2, nameFits a2 256 = false → (enif_get_string a2 256).1 ≤ 0 := by
    intro a2 h
    by_contra hc
    have := (get_string_nameFits a2).1 (by omega)
    simp_all
  intro op hop
  simp only [List.mem_cons, List.mem_singleton, List.not_mem_nil, or_false] at hop
  rcases hop with rfl | rfl | rfl
  · refine ⟨fun argv k hk hfn => key argv k (publisher_init_name_calls N w argv k hk hfn),
      fun a0 a1 a2 a3 node_p ts_p hn hv ht hbad => ?_⟩
    simp [Nif.run, rcl_publisher.nif_rcl_publisher_init, hn, hv, ht, rej a2 hbad]
  · refine ⟨fun argv k hk hfn => key argv k (subscription_init_name_calls N w argv k hk hfn),
      fun a0 a1 a2 a3 node_p ts_p hn hv ht hbad => ?_⟩
    simp [Nif.run, rcl_subscription.nif_rcl_subscription_init, hn, hv, ht, rej a2 hbad]
  · refine ⟨fun argv k hk hfn => key argv k (client_init_name_calls N w argv k hk hfn),
      fun a0 a1 a2 a3 node_p ts_p hn hv ht hbad => ?_⟩
    simp [Nif.run, rcl_client.nif_rcl_client_init, hn, hv, ht, rej a2 hbad]

/-- C17 on a concrete input: in the sample world `nif_rcl_subscription_init` rejects the
name `[47, 300]`, which is not a list of Latin-1 characters, with `badarg`. -/
theorem init_name_passed_witness :
    enif_get_resource World.sample (.resource 0) .rt_rcl_node_t = some 0 ∧
    Native.double.rcl_node_is_valid (World.sample.deref 0) = true ∧
    enif_get_resource World.sample (.resource 1) .rt_rosidl_message_type_support_t
      = some 1 ∧
    nameFits (.list [47, 300]) 256 = false ∧
    (rcl_subscription.nif_rcl_subscription_init Native.double World.sample
      [.resource 0, .resource 1, .list [47, 300], .other 0]).ret = some enif_make_badarg :=
  ⟨by decide, by decide, by decide, by decide,
    ((init_name_passed Native.double World.sample
      (.subscription_init, .rcl_subscription_init, rt_rosidl_message_type_support_t)
      (by decide)).2 (.resource 0) (.resource 1) (.list [47, 300]) (.other 0) 0 1
      (by decide) (by decide) (by decide) (by decide)).1⟩

/-- A name of 256 characters does not fit the buffer of 256 bytes, one of 255 does. -/
theorem name_length_limit :
    nameFits (.list (List.replicate 256 97)) 256 = false ∧
    nameFits (.list (List.replicate 255 97)) 256 = true := by
  constructor <;>
    simp only [nameFits, List.length_replicate, List.all_eq_true, List.mem_replicate,
      Bool.and_eq_true, Bool.and_eq_false_iff, decide_eq_true_eq, decide_eq_false_iff_not]
  · right
    omega
  · refine ⟨fun c hc => ?_, by omega⟩
    omega

end Rclex

namespace Rclex

open ResourceType

/-! ## The data of an Int16 message -/

theorem int16_data_set (v : Nat) (n : Int) :
    msg_int16_nif.int16_data (msg_int16_nif.set_int16_data v n) =
      (n + 32768) % 65536 - 32768 := by
  unfold msg_int16_nif.int16_data msg_int16_nif.set_int16_data
  split <;> omega

/-- C18, the Int16 round trip: for a handle to a cell of the message kind `rt_void` and an
integer `n` that fits a C `int`, `nif_setdata_int16` returns `ok`, and
`nif_readdata_int16` on the same handle in the resulting world returns
`((n + 32768) mod 65536) - 32768`; that number is `n` itself exactly when
`-32768 ≤ n ≤ 32767`. -/
theorem int16_round_trip (N : Native) (w : World) (cell : ERL_NIF_TERM) (p : Nat) (n : Int)
    (hc : enif_get_resource w cell .rt_void = some p)
    (hn : -2147483648 ≤ n ∧ n ≤ 2147483647) :
    (msg_int16_nif.nif_setdata_int16 N w [cell, .integer n]).ret
      = some (enif_make_atom "ok") ∧
    (msg_int16_nif.nif_readdata_int16 N
      (msg_int16_nif.nif_setdata_int16 N w [cell, .integer n]).world [cell]).ret
      = some (.integer ((n + 32768) % 65536 - 32768)) ∧
    ((n + 32768) % 65536 - 32768 = n ↔ -32768 ≤ n ∧ n ≤ 32767) := by
  have hk := (get_resource_kind w cell .rt_void p).1 hc
  have hc2 : ∀ v, enif_get_resource (w.store p v) cell .rt_void = some p := by
    intro v
    rw [get_resource_kind]
    exact ⟨hk.1, by simpa using hk.2⟩
  refine ⟨?_, ?_, by omega⟩
  · simp [msg_int16_nif.nif_setdata_int16, hc, enif_get_int, hn]
  · simp [msg_int16_nif.nif_setdata_int16, msg_int16_nif.nif_readdata_int16, hc, hc2,
      enif_get_int, hn, deref_store, hk.2, enif_make_int, int16_data_set]

/-- C18 on concrete inputs: in the sample world of the legacy bridge, writing `40000` into
the message at address `3` and reading it back gives `-25536`. -/
theorem int16_round_trip_witness :
    enif_get_resource World.legacy (.resource 3) .rt_void = some 3 ∧
    ((-2147483648 : Int) ≤ 40000 ∧ (40000 : Int) ≤ 2147483647) ∧
    (msg_int16_nif.nif_setdata_int16 Native.double World.legacy
      [.resource 3, .integer 40000]).ret = some (enif_make_atom "ok") ∧
    (msg_int16_nif.nif_readdata_int16 Native.double
      (msg_int16_nif.nif_setdata_int16 Native.double World.legacy
        [.resource 3, .integer 40000]).world [.resource 3]).ret
      = some (.integer (-25536)) :=
  ⟨by decide, by decide,
    (int16_round_trip Native.double World.legacy (.resource 3) 3 40000 (by decide)
      (by decide)).1,
    (int16_round_trip Native.double World.legacy (.resource 3) 3 40000 (by decide)
      (by decide)).2.1⟩

end Rclex
